import Mathlib

/-!
# customdriver: a logging decorator over `database/sql/driver`

Shallow embedding of `src/customdriver/{driver,connector,conn,stmt,tx}.go`.

* A Go interface value is an `Option` of a record of methods; `none` is the
  nil interface.  Calling a method on a nil interface panics.
* An optional interface (`driver.ExecerContext`, ...) that a delegate may or
  may not implement is an `Option` field of the record; the type assertion
  `x.(driver.T)` reads that field (and fails on a nil interface).
* A delegate method is a state transformer over the delegate side's state `σ`
  that either returns or panics (`Op σ α`).
* A wrapper method is a state transformer over `World σ`: the delegate side's
  state, the telemetry sink, the wall clock, and a ghost trace of the calls
  made on delegate objects.
-/

namespace driver

/-- Go `error` values that are not nil.  `ErrSkip`, `ErrBadConn` are the
sentinels of `database/sql/driver`, `EOF` is `io.EOF`. -/
inductive GoError where
  | ErrSkip
  | ErrBadConn
  | EOF
  | other (msg : String)
  deriving DecidableEq, Repr

/-- The dynamic values of `driver.Value`. -/
inductive Value where
  | null
  | int (n : Int)
  | str (s : String)
  | bool (b : Bool)
  deriving DecidableEq, Repr

/-- Go struct `driver.NamedValue`. -/
structure NamedValue where
  Name : String
  Ordinal : Int
  Value : Value
  deriving DecidableEq, Repr

/-- Go struct `driver.TxOptions`. -/
structure TxOptions where
  Isolation : Int
  ReadOnly : Bool
  deriving DecidableEq, Repr

/-- A `context.Context`, identified by a number, with its cancellation flag. -/
structure Context where
  id : Nat
  cancelled : Bool
  deriving DecidableEq, Repr

/-- What a `driver.Result` answers; the wrappers pass it through untouched. -/
structure Result where
  LastInsertId : Int
  RowsAffected : Int
  deriving DecidableEq, Repr

/-- Outcome of running a Go function in state `σ`: it returns a value, or it
panics; both leave a state behind. -/
inductive Res (σ α : Type) where
  | ret (a : α) (s : σ)
  | panic (s : σ)

/-- A Go function with side effects on `σ`. -/
def Op (σ α : Type) : Type := σ → Res σ α

/-- Sequencing of two Go statements: a panic skips what follows. -/
def Op.bind {σ α β : Type} (m : Op σ α) (f : α → Op σ β) : Op σ β := fun s =>
  match m s with
  | .ret a s1 => f a s1
  | .panic s1 => .panic s1

/-- A Go `return`. -/
def Op.pure {σ α : Type} (a : α) : Op σ α := fun s => .ret a s

instance {σ : Type} : Monad (Op σ) where
  pure := Op.pure
  bind := Op.bind

/-- The value a run returned, if it returned. -/
def Res.value? {σ α : Type} : Res σ α → Option α
  | .ret a _ => some a
  | .panic _ => none

/-- The state a run left behind. -/
def Res.state {σ α : Type} : Res σ α → σ
  | .ret _ s => s
  | .panic s => s

/-- Running the same call `n` times in a row, collecting what it returned. -/
def Op.times {σ α : Type} (m : Op σ α) : Nat → Op σ (List α)
  | 0 => Op.pure []
  | n + 1 => Op.bind m (fun a => Op.bind (Op.times m n) (fun as => Op.pure (a :: as)))

/-- Go interface `driver.Rows`. -/
structure Rows (σ : Type) where
  Columns : Op σ (List String)
  Close : Op σ (Option GoError)
  Next : List Value → Op σ (List Value × Option GoError)

/-- Go interface `driver.Stmt` with the optional interfaces a statement may
also implement. -/
structure Stmt (σ : Type) where
  Close : Op σ (Option GoError)
  NumInput : Op σ Int
  Exec : List Value → Op σ (Option Result × Option GoError)
  Query : List Value → Op σ (Option (Rows σ) × Option GoError)
  StmtExecContext :
    Option (Context → List NamedValue → Op σ (Option Result × Option GoError))
  StmtQueryContext :
    Option (Context → List NamedValue → Op σ (Option (Rows σ) × Option GoError))
  NamedValueChecker : Option (NamedValue → Op σ (NamedValue × Option GoError))

/-- Go interface `driver.Tx`. -/
structure Tx (σ : Type) where
  Commit : Op σ (Option GoError)
  Rollback : Op σ (Option GoError)

/-- Go interface `driver.Conn` with the optional interfaces a connection may
also implement.  `CheckNamedValue` takes a pointer: the (possibly rewritten)
pointee is returned next to the error. -/
structure Conn (σ : Type) where
  Prepare : String → Op σ (Option (Stmt σ) × Option GoError)
  Close : Op σ (Option GoError)
  Begin : Op σ (Option (Tx σ) × Option GoError)
  ConnPrepareContext :
    Option (Context → String → Op σ (Option (Stmt σ) × Option GoError))
  ExecerContext :
    Option (Context → String → List NamedValue → Op σ (Option Result × Option GoError))
  QueryerContext :
    Option (Context → String → List NamedValue → Op σ (Option (Rows σ) × Option GoError))
  ConnBeginTx : Option (Context → TxOptions → Op σ (Option (Tx σ) × Option GoError))
  Pinger : Option (Context → Op σ (Option GoError))
  SessionResetter : Option (Context → Op σ (Option GoError))
  Validator : Option (Op σ Bool)
  NamedValueChecker : Option (NamedValue → Op σ (NamedValue × Option GoError))

/-- Go interface `driver.Connector`, over the type `δ` of drivers. -/
structure ConnectorOf (σ δ : Type) where
  Connect : Context → Op σ (Option (Conn σ) × Option GoError)
  Driver : Option δ

/-- Go interface `driver.Driver`; `DriverContext` is the optional
`OpenConnector` method. -/
inductive Driver (σ : Type) : Type where
  | mk (Open : String → σ → Res σ (Option (Conn σ) × Option GoError))
       (DriverContext :
          Option (String → σ → Res σ (Option (ConnectorOf σ (Driver σ)) × Option GoError)))

/-- Go interface `driver.Connector`. -/
abbrev Connector (σ : Type) : Type := ConnectorOf σ (Driver σ)

/-- Method `Open` of a `driver.Driver`. -/
def Driver.Open {σ : Type} : Driver σ → String → Op σ (Option (Conn σ) × Option GoError)
  | .mk o _ => o

/-- The type assertion `d.(driver.DriverContext)`. -/
def Driver.DriverContext {σ : Type} :
    Driver σ → Option (String → Op σ (Option (Connector σ) × Option GoError))
  | .mk _ oc => oc

end driver

namespace slog

/-- Severity of a telemetry event (`slog.Level`). -/
inductive Level where
  | Info
  | Warn
  | Error
  deriving DecidableEq, Repr

/-- The values the wrappers attach to an event: `slog.String`,
`slog.Any` of named or positional arguments, `slog.Duration`, `slog.Any` of
an error, and the two transaction options. -/
inductive AttrValue where
  | String (s : String)
  | NamedValues (args : List driver.NamedValue)
  | Values (args : List driver.Value)
  | Duration (d : Nat)
  | Error (e : driver.GoError)
  | Isolation (level : Int)
  | Bool (b : Bool)
  deriving DecidableEq, Repr

/-- A `*slog.Logger`, identified by a number. -/
structure Logger where
  id : Nat
  deriving DecidableEq, Repr

/-- One event as handed to the sink. -/
structure Record where
  logger : Logger
  level : Level
  msg : String
  attrs : List (String × AttrValue)
  deriving DecidableEq, Repr

end slog

namespace customdriver

open driver

/-- A method call made on a delegate object, with its arguments. -/
inductive Call where
  | DriverOpen (name : String)
  | DriverOpenConnector (name : String)
  | ConnectorConnect (ctx : Context)
  | ConnPrepare (query : String)
  | ConnClose
  | ConnBegin
  | ConnPrepareContext (ctx : Context) (query : String)
  | ConnExecContext (ctx : Context) (query : String) (args : List NamedValue)
  | ConnQueryContext (ctx : Context) (query : String) (args : List NamedValue)
  | ConnBeginTx (ctx : Context) (opts : TxOptions)
  | ConnPing (ctx : Context)
  | ConnResetSession (ctx : Context)
  | ConnIsValid
  | ConnCheckNamedValue (nv : NamedValue)
  | StmtClose
  | StmtNumInput
  | StmtExec (args : List Value)
  | StmtQuery (args : List Value)
  | StmtExecContext (ctx : Context) (args : List NamedValue)
  | StmtQueryContext (ctx : Context) (args : List NamedValue)
  | StmtCheckNamedValue (nv : NamedValue)
  | TxCommit
  | TxRollback
  | RowsClose
  deriving DecidableEq, Repr

/-- Everything a wrapper method can read or change: the delegate side's state,
the calls made on delegate objects so far (ghost), the events emitted so far,
and the clock, given as the sequence of its successive readings. -/
structure World (σ : Type) where
  inner : σ
  calls : List Call
  log : List slog.Record
  clock : Nat → Nat
  reads : Nat

/-- The events emitted between world `w` and the later world `w1`. -/
def World.emittedSince {σ : Type} (w w1 : World σ) : List slog.Record :=
  w1.log.drop w.log.length

/-- The delegate calls made between world `w` and the later world `w1`. -/
def World.calledSince {σ : Type} (w w1 : World σ) : List Call :=
  w1.calls.drop w.calls.length

/-- Go `time.Now()`. -/
def timeNow {σ : Type} : Op (World σ) Nat := fun w =>
  .ret (w.clock w.reads) { w with reads := w.reads + 1 }

/-- Go `time.Since(start)`. -/
def timeSince {σ : Type} (start : Nat) : Op (World σ) Nat := fun w =>
  .ret (w.clock w.reads - start) { w with reads := w.reads + 1 }

/-- Go `logger.Info / Warn / Error (msg, attrs...)`. -/
def logAt {σ : Type} (logger : slog.Logger) (level : slog.Level) (msg : String)
    (attrs : List (String × slog.AttrValue)) : Op (World σ) Unit := fun w =>
  .ret () { w with log := w.log ++ [⟨logger, level, msg, attrs⟩] }

/-- Go `panic`: a nil dereference. -/
def goPanic {σ α : Type} : Op (World σ) α := fun w => .panic w

/-- A method call `recv.m(args)` on an interface value `recv`: a nil receiver
panics, otherwise the delegate's method runs on the delegate side's state and
the call is recorded. -/
def invoke {σ τ α : Type} (recv : Option τ) (call : Call) (m : τ → Op σ α) :
    Op (World σ) α := fun w =>
  match recv with
  | none => .panic w
  | some d =>
    match m d w.inner with
    | .ret a s => .ret a { w with inner := s, calls := w.calls ++ [call] }
    | .panic s => .panic { w with inner := s, calls := w.calls ++ [call] }

/-- Go struct `customTx`. -/
structure customTx (σ : Type) where
  tx : Option (Tx σ)
  logger : slog.Logger

/-- Go struct `customStmt`. -/
structure customStmt (σ : Type) where
  stmt : Option (Stmt σ)
  logger : slog.Logger
  query : String

/-- Go struct `customConn`. -/
structure customConn (σ : Type) where
  conn : Option (Conn σ)
  logger : slog.Logger

/-- Go struct `CustomDriver`. -/
structure CustomDriver (σ : Type) where
  driver : Option (Driver σ)
  logger : slog.Logger

/-- Go struct `CustomConnector`. -/
structure CustomConnector (σ : Type) where
  connector : Option (Connector σ)
  driver : CustomDriver σ
  logger : slog.Logger

/-- Go struct `dsnConnector`. -/
structure dsnConnector (σ : Type) where
  dsn : String
  driver : CustomDriver σ

/-! ## tx.go -/

/-- Go `(*customTx).Commit`. -/
def customTx.Commit {σ : Type} (t : customTx σ) : Op (World σ) (Option GoError) := do
  let start ← timeNow
  let err ← invoke t.tx .TxCommit (fun d => d.Commit)
  let duration ← timeSince start
  match err with
  | some e =>
    logAt t.logger .Error "transaction commit failed"
      [("duration", .Duration duration), ("error", .Error e)]
  | none =>
    logAt t.logger .Info "transaction committed" [("duration", .Duration duration)]
  return err

/-- Go `(*customTx).Rollback`. -/
def customTx.Rollback {σ : Type} (t : customTx σ) : Op (World σ) (Option GoError) := do
  let start ← timeNow
  let err ← invoke t.tx .TxRollback (fun d => d.Rollback)
  let duration ← timeSince start
  match err with
  | some e =>
    logAt t.logger .Error "transaction rollback failed"
      [("duration", .Duration duration), ("error", .Error e)]
  | none =>
    logAt t.logger .Info "transaction rolled back" [("duration", .Duration duration)]
  return err

/-! ## stmt.go -/

/-- Go `(*customStmt).Close`. -/
def customStmt.Close {σ : Type} (s : customStmt σ) : Op (World σ) (Option GoError) :=
  invoke s.stmt .StmtClose (fun d => d.Close)

/-- Go `(*customStmt).NumInput`. -/
def customStmt.NumInput {σ : Type} (s : customStmt σ) : Op (World σ) Int :=
  invoke s.stmt .StmtNumInput (fun d => d.NumInput)

/-- Go `(*customStmt).Exec`. -/
def customStmt.Exec {σ : Type} (s : customStmt σ) (args : List Value) :
    Op (World σ) (Option Result × Option GoError) := do
  let start ← timeNow
  let (result, err) ← invoke s.stmt (.StmtExec args) (fun d => d.Exec args)
  let duration ← timeSince start
  match err with
  | some e =>
    logAt s.logger .Error "stmt execution failed"
      [("query", .String s.query), ("args", .Values args),
       ("duration", .Duration duration), ("error", .Error e)]
  | none =>
    logAt s.logger .Info "stmt executed"
      [("query", .String s.query), ("args", .Values args),
       ("duration", .Duration duration)]
  return (result, err)

/-- Go `(*customStmt).Query`. -/
def customStmt.Query {σ : Type} (s : customStmt σ) (args : List Value) :
    Op (World σ) (Option (Rows σ) × Option GoError) := do
  let start ← timeNow
  let (rows, err) ← invoke s.stmt (.StmtQuery args) (fun d => d.Query args)
  let duration ← timeSince start
  match err with
  | some e =>
    logAt s.logger .Error "stmt query failed"
      [("query", .String s.query), ("args", .Values args),
       ("duration", .Duration duration), ("error", .Error e)]
  | none =>
    logAt s.logger .Info "stmt queried"
      [("query", .String s.query), ("args", .Values args),
       ("duration", .Duration duration)]
  return (rows, err)

/-- Go `(*customStmt).ExecContext`: the type assertion, the fallback through
`s.Exec` on `!ok`, otherwise the timed call of the delegate's `ExecContext`. -/
def customStmt.ExecContext {σ : Type} (s : customStmt σ) (ctx : Context)
    (args : List NamedValue) : Op (World σ) (Option Result × Option GoError) := do
  let stmtExecCtx := s.stmt.bind Stmt.StmtExecContext
  let ok := stmtExecCtx.isSome
  if !ok then
    -- fallback
    let dargs := args.map (fun nv => nv.Value)
    s.Exec dargs
  else
    let start ← timeNow
    let (result, err) ← invoke stmtExecCtx (.StmtExecContext ctx args) (fun f => f ctx args)
    let duration ← timeSince start
    match err with
    | some e =>
      logAt s.logger .Error "stmt execution failed"
        [("query", .String s.query), ("args", .NamedValues args),
         ("duration", .Duration duration), ("error", .Error e)]
    | none =>
      logAt s.logger .Info "stmt executed"
        [("query", .String s.query), ("args", .NamedValues args),
         ("duration", .Duration duration)]
    return (result, err)

/-- Go `(*customStmt).QueryContext`: the type assertion, the branch through
`s.Query` taken on `ok`, otherwise the timed call of `QueryContext` on the
value the failed assertion left in `stmtQueryCtx`. -/
def customStmt.QueryContext {σ : Type} (s : customStmt σ) (ctx : Context)
    (args : List NamedValue) : Op (World σ) (Option (Rows σ) × Option GoError) := do
  let stmtQueryCtx := s.stmt.bind Stmt.StmtQueryContext
  let ok := stmtQueryCtx.isSome
  if ok then
    -- fallback
    let dargs := args.map (fun nv => nv.Value)
    s.Query dargs
  else
    let start ← timeNow
    let (rows, err) ← invoke stmtQueryCtx (.StmtQueryContext ctx args) (fun f => f ctx args)
    let duration ← timeSince start
    match err with
    | some e =>
      logAt s.logger .Error "stmt query context failed"
        [("query", .String s.query), ("args", .NamedValues args),
         ("duration", .Duration duration), ("error", .Error e)]
    | none =>
      logAt s.logger .Info "stmt queried context "
        [("query", .String s.query), ("args", .NamedValues args),
         ("duration", .Duration duration)]
    return (rows, err)

/-- Go `(*customStmt).CheckNamedValue`; the pointee after the call is returned
next to the error. -/
def customStmt.CheckNamedValue {σ : Type} (c : customStmt σ) (nv : NamedValue) :
    Op (World σ) (NamedValue × Option GoError) :=
  match c.stmt.bind Stmt.NamedValueChecker with
  | some checker => invoke (some checker) (.StmtCheckNamedValue nv) (fun f => f nv)
  | none => pure (nv, some .ErrSkip)

/-! ## conn.go -/

/-- Go `(*customConn).Prepare`. -/
def customConn.Prepare {σ : Type} (c : customConn σ) (query : String) :
    Op (World σ) (Option (customStmt σ) × Option GoError) := do
  let (stmt, err) ← invoke c.conn (.ConnPrepare query) (fun d => d.Prepare query)
  match err with
  | some e => return (none, some e)
  | none => return (some { stmt := stmt, logger := c.logger, query := query }, none)

/-- Go `(*customConn).Close`. -/
def customConn.Close {σ : Type} (c : customConn σ) : Op (World σ) (Option GoError) :=
  invoke c.conn .ConnClose (fun d => d.Close)

/-- Go `(*customConn).Begin`. -/
def customConn.Begin {σ : Type} (c : customConn σ) :
    Op (World σ) (Option (customTx σ) × Option GoError) := do
  let (tx, err) ← invoke c.conn .ConnBegin (fun d => d.Begin)
  match err with
  | some e => return (none, some e)
  | none =>
    logAt c.logger .Info "transaction started" []
    return (some { tx := tx, logger := c.logger }, none)

/-- Go `(*customConn).PrepareContext`. -/
def customConn.PrepareContext {σ : Type} (c : customConn σ) (ctx : Context)
    (query : String) : Op (World σ) (Option (customStmt σ) × Option GoError) :=
  match c.conn.bind Conn.ConnPrepareContext with
  | some connCtx => do
    let (stmt, err) ← invoke (some connCtx) (.ConnPrepareContext ctx query)
      (fun f => f ctx query)
    match err with
    | some e => return (none, some e)
    | none => return (some { stmt := stmt, logger := c.logger, query := query }, none)
  | none => c.Prepare query

/-- Go `(*customConn).ExecContext`. -/
def customConn.ExecContext {σ : Type} (c : customConn σ) (ctx : Context)
    (query : String) (args : List NamedValue) :
    Op (World σ) (Option Result × Option GoError) := do
  let start ← timeNow
  match c.conn.bind Conn.ExecerContext with
  | some execerCtx =>
    let (result, err) ← invoke (some execerCtx) (.ConnExecContext ctx query args)
      (fun f => f ctx query args)
    if err = some .ErrSkip then
      logAt c.logger .Warn "original driver does not support ExecerContext" []
      return (none, some .ErrSkip)
    else
      let duration ← timeSince start
      match err with
      | some e =>
        logAt c.logger .Error "sql execution failed"
          [("query", .String query), ("args", .NamedValues args),
           ("duration", .Duration duration), ("error", .Error e)]
      | none =>
        logAt c.logger .Info "sql executed"
          [("query", .String query), ("args", .NamedValues args),
           ("duration", .Duration duration)]
      return (result, err)
  | none =>
    logAt c.logger .Warn "original driver does not support ExecerContext" []
    return (none, some .ErrSkip)

/-- Go `(*customConn).QueryContext`. -/
def customConn.QueryContext {σ : Type} (c : customConn σ) (ctx : Context)
    (query : String) (args : List NamedValue) :
    Op (World σ) (Option (Rows σ) × Option GoError) := do
  let start ← timeNow
  match c.conn.bind Conn.QueryerContext with
  | some queryerCtx =>
    let (rows, err) ← invoke (some queryerCtx) (.ConnQueryContext ctx query args)
      (fun f => f ctx query args)
    if err = some .ErrSkip then
      logAt c.logger .Warn "original driver does not support QueryerContext" []
      return (none, some .ErrSkip)
    else
      let duration ← timeSince start
      match err with
      | some e =>
        logAt c.logger .Error "sql query failed"
          [("query", .String query), ("args", .NamedValues args),
           ("duration", .Duration duration), ("error", .Error e)]
      | none =>
        logAt c.logger .Info "sql queried"
          [("query", .String query), ("args", .NamedValues args),
           ("duration", .Duration duration)]
      return (rows, err)
  | none =>
    logAt c.logger .Warn "original driver does not support QueryerContext" []
    return (none, some .ErrSkip)

/-- Go `(*customConn).BeginTx`. -/
def customConn.BeginTx {σ : Type} (c : customConn σ) (ctx : Context) (opts : TxOptions) :
    Op (World σ) (Option (customTx σ) × Option GoError) :=
  match c.conn.bind Conn.ConnBeginTx with
  | some connBeginTx => do
    let (tx, err) ← invoke (some connBeginTx) (.ConnBeginTx ctx opts) (fun f => f ctx opts)
    match err with
    | some e => return (none, some e)
    | none =>
      logAt c.logger .Info "transaction started"
        [("isolation", .Isolation opts.Isolation), ("read_only", .Bool opts.ReadOnly)]
      return (some { tx := tx, logger := c.logger }, none)
  | none => c.Begin

/-- Go `(*customConn).Ping`: without a `driver.Pinger` the connection is
probed with `SELECT 1` through the wrapper's own `QueryContext` (nil
arguments), and the rows it returned are closed. -/
def customConn.Ping {σ : Type} (c : customConn σ) (ctx : Context) :
    Op (World σ) (Option GoError) :=
  match c.conn.bind Conn.Pinger with
  | none => do
    let (rows, err) ← c.QueryContext ctx "SELECT 1" []
    match err with
    | some e => return some e
    | none => invoke rows .RowsClose (fun r => r.Close)
  | some pinger => invoke (some pinger) (.ConnPing ctx) (fun f => f ctx)

/-- Go `(*customConn).ResetSession`. -/
def customConn.ResetSession {σ : Type} (c : customConn σ) (ctx : Context) :
    Op (World σ) (Option GoError) :=
  match c.conn.bind Conn.SessionResetter with
  | some resetter => invoke (some resetter) (.ConnResetSession ctx) (fun f => f ctx)
  | none => pure none

/-- Go `(*customConn).IsValid`. -/
def customConn.IsValid {σ : Type} (c : customConn σ) : Op (World σ) Bool :=
  match c.conn.bind Conn.Validator with
  | some validator => invoke (some validator) .ConnIsValid (fun f => f)
  | none => pure true

/-- Go `(*customConn).CheckNamedValue`; the pointee after the call is returned
next to the error. -/
def customConn.CheckNamedValue {σ : Type} (c : customConn σ) (nv : NamedValue) :
    Op (World σ) (NamedValue × Option GoError) :=
  match c.conn.bind Conn.NamedValueChecker with
  | some checker => invoke (some checker) (.ConnCheckNamedValue nv) (fun f => f nv)
  | none => pure (nv, some .ErrSkip)

/-! ## driver.go, connector.go -/

/-- Go `NewCustomDriver`. -/
def NewCustomDriver {σ : Type} (drv : Option (Driver σ)) (logger : slog.Logger) :
    CustomDriver σ :=
  { driver := drv, logger := logger }

/-- Go `(*CustomDriver).Open`. -/
def CustomDriver.Open {σ : Type} (d : CustomDriver σ) (name : String) :
    Op (World σ) (Option (customConn σ) × Option GoError) := do
  let (conn, err) ← invoke d.driver (.DriverOpen name) (fun drv => drv.Open name)
  match err with
  | some e => return (none, some e)
  | none => return (some { conn := conn, logger := d.logger }, none)

/-- What `(*CustomDriver).OpenConnector` returns: one of the two connector
types of the package. -/
inductive AnyConnector (σ : Type) where
  | custom (cc : CustomConnector σ)
  | dsn (c : dsnConnector σ)

/-- Go `(*CustomDriver).OpenConnector`. -/
def CustomDriver.OpenConnector {σ : Type} (d : CustomDriver σ) (name : String) :
    Op (World σ) (Option (AnyConnector σ) × Option GoError) :=
  match d.driver.bind Driver.DriverContext with
  | some dc => do
    let (connector, err) ← invoke (some dc) (.DriverOpenConnector name) (fun f => f name)
    match err with
    | some e => return (none, some e)
    | none =>
      return (some (.custom { connector := connector, driver := d, logger := d.logger }), none)
  | none => return (some (.dsn { dsn := name, driver := d }), none)

/-- Go `NewCustomConnector`; `connector.Driver()` on a nil connector panics. -/
def NewCustomConnector {σ : Type} (connector : Option (Connector σ)) (logger : slog.Logger) :
    Op (World σ) (CustomConnector σ) :=
  match connector with
  | none => goPanic
  | some k =>
    pure { connector := connector,
           driver := { driver := k.Driver, logger := logger },
           logger := logger }

/-- Go `(*CustomConnector).Connect`. -/
def CustomConnector.Connect {σ : Type} (cc : CustomConnector σ) (ctx : Context) :
    Op (World σ) (Option (customConn σ) × Option GoError) := do
  let (conn, err) ← invoke cc.connector (.ConnectorConnect ctx) (fun k => k.Connect ctx)
  match err with
  | some e => return (none, some e)
  | none => return (some { conn := conn, logger := cc.logger }, none)

/-- Go `(*CustomConnector).Driver`. -/
def CustomConnector.Driver {σ : Type} (cc : CustomConnector σ) : CustomDriver σ :=
  cc.driver

/-- Go `(*dsnConnector).Connect`. -/
def dsnConnector.Connect {σ : Type} (c : dsnConnector σ) (_ctx : Context) :
    Op (World σ) (Option (customConn σ) × Option GoError) :=
  c.driver.Open c.dsn

/-- Go `(*dsnConnector).Driver`. -/
def dsnConnector.Driver {σ : Type} (c : dsnConnector σ) : CustomDriver σ :=
  c.driver

/-! ## Events and sample delegates used below -/

/-- The warning of `customConn.ExecContext`. -/
def warnExec (l : slog.Logger) : slog.Record :=
  ⟨l, .Warn, "original driver does not support ExecerContext", []⟩

/-- The warning of `customConn.QueryContext`. -/
def warnQuery (l : slog.Logger) : slog.Record :=
  ⟨l, .Warn, "original driver does not support QueryerContext", []⟩

/-- A world over a counter: nothing called, nothing logged, the clock reads
`5, 12, 19, ...`. -/
def w0 : World Nat := ⟨0, [], [], fun n => 5 + 7 * n, 0⟩

/-- A background context. -/
def ctx0 : Context := ⟨0, false⟩

/-- The logger of the sample wrappers. -/
def lg : slog.Logger := ⟨1⟩

/-- Sample rows: `Close` succeeds and bumps the counter. -/
def demoRows : Rows Nat :=
  { Columns := fun s => .ret ["id", "name"] s
    Close := fun s => .ret none (s + 1)
    Next := fun dest s => .ret (dest, some .EOF) s }

/-- Sample statement implementing only `driver.Stmt`. -/
def demoStmt : Stmt Nat :=
  { Close := fun s => .ret none (s + 1)
    NumInput := fun s => .ret 1 s
    Exec := fun args s => .ret (some ⟨7, args.length⟩, none) (s + 1)
    Query := fun _ s => .ret (some demoRows, none) (s + 1)
    StmtExecContext := none
    StmtQueryContext := none
    NamedValueChecker := none }

/-- Sample transaction. -/
def demoTx : Tx Nat :=
  { Commit := fun s => .ret none (s + 1)
    Rollback := fun s => .ret none (s + 1) }

/-- Sample connection implementing only `driver.Conn`. -/
def demoConn : Conn Nat :=
  { Prepare := fun _ s => .ret (some demoStmt, none) (s + 1)
    Close := fun s => .ret none (s + 1)
    Begin := fun s => .ret (some demoTx, none) (s + 1)
    ConnPrepareContext := none
    ExecerContext := none
    QueryerContext := none
    ConnBeginTx := none
    Pinger := none
    SessionResetter := none
    Validator := none
    NamedValueChecker := none }

/-- Sample statement that also implements `driver.StmtExecContext` and
`driver.StmtQueryContext`: the context-aware methods refuse a cancelled
context, the plain ones cannot see it. -/
def demoStmtCtx : Stmt Nat :=
  { Close := fun s => .ret none (s + 1)
    NumInput := fun s => .ret 1 s
    Exec := fun args s => .ret (some ⟨7, args.length⟩, none) (s + 1)
    Query := fun _ s => .ret (some demoRows, none) (s + 1)
    StmtExecContext := some (fun ctx args s =>
      if ctx.cancelled then .ret (none, some (.other "context canceled")) s
      else .ret (some ⟨7, args.length⟩, none) (s + 1))
    StmtQueryContext := some (fun ctx _ s =>
      if ctx.cancelled then .ret (none, some (.other "context canceled")) s
      else .ret (some demoRows, none) (s + 1))
    NamedValueChecker := none }

/-- Sample connection that implements `driver.ExecerContext` and
`driver.QueryerContext`: the empty query is a syntax error, any other query
succeeds. -/
def demoConnCtx : Conn Nat :=
  { Prepare := fun _ s => .ret (some demoStmt, none) (s + 1)
    Close := fun s => .ret none (s + 1)
    Begin := fun s => .ret (some demoTx, none) (s + 1)
    ConnPrepareContext := none
    ExecerContext := some (fun _ q args s =>
      if q.length = 0 then .ret (none, some (.other "syntax error")) s
      else .ret (some ⟨7, args.length⟩, none) (s + 1))
    QueryerContext := some (fun _ q _ s =>
      if q.length = 0 then .ret (none, some (.other "syntax error")) s
      else .ret (some demoRows, none) (s + 1))
    ConnBeginTx := none
    Pinger := none
    SessionResetter := none
    Validator := none
    NamedValueChecker := none }

/-- A cancelled context. -/
def ctxCancelled : Context := ⟨1, true⟩

/-- The event a timed statement-level or connection-level call ends with:
info-level with query, arguments and duration when the error is nil,
error-level with the error attached otherwise. -/
def outcomeEvent (l : slog.Logger) (okMsg failMsg : String) (query : String)
    (args : slog.AttrValue) (duration : Nat) : Option GoError → slog.Record
  | none => ⟨l, .Info, okMsg,
      [("query", .String query), ("args", args), ("duration", .Duration duration)]⟩
  | some e => ⟨l, .Error, failMsg,
      [("query", .String query), ("args", args), ("duration", .Duration duration),
       ("error", .Error e)]⟩

/-- The event `Commit` and `Rollback` end with. -/
def txEvent (l : slog.Logger) (okMsg failMsg : String) (duration : Nat) :
    Option GoError → slog.Record
  | none => ⟨l, .Info, okMsg, [("duration", .Duration duration)]⟩
  | some e => ⟨l, .Error, failMsg, [("duration", .Duration duration), ("error", .Error e)]⟩

/-- The time measured by a call that starts in world `w`: the second clock
reading minus the first. -/
def World.elapsed {σ : Type} (w : World σ) : Nat :=
  w.clock (w.reads + 1) - w.clock w.reads

/-- The world after a timed call that started in `w`: the delegate side is in
state `s1`, the calls `cs` were made, the clock was read twice and the event
`r` was emitted. -/
def World.afterTimed {σ : Type} (w : World σ) (s1 : σ) (cs : List Call) (r : slog.Record) :
    World σ :=
  { inner := s1, calls := w.calls ++ cs, log := w.log ++ [r], clock := w.clock,
    reads := w.reads + 2 }

/-- The world after an untimed, silent delegate call `call` made in `w`. -/
def World.afterCall {σ : Type} (w : World σ) (s1 : σ) (call : Call) : World σ :=
  { w with inner := s1, calls := w.calls ++ [call] }

/-- No event emitted between `w` and `w1` is error-level. -/
def World.noErrorSince {σ : Type} (w w1 : World σ) : Prop :=
  ∀ r ∈ w.emittedSince w1, r.level ≠ slog.Level.Error

/-- Sample statement whose `Exec` and `Query` fail with `driver.ErrSkip`. -/
def demoStmtSkip : Stmt Nat :=
  { Close := fun s => .ret none (s + 1)
    NumInput := fun s => .ret 1 s
    Exec := fun _ s => .ret (none, some .ErrSkip) (s + 1)
    Query := fun _ s => .ret (none, some .ErrSkip) (s + 1)
    StmtExecContext := none
    StmtQueryContext := none
    NamedValueChecker := none }

/-- The event of `customConn.Begin`. -/
def txStarted (l : slog.Logger) : slog.Record :=
  ⟨l, .Info, "transaction started", []⟩

/-- The event of `customConn.BeginTx` on a delegate with `driver.ConnBeginTx`. -/
def txStartedWith (l : slog.Logger) (opts : TxOptions) : slog.Record :=
  ⟨l, .Info, "transaction started",
    [("isolation", .Isolation opts.Isolation), ("read_only", .Bool opts.ReadOnly)]⟩

/-- The connection delegate implements `driver.Conn` and none of the optional
interfaces. -/
def baseOnlyConn {σ : Type} (d : Conn σ) : Bool :=
  d.ConnPrepareContext.isNone && d.ExecerContext.isNone && d.QueryerContext.isNone &&
  d.ConnBeginTx.isNone && d.Pinger.isNone && d.SessionResetter.isNone &&
  d.Validator.isNone && d.NamedValueChecker.isNone

/-- The statement delegate implements `driver.Stmt` and none of the optional
interfaces. -/
def baseOnlyStmt {σ : Type} (d : Stmt σ) : Bool :=
  d.StmtExecContext.isNone && d.StmtQueryContext.isNone && d.NamedValueChecker.isNone

/-- Sample connection implementing every optional interface; each call bumps
the counter, `IsValid` answers whether the counter is below 100, and
`CheckNamedValue` rewrites the value to null. -/
def demoConnFull : Conn Nat :=
  { Prepare := fun _ s => .ret (some demoStmt, none) (s + 1)
    Close := fun s => .ret none (s + 1)
    Begin := fun s => .ret (some demoTx, none) (s + 1)
    ConnPrepareContext := some (fun _ _ s => .ret (some demoStmtCtx, none) (s + 1))
    ExecerContext := some (fun _ _ args s => .ret (some ⟨7, args.length⟩, none) (s + 1))
    QueryerContext := some (fun _ _ _ s => .ret (some demoRows, none) (s + 1))
    ConnBeginTx := some (fun _ _ s => .ret (some demoTx, none) (s + 1))
    Pinger := some (fun _ s => .ret none (s + 1))
    SessionResetter := some (fun _ s => .ret none (s + 1))
    Validator := some (fun s => .ret (decide (s < 100)) s)
    NamedValueChecker := some (fun nv s => .ret ({ nv with Value := .null }, none) (s + 1)) }

/-- Sample connection on a dead link: every call fails with
`driver.ErrBadConn`, and the failing calls hand back no object. -/
def demoConnBroken : Conn Nat :=
  { Prepare := fun _ s => .ret (none, some .ErrBadConn) (s + 1)
    Close := fun s => .ret (some .ErrBadConn) (s + 1)
    Begin := fun s => .ret (none, some .ErrBadConn) (s + 1)
    ConnPrepareContext := some (fun _ _ s => .ret (none, some .ErrBadConn) (s + 1))
    ExecerContext := some (fun _ _ _ s => .ret (none, some .ErrBadConn) (s + 1))
    QueryerContext := some (fun _ _ _ s => .ret (none, some .ErrBadConn) (s + 1))
    ConnBeginTx := some (fun _ _ s => .ret (none, some .ErrBadConn) (s + 1))
    Pinger := some (fun _ s => .ret (some .ErrBadConn) (s + 1))
    SessionResetter := some (fun _ s => .ret (some .ErrBadConn) (s + 1))
    Validator := some (fun s => .ret false s)
    NamedValueChecker := none }

/-- Sample driver without `driver.DriverContext`: the empty name cannot be
opened. -/
def demoDriver : Driver Nat :=
  .mk (fun name s =>
        if name.length = 0 then .ret (none, some (.other "invalid DSN")) s
        else .ret (some demoConn, none) (s + 1))
      none

/-- The Go idiom `if err != nil { return nil, err }; return wrapper, nil`. -/
def wrapOrError {α : Type} (wrapper : α) : Option GoError → Option α × Option GoError
  | none => (some wrapper, none)
  | some err => (none, some err)

/-- Sample connection implementing `driver.QueryerContext` only, whose
`QueryContext` fails and still hands back a result set next to the error. -/
def demoConnRowsAndError : Conn Nat :=
  { Prepare := fun _ s => .ret (some demoStmt, none) (s + 1)
    Close := fun s => .ret none (s + 1)
    Begin := fun s => .ret (some demoTx, none) (s + 1)
    ConnPrepareContext := none
    ExecerContext := none
    QueryerContext := some (fun _ _ _ s => .ret (some demoRows, some .ErrBadConn) (s + 1))
    ConnBeginTx := none
    Pinger := none
    SessionResetter := none
    Validator := none
    NamedValueChecker := none }

/-- Sample transaction on a dead link: `Commit` and `Rollback` fail with
`driver.ErrBadConn`. -/
def demoTxBroken : Tx Nat :=
  { Commit := fun s => .ret (some .ErrBadConn) (s + 1)
    Rollback := fun s => .ret (some .ErrBadConn) (s + 1) }

/-- Sample connector: `Connect` hands out the sample base-only connection. -/
def demoConnector : Connector Nat :=
  { Connect := fun _ s => .ret (some demoConn, none) (s + 1)
    Driver := some demoDriver }

/-- Sample driver that implements `driver.DriverContext`: the empty name is
refused by `OpenConnector`. -/
def demoDriverCtx : Driver Nat :=
  .mk (fun _ s => .ret (some demoConn, none) (s + 1))
      (some (fun name s =>
        if name.length = 0 then .ret (none, some (.other "invalid DSN")) s
        else .ret (some demoConnector, none) (s + 1)))

/-- The method `Driver()` called on the `driver.Connector` that
`OpenConnector` returned: dispatch to the method of its dynamic type. -/
def AnyConnector.Driver {σ : Type} : AnyConnector σ → CustomDriver σ
  | .custom cc => cc.Driver
  | .dsn c => c.Driver

/-- The method `Connect(ctx)` called on the `driver.Connector` that
`OpenConnector` returned: dispatch to the method of its dynamic type. -/
def AnyConnector.Connect {σ : Type} (x : AnyConnector σ) (ctx : Context) :
    Op (World σ) (Option (customConn σ) × Option GoError) :=
  match x with
  | .custom cc => cc.Connect ctx
  | .dsn c => c.Connect ctx

/-- Sample connection whose `Close` succeeds once and then reports that the
connection is already closed; the counter is the number of `Close` calls. -/
def demoConnCloseOnce : Conn Nat :=
  { Prepare := fun _ s => .ret (some demoStmt, none) s
    Close := fun s =>
      if s = 0 then .ret none (s + 1) else .ret (some (.other "already closed")) (s + 1)
    Begin := fun s => .ret (some demoTx, none) s
    ConnPrepareContext := none
    ExecerContext := none
    QueryerContext := none
    ConnBeginTx := none
    Pinger := none
    SessionResetter := none
    Validator := none
    NamedValueChecker := none }

/-- Sample statement implementing `driver.NamedValueChecker`: an integer is
accepted and coerced in place (to null), any other value is refused and left
alone. -/
def demoStmtChecker : Stmt Nat :=
  { Close := fun s => .ret none (s + 1)
    NumInput := fun s => .ret 1 s
    Exec := fun args s => .ret (some ⟨7, args.length⟩, none) (s + 1)
    Query := fun _ s => .ret (some demoRows, none) (s + 1)
    StmtExecContext := none
    StmtQueryContext := none
    NamedValueChecker := some (fun nv s =>
      match nv.Value with
      | .int _ => .ret ({ nv with Value := .null }, none) (s + 1)
      | _ => .ret (nv, some (.other "unsupported type")) (s + 1)) }

/-- Sample connection whose `ExecContext` and `QueryContext` answer
`driver.ErrSkip` while handing back a result. -/
def demoConnSkip : Conn Nat :=
  { Prepare := fun _ s => .ret (some demoStmt, none) (s + 1)
    Close := fun s => .ret none (s + 1)
    Begin := fun s => .ret (some demoTx, none) (s + 1)
    ConnPrepareContext := none
    ExecerContext := some (fun _ _ _ s => .ret (some ⟨0, 0⟩, some .ErrSkip) (s + 1))
    QueryerContext := some (fun _ _ _ s => .ret (some demoRows, some .ErrSkip) (s + 1))
    ConnBeginTx := none
    Pinger := none
    SessionResetter := none
    Validator := none
    NamedValueChecker := none }

/-! ## A wrapper as a delegate

`conn.go`, `stmt.go` and `tx.go` assert that `*customConn`, `*customStmt` and
`*customTx` implement `driver.Conn`, `driver.Stmt`, `driver.Tx` and every
optional interface, so a wrapper can itself be wrapped.  Seen as a delegate,
its state is the world of the wrapper. -/

/-- Applying a function to what a Go function returned. -/
def mapRet {σ α β : Type} (f : α → β) (m : Op σ α) : Op σ β :=
  Op.bind m (fun a => Op.pure (f a))

/-- A method of a delegate object, called by somebody who holds that object
and sees the wrapper's world: it runs on the delegate side's state. -/
def liftOp {σ α : Type} (m : Op σ α) : Op (World σ) α := fun w =>
  match m w.inner with
  | .ret a s => .ret a { w with inner := s }
  | .panic s => .panic { w with inner := s }

/-- The delegate's rows, which the wrapper hands out as they are, seen from the
wrapper's world. -/
def liftRows {σ : Type} (r : Rows σ) : Rows (World σ) :=
  { Columns := liftOp r.Columns
    Close := liftOp r.Close
    Next := fun dest => liftOp (r.Next dest) }

/-- A `*customTx` as a `driver.Tx`. -/
def customTx.asTx {σ : Type} (t : customTx σ) : Tx (World σ) :=
  { Commit := t.Commit
    Rollback := t.Rollback }

/-- A `*customStmt` as a `driver.Stmt` implementing `driver.StmtExecContext`,
`driver.StmtQueryContext` and `driver.NamedValueChecker` (stmt.go:11-16). -/
def customStmt.asStmt {σ : Type} (s : customStmt σ) : Stmt (World σ) :=
  { Close := s.Close
    NumInput := s.NumInput
    Exec := s.Exec
    Query := fun args => mapRet (fun p => (p.1.map liftRows, p.2)) (s.Query args)
    StmtExecContext := some s.ExecContext
    StmtQueryContext := some (fun ctx args =>
      mapRet (fun p => (p.1.map liftRows, p.2)) (s.QueryContext ctx args))
    NamedValueChecker := some s.CheckNamedValue }

/-- A `*customConn` as a `driver.Conn` implementing every optional interface
(conn.go:10-20). -/
def customConn.asConn {σ : Type} (c : customConn σ) : Conn (World σ) :=
  { Prepare := fun query =>
      mapRet (fun p => (p.1.map customStmt.asStmt, p.2)) (c.Prepare query)
    Close := c.Close
    Begin := mapRet (fun p => (p.1.map customTx.asTx, p.2)) c.Begin
    ConnPrepareContext := some (fun ctx query =>
      mapRet (fun p => (p.1.map customStmt.asStmt, p.2)) (c.PrepareContext ctx query))
    ExecerContext := some c.ExecContext
    QueryerContext := some (fun ctx query args =>
      mapRet (fun p => (p.1.map liftRows, p.2)) (c.QueryContext ctx query args))
    ConnBeginTx := some (fun ctx opts =>
      mapRet (fun p => (p.1.map customTx.asTx, p.2)) (c.BeginTx ctx opts))
    Pinger := some c.Ping
    SessionResetter := some c.ResetSession
    Validator := some c.IsValid
    NamedValueChecker := some c.CheckNamedValue }

/-- The Go value `&customConn{conn: c, logger: logger}` for a connection
wrapper `c`: a wrapper around a wrapper. -/
def customConn.wrapAgain {σ : Type} (c : customConn σ) (logger : slog.Logger) :
    customConn (World σ) :=
  { conn := some c.asConn, logger := logger }

/-- A world for a wrapper around a wrapper around a delegate over a counter;
the outer clock reads `0, 2, 4, ...`. -/
def w00 : World (World Nat) := ⟨w0, [], [], fun n => 2 * n, 0⟩

end customdriver

/-! # constdriver: the constant-data reference driver

Embedding of `src/constdriver/{driver,conn,stmt,rows}.go`.  A `*Rows` is an
address into a heap of `Rows` structs; `Stmt.Query` allocates one. -/

namespace constdriver

/-- Go struct `Rows`; `index` is a Go `int`. -/
structure Rows where
  index : Int
  data : List (List driver.Value)

/-- The Go builtin `copy(dst, src)`, as the contents of `dst` afterwards: the
first `min(len(dst), len(src))` elements come from `src`, the rest stay. -/
def goCopy (dst src : List driver.Value) : List driver.Value :=
  src.take (min dst.length src.length) ++ dst.drop (min dst.length src.length)

/-- Go indexing `s[i]` with an `int`; `none` is the index-out-of-range panic. -/
def goIndex {α : Type} (s : List α) (i : Int) : Option α :=
  if i < 0 then none else s[i.toNat]?

/-- Go `(*Rows).Columns`. -/
def Rows.Columns : driver.Op Rows (List String) := fun r => .ret ["id", "name"] r

/-- Go `(*Rows).Close`. -/
def Rows.Close : driver.Op Rows (Option driver.GoError) := fun r => .ret none r

/-- Go `(*Rows).Next`; the contents of `dest` after the call are returned next
to the error. -/
def Rows.Next (dest : List driver.Value) :
    driver.Op Rows (List driver.Value × Option driver.GoError) := fun r =>
  if r.index ≥ (r.data.length : Int) then .ret (dest, some .EOF) r
  else
    match goIndex r.data r.index with
    | none => .panic r
    | some row => .ret (goCopy dest row, none) { r with index := r.index + 1 }

/-- Calling `Next` `k` times in a row with the same `dest` slice, collecting
what each call left in `dest` and returned. -/
def Rows.NextTimes :
    Nat → List driver.Value → driver.Op Rows (List (List driver.Value × Option driver.GoError))
  | 0, _ => driver.Op.pure []
  | k + 1, dest =>
    driver.Op.bind (Rows.Next dest) (fun p =>
      driver.Op.bind (Rows.NextTimes k p.1) (fun rest => driver.Op.pure (p :: rest)))

/-- The heap of allocated `Rows` structs. -/
abbrev Heap : Type := List Rows

/-- The `*Rows` at address `a`, as a `driver.Rows`: each method runs on the
struct stored there. -/
def rowsAt (a : Nat) : driver.Rows Heap :=
  { Columns := fun h =>
      match h[a]? with
      | none => .panic h
      | some r =>
        match Rows.Columns r with
        | .ret x r1 => .ret x (h.set a r1)
        | .panic _ => .panic h
    Close := fun h =>
      match h[a]? with
      | none => .panic h
      | some r =>
        match Rows.Close r with
        | .ret x r1 => .ret x (h.set a r1)
        | .panic _ => .panic h
    Next := fun dest h =>
      match h[a]? with
      | none => .panic h
      | some r =>
        match Rows.Next dest r with
        | .ret x r1 => .ret x (h.set a r1)
        | .panic _ => .panic h }

/-- Go `(*Stmt).Close`. -/
def Stmt.Close : driver.Op Heap (Option driver.GoError) := fun h => .ret none h

/-- Go `(*Stmt).NumInput`. -/
def Stmt.NumInput : driver.Op Heap Int := fun h => .ret 1 h

/-- Go `(*Stmt).Exec`. -/
def Stmt.Exec (_args : List driver.Value) :
    driver.Op Heap (Option driver.Result × Option driver.GoError) := fun h =>
  .ret (none, none) h

/-- Go `(*Stmt).Query`: a new `Rows` struct is allocated and its address
returned. -/
def Stmt.Query (_args : List driver.Value) :
    driver.Op Heap (Option (driver.Rows Heap) × Option driver.GoError) := fun h =>
  .ret (some (rowsAt h.length), none)
    (h ++ [{ index := 0, data := [[.int 1, .str "Alice"], [.int 2, .str "Bob"]] }])

/-- Go type `Stmt` as a `driver.Stmt`: it implements none of the optional
interfaces. -/
def Stmt : driver.Stmt Heap :=
  { Close := Stmt.Close
    NumInput := Stmt.NumInput
    Exec := Stmt.Exec
    Query := Stmt.Query
    StmtExecContext := none
    StmtQueryContext := none
    NamedValueChecker := none }

/-- Go `(*Conn).Prepare`. -/
def Conn.Prepare (_query : String) :
    driver.Op Heap (Option (driver.Stmt Heap) × Option driver.GoError) := fun h =>
  .ret (some Stmt, none) h

/-- Go `(*Conn).Close`. -/
def Conn.Close : driver.Op Heap (Option driver.GoError) := fun h => .ret none h

/-- Go `(*Conn).Begin`. -/
def Conn.Begin : driver.Op Heap (Option (driver.Tx Heap) × Option driver.GoError) := fun h =>
  .ret (none, none) h

/-- Go type `Conn` as a `driver.Conn`: it implements none of the optional
interfaces. -/
def Conn : driver.Conn Heap :=
  { Prepare := Conn.Prepare
    Close := Conn.Close
    Begin := Conn.Begin
    ConnPrepareContext := none
    ExecerContext := none
    QueryerContext := none
    ConnBeginTx := none
    Pinger := none
    SessionResetter := none
    Validator := none
    NamedValueChecker := none }

/-- Go `(*Driver).Open`. -/
def Driver.Open (_name : String) :
    driver.Op Heap (Option (driver.Conn Heap) × Option driver.GoError) := fun h =>
  .ret (some Conn, none) h

/-- Go type `Driver` as a `driver.Driver`. -/
def Driver : driver.Driver Heap := .mk Driver.Open none

/-- A world over an empty heap: nothing called, nothing logged. -/
def world0 : customdriver.World Heap := ⟨[], [], [], fun n => 3 * n, 0⟩

end constdriver

/-! # Theorems -/

namespace customdriver

open driver

/-! ## Running the sequencing operators -/

theorem Op.run_bind {σ α β : Type} (m : Op σ α) (f : α → Op σ β) (s : σ) :
    (m >>= f) s = match m s with
      | .ret a s1 => f a s1
      | .panic s1 => .panic s1 := rfl

theorem Op.run_pure {σ α : Type} (a : α) (s : σ) : (pure a : Op σ α) s = .ret a s := rfl

theorem invoke_some {σ τ α : Type} (d : τ) (call : Call) (m : τ → Op σ α) (w : World σ) :
    invoke (some d) call m w = match m d w.inner with
      | .ret a s => .ret a { w with inner := s, calls := w.calls ++ [call] }
      | .panic s => .panic { w with inner := s, calls := w.calls ++ [call] } := rfl

theorem invoke_none {σ τ α : Type} (call : Call) (m : τ → Op σ α) (w : World σ) :
    invoke (none : Option τ) call m w = .panic w := rfl

theorem ExecContext_absent {σ : Type} (c : customConn σ)
    (h : c.conn.bind Conn.ExecerContext = none) (ctx : Context) (query : String)
    (args : List NamedValue) (w : World σ) :
    c.ExecContext ctx query args w =
      .ret (none, some .ErrSkip)
        { w with reads := w.reads + 1, log := w.log ++ [warnExec c.logger] } := by
  simp only [customConn.ExecContext, h]
  rfl


theorem QueryContext_absent {σ : Type} (c : customConn σ)
    (h : c.conn.bind Conn.QueryerContext = none) (ctx : Context) (query : String)
    (args : List NamedValue) (w : World σ) :
    c.QueryContext ctx query args w =
      .ret (none, some .ErrSkip)
        { w with reads := w.reads + 1, log := w.log ++ [warnQuery c.logger] } := by
  simp only [customConn.QueryContext, h]
  rfl

/-- A call that always returns `a` and only reads the clock once and appends
the event `r` does so `n` times in a row. -/
theorem times_of_const {σ α : Type} (m : Op (World σ) α) (a : α) (r : slog.Record)
    (h : ∀ w, m w = .ret a { w with reads := w.reads + 1, log := w.log ++ [r] })
    (n : Nat) (w : World σ) :
    Op.times m n w =
      .ret (List.replicate n a)
        { w with reads := w.reads + n, log := w.log ++ List.replicate n r } := by
  induction n generalizing w with
  | zero => simp [Op.times, Op.pure]
  | succ k ih =>
    simp only [Op.times, Op.bind, h, ih, Op.pure, List.replicate_succ, Nat.add_assoc,
      List.append_assoc, List.singleton_append, Nat.add_comm 1 k]

/-- C1: on a connection delegate without `driver.ExecerContext` (resp.
`driver.QueryerContext`), `ExecContext` (resp. `QueryContext`) returns
`(nil, driver.ErrSkip)`, leaves the delegate side's state and the trace of
delegate calls untouched, and appends exactly one warning-level event; `n`
calls in a row return that pair `n` times, with `n` warnings and still no
delegate call. -/
theorem C1_context_unaware_conn_returns_ErrSkip {σ : Type} (c : customConn σ)
    (ctx : Context) (query : String) (args : List NamedValue) (w : World σ) (n : Nat) :
    (c.conn.bind Conn.ExecerContext = none →
      c.ExecContext ctx query args w =
          .ret (none, some .ErrSkip)
            { inner := w.inner, calls := w.calls, clock := w.clock, reads := w.reads + 1,
              log := w.log ++ [⟨c.logger, .Warn,
                "original driver does not support ExecerContext", []⟩] } ∧
      Op.times (c.ExecContext ctx query args) n w =
          .ret (List.replicate n (none, some .ErrSkip))
            { inner := w.inner, calls := w.calls, clock := w.clock, reads := w.reads + n,
              log := w.log ++ List.replicate n ⟨c.logger, .Warn,
                "original driver does not support ExecerContext", []⟩ }) ∧
    (c.conn.bind Conn.QueryerContext = none →
      c.QueryContext ctx query args w =
          .ret (none, some .ErrSkip)
            { inner := w.inner, calls := w.calls, clock := w.clock, reads := w.reads + 1,
              log := w.log ++ [⟨c.logger, .Warn,
                "original driver does not support QueryerContext", []⟩] } ∧
      Op.times (c.QueryContext ctx query args) n w =
          .ret (List.replicate n (none, some .ErrSkip))
            { inner := w.inner, calls := w.calls, clock := w.clock, reads := w.reads + n,
              log := w.log ++ List.replicate n ⟨c.logger, .Warn,
                "original driver does not support QueryerContext", []⟩ }) := by
  refine ⟨fun h => ⟨ExecContext_absent c h ctx query args w, ?_⟩,
    fun h => ⟨QueryContext_absent c h ctx query args w, ?_⟩⟩
  · exact times_of_const _ _ (warnExec c.logger)
      (fun w1 => ExecContext_absent c h ctx query args w1) n w
  · exact times_of_const _ _ (warnQuery c.logger)
      (fun w1 => QueryContext_absent c h ctx query args w1) n w

/-- Witness for C1: the sample base-only connection, three calls in a row. -/
theorem C1_witness :
    (customConn.mk (some demoConn) lg).ExecContext ctx0 "INSERT INTO t(x) VALUES (?)"
        [⟨"", 1, .int 4⟩] w0 =
      .ret (none, some .ErrSkip)
        { inner := 0, calls := [], clock := w0.clock, reads := 1,
          log := [⟨lg, .Warn, "original driver does not support ExecerContext", []⟩] } ∧
    Res.value? (Op.times ((customConn.mk (some demoConn) lg).QueryContext ctx0 "SELECT 1" [])
        3 w0) = some [(none, some .ErrSkip), (none, some .ErrSkip), (none, some .ErrSkip)] :=
  ⟨((C1_context_unaware_conn_returns_ErrSkip (customConn.mk (some demoConn) lg) ctx0
      "INSERT INTO t(x) VALUES (?)" [⟨"", 1, .int 4⟩] w0 3).1 rfl).1,
   by rw [((C1_context_unaware_conn_returns_ErrSkip (customConn.mk (some demoConn) lg) ctx0
      "SELECT 1" [] w0 3).2 rfl).2]; rfl⟩

/-- When the delegate statement implements `driver.StmtQueryContext`, the
wrapper's `QueryContext` is its `Query` on the bare values: the branch taken on
`ok` is the one that drops the context. -/
theorem stmt_QueryContext_of_capable {σ : Type} (s : customStmt σ)
    (f : Context → List NamedValue → Op σ (Option (Rows σ) × Option GoError))
    (h : s.stmt.bind Stmt.StmtQueryContext = some f) (ctx : Context)
    (args : List NamedValue) :
    s.QueryContext ctx args = s.Query (args.map (fun nv => nv.Value)) := by
  simp [customStmt.QueryContext, h]

/-- When the delegate statement does not implement `driver.StmtQueryContext`,
the wrapper's `QueryContext` reads the clock and then panics on the nil
interface value; nothing is called on the delegate and nothing is logged. -/
theorem stmt_QueryContext_of_incapable {σ : Type} (s : customStmt σ)
    (h : s.stmt.bind Stmt.StmtQueryContext = none) (ctx : Context)
    (args : List NamedValue) (w : World σ) :
    s.QueryContext ctx args w = .panic { w with reads := w.reads + 1 } := by
  simp only [customStmt.QueryContext, h]
  rfl

/-- C2 (evaluation at the failing input): on the sample statement that
implements `driver.StmtQueryContext`, `QueryContext` with a cancelled context
makes the single delegate call `Query([1])`, not `QueryContext(ctx, args)`,
and returns no error although the delegate's `QueryContext` refuses that
context. -/
theorem C2_stmt_QueryContext_calls_plain_Query :
    (((customStmt.mk (some demoStmtCtx) lg "SELECT id FROM users WHERE id = ?").QueryContext
        ctxCancelled [⟨"", 1, .int 1⟩] w0).state.calls = [Call.StmtQuery [.int 1]]) ∧
    (((customStmt.mk (some demoStmtCtx) lg "SELECT id FROM users WHERE id = ?").QueryContext
        ctxCancelled [⟨"", 1, .int 1⟩] w0).value?.map Prod.snd = some none) ∧
    ((demoStmtCtx.StmtQueryContext.map
        (fun f => (f ctxCancelled [⟨"", 1, .int 1⟩] 0).value?.map Prod.snd)) =
      some (some (some (.other "context canceled")))) := by
  refine ⟨rfl, rfl, rfl⟩

/-- C3 (evaluation at the failing input): on the sample statement that
implements only `driver.Stmt`, `QueryContext` does not return: it panics, with
no call made on the delegate, whereas `Query` on the same values returns rows
and no error. -/
theorem C3_stmt_QueryContext_panics_without_capability :
    (((customStmt.mk (some demoStmt) lg "SELECT id FROM users").QueryContext
        ctx0 [] w0).value?.isNone = true) ∧
    (((customStmt.mk (some demoStmt) lg "SELECT id FROM users").QueryContext
        ctx0 [] w0).state.calls = []) ∧
    (((customStmt.mk (some demoStmt) lg "SELECT id FROM users").Query
        [] w0).value?.map Prod.snd = some none) := by
  refine ⟨rfl, rfl, rfl⟩

theorem ExecContext_present {σ : Type} (c : customConn σ)
    (f : Context → String → List NamedValue → Op σ (Option Result × Option GoError))
    (hcap : c.conn.bind Conn.ExecerContext = some f) (ctx : Context) (query : String)
    (args : List NamedValue) (w : World σ) (r : Option Result) (e : Option GoError) (s1 : σ)
    (hret : f ctx query args w.inner = .ret (r, e) s1) (hne : e ≠ some .ErrSkip) :
    c.ExecContext ctx query args w =
      .ret (r, e) (w.afterTimed s1 [.ConnExecContext ctx query args]
        (outcomeEvent c.logger "sql executed" "sql execution failed" query (.NamedValues args) w.elapsed e)) := by
  simp only [customConn.ExecContext, hcap]
  cases e with
  | none =>
    simp [Op.run_bind, Op.run_pure, invoke_some, timeNow, timeSince, logAt, hret, outcomeEvent,
      World.afterTimed, World.elapsed]
  | some err =>
    have hne1 : err ≠ .ErrSkip := fun h => hne (by rw [h])
    simp [Op.run_bind, Op.run_pure, invoke_some, timeNow, timeSince, logAt, hret, outcomeEvent,
      World.afterTimed, World.elapsed, hne1]

theorem QueryContext_present {σ : Type} (c : customConn σ)
    (f : Context → String → List NamedValue → Op σ (Option (Rows σ) × Option GoError))
    (hcap : c.conn.bind Conn.QueryerContext = some f) (ctx : Context) (query : String)
    (args : List NamedValue) (w : World σ) (r : Option (Rows σ)) (e : Option GoError) (s1 : σ)
    (hret : f ctx query args w.inner = .ret (r, e) s1) (hne : e ≠ some .ErrSkip) :
    c.QueryContext ctx query args w =
      .ret (r, e) (w.afterTimed s1 [.ConnQueryContext ctx query args]
        (outcomeEvent c.logger "sql queried" "sql query failed" query (.NamedValues args) w.elapsed e)) := by
  simp only [customConn.QueryContext, hcap]
  cases e with
  | none =>
    simp [Op.run_bind, Op.run_pure, invoke_some, timeNow, timeSince, logAt, hret, outcomeEvent,
      World.afterTimed, World.elapsed]
  | some err =>
    have hne1 : err ≠ .ErrSkip := fun h => hne (by rw [h])
    simp [Op.run_bind, Op.run_pure, invoke_some, timeNow, timeSince, logAt, hret, outcomeEvent,
      World.afterTimed, World.elapsed, hne1]

/-- C4: when the delegate implements `driver.ExecerContext` (resp.
`driver.QueryerContext`) and its call returns `(r, e)` with `e` nil or an error
other than `driver.ErrSkip`, the wrapper's `ExecContext` (resp. `QueryContext`)
makes exactly that one delegate call with the same `ctx`, `query` and `args`,
returns `(r, e)`, and appends exactly one event carrying `query` and `args`:
info-level when `e` is nil, error-level with the error attached otherwise. -/
theorem C4_context_aware_conn_delegates_and_logs {σ : Type} (c : customConn σ)
    (ctx : Context) (query : String) (args : List NamedValue) (w : World σ)
    (e : Option GoError) (s1 : σ) (hne : e ≠ some .ErrSkip) :
    (∀ f r, c.conn.bind Conn.ExecerContext = some f →
      f ctx query args w.inner = .ret (r, e) s1 →
      c.ExecContext ctx query args w =
        .ret (r, e)
          { inner := s1, calls := w.calls ++ [.ConnExecContext ctx query args],
            clock := w.clock, reads := w.reads + 2,
            log := w.log ++ [outcomeEvent c.logger "sql executed" "sql execution failed" query
              (.NamedValues args) (w.clock (w.reads + 1) - w.clock w.reads) e] }) ∧
    (∀ f r, c.conn.bind Conn.QueryerContext = some f →
      f ctx query args w.inner = .ret (r, e) s1 →
      c.QueryContext ctx query args w =
        .ret (r, e)
          { inner := s1, calls := w.calls ++ [.ConnQueryContext ctx query args],
            clock := w.clock, reads := w.reads + 2,
            log := w.log ++ [outcomeEvent c.logger "sql queried" "sql query failed" query
              (.NamedValues args) (w.clock (w.reads + 1) - w.clock w.reads) e] }) ∧
    ((outcomeEvent c.logger "sql executed" "sql execution failed" query (.NamedValues args)
        (w.clock (w.reads + 1) - w.clock w.reads) e).level =
      if e = none then slog.Level.Info else slog.Level.Error) ∧
    ((outcomeEvent c.logger "sql queried" "sql query failed" query (.NamedValues args)
        (w.clock (w.reads + 1) - w.clock w.reads) e).level =
      if e = none then slog.Level.Info else slog.Level.Error) := by
  refine ⟨?_, ?_, ?_, ?_⟩
  · intro f r hcap hret
    exact ExecContext_present c f hcap ctx query args w r e s1 hret hne
  · intro f r hcap hret
    exact QueryContext_present c f hcap ctx query args w r e s1 hret hne
  · cases e <;> rfl
  · cases e <;> rfl

/-- Witness for C4: the sample context-aware connection, an `INSERT` with one
argument (one info event, duration 7) and a failing empty query (one error
event). -/
theorem C4_witness :
    (customConn.mk (some demoConnCtx) lg).ExecContext ctx0 "INSERT INTO t(x) VALUES (?)"
        [⟨"", 1, .int 4⟩] w0 =
      .ret (some ⟨7, 1⟩, none)
        { inner := 1,
          calls := [.ConnExecContext ctx0 "INSERT INTO t(x) VALUES (?)" [⟨"", 1, .int 4⟩]],
          clock := w0.clock, reads := 2,
          log := [⟨lg, .Info, "sql executed",
            [("query", .String "INSERT INTO t(x) VALUES (?)"),
             ("args", .NamedValues [⟨"", 1, .int 4⟩]), ("duration", .Duration 7)]⟩] } ∧
    (customConn.mk (some demoConnCtx) lg).QueryContext ctx0 "" [] w0 =
      .ret (none, some (.other "syntax error"))
        { inner := 0, calls := [.ConnQueryContext ctx0 "" []],
          clock := w0.clock, reads := 2,
          log := [⟨lg, .Error, "sql query failed",
            [("query", .String ""), ("args", .NamedValues []), ("duration", .Duration 7),
             ("error", .Error (.other "syntax error"))]⟩] } :=
  ⟨(C4_context_aware_conn_delegates_and_logs (customConn.mk (some demoConnCtx) lg) ctx0
      "INSERT INTO t(x) VALUES (?)" [⟨"", 1, .int 4⟩] w0 none 1 (by decide)).1 _ _ rfl rfl,
   (C4_context_aware_conn_delegates_and_logs (customConn.mk (some demoConnCtx) lg) ctx0
      "" [] w0 (some (.other "syntax error")) 0 (by decide)).2.1 _ _ rfl rfl⟩

theorem Prepare_run {σ : Type} (c : customConn σ) (d : Conn σ) (hd : c.conn = some d)
    (query : String) (w : World σ) :
    c.Prepare query w =
      match d.Prepare query w.inner with
      | .ret (st, none) s1 =>
        .ret (some { stmt := st, logger := c.logger, query := query }, none)
          { w with inner := s1, calls := w.calls ++ [.ConnPrepare query] }
      | .ret (_, some e) s1 =>
        .ret (none, some e) { w with inner := s1, calls := w.calls ++ [.ConnPrepare query] }
      | .panic s1 => .panic { w with inner := s1, calls := w.calls ++ [.ConnPrepare query] } := by
  simp only [customConn.Prepare, hd, Op.run_bind, invoke_some]
  cases hres : d.Prepare query w.inner with
  | panic s1 => rfl
  | ret a s1 =>
    obtain ⟨st, e⟩ := a
    cases e <;> rfl

theorem Prepare_nil {σ : Type} (c : customConn σ) (hd : c.conn = none)
    (query : String) (w : World σ) : c.Prepare query w = .panic w := by
  simp only [customConn.Prepare, hd, Op.run_bind, invoke_none]

theorem PrepareContext_absent {σ : Type} (c : customConn σ)
    (h : c.conn.bind Conn.ConnPrepareContext = none) (ctx : Context) (query : String) :
    c.PrepareContext ctx query = c.Prepare query := by
  simp only [customConn.PrepareContext, h]

/-- C5: on a connection delegate without `driver.ConnPrepareContext`,
`PrepareContext(ctx, query)` is `Prepare(query)` of the same wrapper.  It makes
the single delegate call `Prepare(query)`; when that returns a nil error the
result is the statement wrapper around the delegate's statement, bound to
`query` and to the connection's logger; when it returns an error the result is
`(nil, that error)`.  So `driver.ErrSkip` comes out only if the delegate's
`Prepare` returned it, and no event is emitted on any path. -/
theorem C5_PrepareContext_falls_back_to_Prepare {σ : Type} (c : customConn σ)
    (h : c.conn.bind Conn.ConnPrepareContext = none) (ctx : Context) (query : String)
    (w : World σ) :
    c.PrepareContext ctx query w = c.Prepare query w ∧
    (∀ d st e s1, c.conn = some d → d.Prepare query w.inner = .ret (st, e) s1 →
      c.PrepareContext ctx query w =
        .ret (wrapOrError { stmt := st, logger := c.logger, query := query } e)
          { inner := s1, calls := w.calls ++ [.ConnPrepare query], log := w.log,
            clock := w.clock, reads := w.reads }) ∧
    (∀ x w1, c.PrepareContext ctx query w = .ret (x, some .ErrSkip) w1 →
      ∃ d st s1, c.conn = some d ∧ d.Prepare query w.inner = .ret (st, some .ErrSkip) s1) ∧
    (c.PrepareContext ctx query w).state.log = w.log := by
  rw [PrepareContext_absent c h ctx query]
  refine ⟨rfl, ?_, ?_, ?_⟩
  · intro d st e s1 hd hret
    rw [Prepare_run c d hd, hret]
    cases e <;> rfl
  · intro x w1 hx
    cases hd : c.conn with
    | none => rw [Prepare_nil c hd] at hx; cases hx
    | some d =>
      rw [Prepare_run c d hd] at hx
      cases hres : d.Prepare query w.inner with
      | panic s1 => rw [hres] at hx; cases hx
      | ret a s1 =>
        obtain ⟨st, e⟩ := a
        rw [hres] at hx
        cases e with
        | none => cases hx
        | some err =>
          injection hx with h1 h2
          injection h1 with h3 h4
          injection h4 with h5
          exact ⟨d, st, s1, rfl, by rw [← h5]; exact hres⟩
  · cases hd : c.conn with
    | none => rw [Prepare_nil c hd]; rfl
    | some d =>
      rw [Prepare_run c d hd]
      cases hres : d.Prepare query w.inner with
      | panic s1 => rfl
      | ret a s1 =>
        obtain ⟨st, e⟩ := a
        cases e <;> rfl

/-- Witness for C5: the sample base-only connection. -/
theorem C5_witness :
    (customConn.mk (some demoConn) lg).PrepareContext ctxCancelled "SELECT 1" w0 =
      .ret (some { stmt := some demoStmt, logger := lg, query := "SELECT 1" }, none)
        { inner := 1, calls := [.ConnPrepare "SELECT 1"], log := [],
          clock := w0.clock, reads := 0 } :=
  (C5_PrepareContext_falls_back_to_Prepare (customConn.mk (some demoConn) lg) rfl
    ctxCancelled "SELECT 1" w0).2.1 demoConn (some demoStmt) none 1 rfl rfl

/-! ## What each timed call does, given what the delegate returned -/

theorem stmt_Exec_run {σ : Type} (s : customStmt σ) (d : Stmt σ) (hd : s.stmt = some d)
    (args : List Value) (w : World σ) (r : Option Result) (e : Option GoError) (s1 : σ)
    (hret : d.Exec args w.inner = .ret (r, e) s1) :
    s.Exec args w =
      .ret (r, e) (w.afterTimed s1 [.StmtExec args]
        (outcomeEvent s.logger "stmt executed" "stmt execution failed" s.query
          (.Values args) w.elapsed e)) := by
  cases e <;>
    simp [customStmt.Exec, hd, Op.run_bind, Op.run_pure, invoke_some, timeNow, timeSince,
      logAt, hret, outcomeEvent, World.afterTimed, World.elapsed]

theorem stmt_Query_run {σ : Type} (s : customStmt σ) (d : Stmt σ) (hd : s.stmt = some d)
    (args : List Value) (w : World σ) (r : Option (Rows σ)) (e : Option GoError) (s1 : σ)
    (hret : d.Query args w.inner = .ret (r, e) s1) :
    s.Query args w =
      .ret (r, e) (w.afterTimed s1 [.StmtQuery args]
        (outcomeEvent s.logger "stmt queried" "stmt query failed" s.query
          (.Values args) w.elapsed e)) := by
  cases e <;>
    simp [customStmt.Query, hd, Op.run_bind, Op.run_pure, invoke_some, timeNow, timeSince,
      logAt, hret, outcomeEvent, World.afterTimed, World.elapsed]

theorem stmt_ExecContext_run {σ : Type} (s : customStmt σ)
    (f : Context → List NamedValue → Op σ (Option Result × Option GoError))
    (hcap : s.stmt.bind Stmt.StmtExecContext = some f) (ctx : Context)
    (args : List NamedValue) (w : World σ) (r : Option Result) (e : Option GoError) (s1 : σ)
    (hret : f ctx args w.inner = .ret (r, e) s1) :
    s.ExecContext ctx args w =
      .ret (r, e) (w.afterTimed s1 [.StmtExecContext ctx args]
        (outcomeEvent s.logger "stmt executed" "stmt execution failed" s.query
          (.NamedValues args) w.elapsed e)) := by
  cases e <;>
    simp [customStmt.ExecContext, hcap, Op.run_bind, Op.run_pure, invoke_some, timeNow,
      timeSince, logAt, hret, outcomeEvent, World.afterTimed, World.elapsed]

theorem stmt_ExecContext_fallback {σ : Type} (s : customStmt σ)
    (hcap : s.stmt.bind Stmt.StmtExecContext = none) (ctx : Context)
    (args : List NamedValue) :
    s.ExecContext ctx args = s.Exec (args.map (fun nv => nv.Value)) := by
  simp [customStmt.ExecContext, hcap]

theorem tx_Commit_run {σ : Type} (t : customTx σ) (d : Tx σ) (hd : t.tx = some d)
    (w : World σ) (e : Option GoError) (s1 : σ) (hret : d.Commit w.inner = .ret e s1) :
    t.Commit w =
      .ret e (w.afterTimed s1 [.TxCommit]
        (txEvent t.logger "transaction committed" "transaction commit failed" w.elapsed e)) := by
  cases e <;>
    simp [customTx.Commit, hd, Op.run_bind, Op.run_pure, invoke_some, timeNow, timeSince,
      logAt, hret, txEvent, World.afterTimed, World.elapsed]

theorem tx_Rollback_run {σ : Type} (t : customTx σ) (d : Tx σ) (hd : t.tx = some d)
    (w : World σ) (e : Option GoError) (s1 : σ) (hret : d.Rollback w.inner = .ret e s1) :
    t.Rollback w =
      .ret e (w.afterTimed s1 [.TxRollback]
        (txEvent t.logger "transaction rolled back" "transaction rollback failed"
          w.elapsed e)) := by
  cases e <;>
    simp [customTx.Rollback, hd, Op.run_bind, Op.run_pure, invoke_some, timeNow, timeSince,
      logAt, hret, txEvent, World.afterTimed, World.elapsed]

theorem ExecContext_skip {σ : Type} (c : customConn σ)
    (f : Context → String → List NamedValue → Op σ (Option Result × Option GoError))
    (hcap : c.conn.bind Conn.ExecerContext = some f) (ctx : Context) (query : String)
    (args : List NamedValue) (w : World σ) (r : Option Result) (s1 : σ)
    (hret : f ctx query args w.inner = .ret (r, some .ErrSkip) s1) :
    c.ExecContext ctx query args w =
      .ret (none, some .ErrSkip)
        { inner := s1, calls := w.calls ++ [.ConnExecContext ctx query args],
          clock := w.clock, reads := w.reads + 1, log := w.log ++ [warnExec c.logger] } := by
  simp [customConn.ExecContext, hcap, Op.run_bind, Op.run_pure, invoke_some, timeNow, logAt,
    hret, warnExec]

theorem QueryContext_skip {σ : Type} (c : customConn σ)
    (f : Context → String → List NamedValue → Op σ (Option (Rows σ) × Option GoError))
    (hcap : c.conn.bind Conn.QueryerContext = some f) (ctx : Context) (query : String)
    (args : List NamedValue) (w : World σ) (r : Option (Rows σ)) (s1 : σ)
    (hret : f ctx query args w.inner = .ret (r, some .ErrSkip) s1) :
    c.QueryContext ctx query args w =
      .ret (none, some .ErrSkip)
        { inner := s1, calls := w.calls ++ [.ConnQueryContext ctx query args],
          clock := w.clock, reads := w.reads + 1, log := w.log ++ [warnQuery c.logger] } := by
  simp [customConn.QueryContext, hcap, Op.run_bind, Op.run_pure, invoke_some, timeNow, logAt,
    hret, warnQuery]

theorem ExecContext_panic {σ : Type} (c : customConn σ)
    (f : Context → String → List NamedValue → Op σ (Option Result × Option GoError))
    (hcap : c.conn.bind Conn.ExecerContext = some f) (ctx : Context) (query : String)
    (args : List NamedValue) (w : World σ) (s1 : σ)
    (hret : f ctx query args w.inner = .panic s1) :
    c.ExecContext ctx query args w =
      .panic { inner := s1, calls := w.calls ++ [.ConnExecContext ctx query args],
               clock := w.clock, reads := w.reads + 1, log := w.log } := by
  simp [customConn.ExecContext, hcap, Op.run_bind, invoke_some, timeNow, hret]

theorem QueryContext_panic {σ : Type} (c : customConn σ)
    (f : Context → String → List NamedValue → Op σ (Option (Rows σ) × Option GoError))
    (hcap : c.conn.bind Conn.QueryerContext = some f) (ctx : Context) (query : String)
    (args : List NamedValue) (w : World σ) (s1 : σ)
    (hret : f ctx query args w.inner = .panic s1) :
    c.QueryContext ctx query args w =
      .panic { inner := s1, calls := w.calls ++ [.ConnQueryContext ctx query args],
               clock := w.clock, reads := w.reads + 1, log := w.log } := by
  simp [customConn.QueryContext, hcap, Op.run_bind, invoke_some, timeNow, hret]

/-! ## Which events a call can emit -/

theorem emittedSince_append {σ : Type} (w w1 : World σ) (l : List slog.Record)
    (h : w1.log = w.log ++ l) : w.emittedSince w1 = l := by
  simp [World.emittedSince, h]

theorem emittedSince_same {σ : Type} (w w1 : World σ) (h : w1.log = w.log) :
    w.emittedSince w1 = [] := by
  simp [World.emittedSince, h]

theorem noErrorSince_of_append {σ : Type} (w w1 : World σ) (l : List slog.Record)
    (h : w1.log = w.log ++ l) (hl : ∀ r ∈ l, r.level ≠ slog.Level.Error) :
    w.noErrorSince w1 := by
  intro r hr
  rw [emittedSince_append w w1 l h] at hr
  exact hl r hr

theorem noErrorSince_of_same {σ : Type} (w w1 : World σ) (h : w1.log = w.log) :
    w.noErrorSince w1 := by
  intro r hr
  rw [emittedSince_same w w1 h] at hr
  cases hr

theorem invoke_log {σ τ α : Type} (recv : Option τ) (call : Call) (m : τ → Op σ α)
    (w : World σ) : (invoke recv call m w).state.log = w.log := by
  cases recv with
  | none => rfl
  | some d =>
    rw [invoke_some]
    cases m d w.inner <;> rfl

theorem bind_log {σ α β : Type} (m : Op (World σ) α) (k : α → Op (World σ) β)
    (hm : ∀ w, (m w).state.log = w.log) (hk : ∀ a w, (k a w).state.log = w.log)
    (w : World σ) : ((m >>= k) w).state.log = w.log := by
  rw [Op.run_bind]
  have h1 := hm w
  cases h : m w with
  | panic s1 => rw [h] at h1; exact h1
  | ret a s1 =>
    rw [h] at h1
    exact (hk a s1).trans h1

theorem log_of_ret {σ α : Type} {m : Op (World σ) α} {w w1 : World σ} {a : α}
    (hm : (m w).state.log = w.log) (h : m w = .ret a w1) : w1.log = w.log := by
  rw [h] at hm
  exact hm

theorem Prepare_log {σ : Type} (c : customConn σ) (query : String) (w : World σ) :
    (c.Prepare query w).state.log = w.log := by
  unfold customConn.Prepare
  refine bind_log _ _ (invoke_log _ _ _) ?_ w
  rintro ⟨st, e⟩ w2
  cases e <;> rfl

theorem Close_log {σ : Type} (c : customConn σ) (w : World σ) :
    (c.Close w).state.log = w.log := invoke_log _ _ _ w

theorem PrepareContext_log {σ : Type} (c : customConn σ) (ctx : Context) (query : String)
    (w : World σ) : (c.PrepareContext ctx query w).state.log = w.log := by
  cases h : c.conn.bind Conn.ConnPrepareContext with
  | some f =>
    simp only [customConn.PrepareContext, h]
    refine bind_log _ _ (invoke_log _ _ _) ?_ w
    rintro ⟨st, e⟩ w2
    cases e <;> rfl
  | none =>
    simp only [customConn.PrepareContext, h]
    exact Prepare_log c query w

theorem ResetSession_log {σ : Type} (c : customConn σ) (ctx : Context) (w : World σ) :
    (c.ResetSession ctx w).state.log = w.log := by
  cases h : c.conn.bind Conn.SessionResetter with
  | some f =>
    simp only [customConn.ResetSession, h]
    exact invoke_log _ _ _ w
  | none =>
    simp only [customConn.ResetSession, h]
    rfl

theorem IsValid_log {σ : Type} (c : customConn σ) (w : World σ) :
    (c.IsValid w).state.log = w.log := by
  cases h : c.conn.bind Conn.Validator with
  | some f =>
    simp only [customConn.IsValid, h]
    exact invoke_log _ _ _ w
  | none =>
    simp only [customConn.IsValid, h]
    rfl

theorem CheckNamedValue_log {σ : Type} (c : customConn σ) (nv : NamedValue) (w : World σ) :
    (c.CheckNamedValue nv w).state.log = w.log := by
  cases h : c.conn.bind Conn.NamedValueChecker with
  | some f =>
    simp only [customConn.CheckNamedValue, h]
    exact invoke_log _ _ _ w
  | none =>
    simp only [customConn.CheckNamedValue, h]
    rfl

theorem stmt_Close_log {σ : Type} (s : customStmt σ) (w : World σ) :
    (s.Close w).state.log = w.log := invoke_log _ _ _ w

theorem stmt_CheckNamedValue_log {σ : Type} (s : customStmt σ) (nv : NamedValue)
    (w : World σ) : (s.CheckNamedValue nv w).state.log = w.log := by
  cases h : s.stmt.bind Stmt.NamedValueChecker with
  | some f =>
    simp only [customStmt.CheckNamedValue, h]
    exact invoke_log _ _ _ w
  | none =>
    simp only [customStmt.CheckNamedValue, h]
    rfl

theorem Begin_fail {σ : Type} (c : customConn σ) (d : Conn σ) (hd : c.conn = some d)
    (w : World σ) (tx : Option (Tx σ)) (err : GoError) (s1 : σ)
    (hret : d.Begin w.inner = .ret (tx, some err) s1) :
    c.Begin w = .ret (none, some err) (w.afterCall s1 .ConnBegin) := by
  simp [customConn.Begin, hd, Op.run_bind, Op.run_pure, invoke_some, hret, World.afterCall]

theorem Begin_ok {σ : Type} (c : customConn σ) (d : Conn σ) (hd : c.conn = some d)
    (w : World σ) (tx : Option (Tx σ)) (s1 : σ)
    (hret : d.Begin w.inner = .ret (tx, none) s1) :
    c.Begin w =
      .ret (some { tx := tx, logger := c.logger }, none)
        { inner := s1, calls := w.calls ++ [.ConnBegin], clock := w.clock, reads := w.reads,
          log := w.log ++ [txStarted c.logger] } := by
  simp [customConn.Begin, hd, Op.run_bind, Op.run_pure, invoke_some, logAt, hret, txStarted]

theorem BeginTx_fail {σ : Type} (c : customConn σ)
    (f : Context → TxOptions → Op σ (Option (Tx σ) × Option GoError))
    (hcap : c.conn.bind Conn.ConnBeginTx = some f) (ctx : Context) (opts : TxOptions)
    (w : World σ) (tx : Option (Tx σ)) (err : GoError) (s1 : σ)
    (hret : f ctx opts w.inner = .ret (tx, some err) s1) :
    c.BeginTx ctx opts w = .ret (none, some err) (w.afterCall s1 (.ConnBeginTx ctx opts)) := by
  simp [customConn.BeginTx, hcap, Op.run_bind, Op.run_pure, invoke_some, hret,
    World.afterCall]

theorem BeginTx_ok {σ : Type} (c : customConn σ)
    (f : Context → TxOptions → Op σ (Option (Tx σ) × Option GoError))
    (hcap : c.conn.bind Conn.ConnBeginTx = some f) (ctx : Context) (opts : TxOptions)
    (w : World σ) (tx : Option (Tx σ)) (s1 : σ)
    (hret : f ctx opts w.inner = .ret (tx, none) s1) :
    c.BeginTx ctx opts w =
      .ret (some { tx := tx, logger := c.logger }, none)
        { inner := s1, calls := w.calls ++ [.ConnBeginTx ctx opts], clock := w.clock,
          reads := w.reads, log := w.log ++ [txStartedWith c.logger opts] } := by
  simp [customConn.BeginTx, hcap, Op.run_bind, Op.run_pure, invoke_some, logAt, hret,
    txStartedWith]

theorem BeginTx_absent {σ : Type} (c : customConn σ)
    (hcap : c.conn.bind Conn.ConnBeginTx = none) (ctx : Context) (opts : TxOptions) :
    c.BeginTx ctx opts = c.Begin := by
  simp only [customConn.BeginTx, hcap]

theorem Begin_noError {σ : Type} (c : customConn σ) (w : World σ) :
    w.noErrorSince (c.Begin w).state := by
  cases hd : c.conn with
  | none =>
    refine noErrorSince_of_same _ _ ?_
    simp [customConn.Begin, hd, Op.run_bind, invoke_none, Res.state]
  | some d =>
    cases hres : d.Begin w.inner with
    | panic s1 =>
      refine noErrorSince_of_same _ _ ?_
      simp [customConn.Begin, hd, Op.run_bind, invoke_some, hres, Res.state]
    | ret a s1 =>
      obtain ⟨tx, e⟩ := a
      cases e with
      | some err =>
        rw [Begin_fail c d hd w tx err s1 hres]
        exact noErrorSince_of_same _ _ rfl
      | none =>
        rw [Begin_ok c d hd w tx s1 hres]
        refine noErrorSince_of_append _ _ [txStarted c.logger] rfl ?_
        intro r hr
        simp [txStarted] at hr
        simp [hr]

theorem BeginTx_noError {σ : Type} (c : customConn σ) (ctx : Context) (opts : TxOptions)
    (w : World σ) : w.noErrorSince (c.BeginTx ctx opts w).state := by
  cases hcap : c.conn.bind Conn.ConnBeginTx with
  | none =>
    rw [BeginTx_absent c hcap]
    exact Begin_noError c w
  | some f =>
    cases hres : f ctx opts w.inner with
    | panic s1 =>
      refine noErrorSince_of_same _ _ ?_
      simp [customConn.BeginTx, hcap, Op.run_bind, invoke_some, hres, Res.state]
    | ret a s1 =>
      obtain ⟨tx, e⟩ := a
      cases e with
      | some err =>
        rw [BeginTx_fail c f hcap ctx opts w tx err s1 hres]
        exact noErrorSince_of_same _ _ rfl
      | none =>
        rw [BeginTx_ok c f hcap ctx opts w tx s1 hres]
        refine noErrorSince_of_append _ _ [txStartedWith c.logger opts] rfl ?_
        intro r hr
        simp [txStartedWith] at hr
        simp [hr]

theorem ExecContext_ErrSkip_log {σ : Type} (c : customConn σ) (ctx : Context)
    (query : String) (args : List NamedValue) (w w1 : World σ) (x : Option Result)
    (h : c.ExecContext ctx query args w = .ret (x, some .ErrSkip) w1) :
    w1.log = w.log ++ [warnExec c.logger] := by
  cases hcap : c.conn.bind Conn.ExecerContext with
  | none =>
    rw [ExecContext_absent c hcap] at h
    cases h
    rfl
  | some f =>
    cases hres : f ctx query args w.inner with
    | panic s1 =>
      rw [ExecContext_panic c f hcap ctx query args w s1 hres] at h
      cases h
    | ret a s1 =>
      obtain ⟨r, e⟩ := a
      by_cases he : e = some .ErrSkip
      · subst he
        rw [ExecContext_skip c f hcap ctx query args w r s1 hres] at h
        cases h
        rfl
      · rw [ExecContext_present c f hcap ctx query args w r e s1 hres he] at h
        injection h with h1 h2
        injection h1 with h3 h4
        exact absurd h4 he

theorem QueryContext_ErrSkip_log {σ : Type} (c : customConn σ) (ctx : Context)
    (query : String) (args : List NamedValue) (w w1 : World σ) (x : Option (Rows σ))
    (h : c.QueryContext ctx query args w = .ret (x, some .ErrSkip) w1) :
    w1.log = w.log ++ [warnQuery c.logger] := by
  cases hcap : c.conn.bind Conn.QueryerContext with
  | none =>
    rw [QueryContext_absent c hcap] at h
    cases h
    rfl
  | some f =>
    cases hres : f ctx query args w.inner with
    | panic s1 =>
      rw [QueryContext_panic c f hcap ctx query args w s1 hres] at h
      cases h
    | ret a s1 =>
      obtain ⟨r, e⟩ := a
      by_cases he : e = some .ErrSkip
      · subst he
        rw [QueryContext_skip c f hcap ctx query args w r s1 hres] at h
        cases h
        rfl
      · rw [QueryContext_present c f hcap ctx query args w r e s1 hres he] at h
        injection h with h1 h2
        injection h1 with h3 h4
        exact absurd h4 he

theorem QueryContext_nil_log {σ : Type} (c : customConn σ) (ctx : Context)
    (query : String) (args : List NamedValue) (w w1 : World σ) (x : Option (Rows σ))
    (h : c.QueryContext ctx query args w = .ret (x, none) w1) :
    w1.log = w.log ++ [outcomeEvent c.logger "sql queried" "sql query failed" query
      (.NamedValues args) w.elapsed none] := by
  cases hcap : c.conn.bind Conn.QueryerContext with
  | none =>
    rw [QueryContext_absent c hcap] at h
    cases h
  | some f =>
    cases hres : f ctx query args w.inner with
    | panic s1 =>
      rw [QueryContext_panic c f hcap ctx query args w s1 hres] at h
      cases h
    | ret a s1 =>
      obtain ⟨r, e⟩ := a
      by_cases he : e = some .ErrSkip
      · subst he
        rw [QueryContext_skip c f hcap ctx query args w r s1 hres] at h
        cases h
      · rw [QueryContext_present c f hcap ctx query args w r e s1 hres he] at h
        cases h
        rfl

theorem Ping_pinger {σ : Type} (c : customConn σ) (p : Context → Op σ (Option GoError))
    (hcap : c.conn.bind Conn.Pinger = some p) (ctx : Context) :
    c.Ping ctx = invoke (some p) (.ConnPing ctx) (fun f => f ctx) := by
  simp only [customConn.Ping, hcap]

theorem Ping_probe {σ : Type} (c : customConn σ) (hcap : c.conn.bind Conn.Pinger = none)
    (ctx : Context) (w : World σ) :
    c.Ping ctx w =
      match c.QueryContext ctx "SELECT 1" [] w with
      | .ret (_, some e) w1 => .ret (some e) w1
      | .ret (rows, none) w1 => invoke rows .RowsClose (fun r => r.Close) w1
      | .panic w1 => .panic w1 := by
  simp only [customConn.Ping, hcap, Op.run_bind]
  cases c.QueryContext ctx "SELECT 1" [] w with
  | panic w1 => rfl
  | ret a w1 =>
    obtain ⟨rows, e⟩ := a
    cases e <;> rfl

theorem Ping_ErrSkip_noError {σ : Type} (c : customConn σ) (ctx : Context) (w w1 : World σ)
    (h : c.Ping ctx w = .ret (some .ErrSkip) w1) : w.noErrorSince w1 := by
  cases hcap : c.conn.bind Conn.Pinger with
  | some p =>
    rw [Ping_pinger c p hcap] at h
    exact noErrorSince_of_same _ _ (log_of_ret (invoke_log _ _ _ w) h)
  | none =>
    rw [Ping_probe c hcap] at h
    cases hq : c.QueryContext ctx "SELECT 1" [] w with
    | panic w2 => rw [hq] at h; cases h
    | ret a w2 =>
      obtain ⟨rows, e⟩ := a
      rw [hq] at h
      cases e with
      | some err =>
        cases h
        refine noErrorSince_of_append _ _ _ (QueryContext_ErrSkip_log c ctx _ _ w w1 rows hq) ?_
        intro r hr
        simp [warnQuery] at hr
        simp [hr]
      | none =>
        have h2 : w1.log = w2.log := log_of_ret (invoke_log _ _ _ w2) h
        refine noErrorSince_of_append _ _ _
          (h2.trans (QueryContext_nil_log c ctx _ _ w w2 rows hq)) ?_
        intro r hr
        simp [outcomeEvent] at hr
        simp [hr]

/-- C6 as stated fails (counterexample): the sample statement whose `Exec`
fails with `driver.ErrSkip` makes the wrapper's `Exec` return `driver.ErrSkip`
to its caller and emit one event, which is error-level. -/
theorem C6_counterexample_stmt_Exec_logs_ErrSkip_as_error :
    ((customStmt.mk (some demoStmtSkip) lg "INSERT INTO t(x) VALUES (?)").Exec
        [.int 1] w0).value? = some (none, some .ErrSkip) ∧
    (w0.emittedSince ((customStmt.mk (some demoStmtSkip) lg "INSERT INTO t(x) VALUES (?)").Exec
        [.int 1] w0).state).map (fun r => r.level) = [slog.Level.Error] ∧
    ¬ (∀ x w1, (customStmt.mk (some demoStmtSkip) lg "INSERT INTO t(x) VALUES (?)").Exec
        [.int 1] w0 = .ret (x, some .ErrSkip) w1 → w0.noErrorSince w1) := by
  refine ⟨rfl, rfl, ?_⟩
  intro hall
  have h := hall none _ rfl
  exact h _ (List.mem_singleton.mpr rfl) rfl

/-- C6 (amended): whenever an operation of `customConn` (`Prepare`, `Close`,
`Begin`, `PrepareContext`, `ExecContext`, `QueryContext`, `BeginTx`, `Ping`,
`ResetSession`, `CheckNamedValue`) or `customStmt.Close` /
`customStmt.CheckNamedValue` returns `driver.ErrSkip`, no error-level event was
emitted during that call.  The timed statement and transaction operations
(`customStmt.Exec`, `Query`, `ExecContext`, `customTx.Commit`, `Rollback`)
treat a delegate error equal to `driver.ErrSkip` as any delegate failure: they
return it together with exactly one error-level event. -/
theorem C6_ErrSkip_not_error_level_on_conn {σ : Type} (c : customConn σ) (s : customStmt σ)
    (t : customTx σ) (ctx : Context) (query : String) (args : List NamedValue)
    (vals : List Value) (opts : TxOptions) (nv : NamedValue) (w w1 : World σ) :
    (∀ x, c.Prepare query w = .ret (x, some .ErrSkip) w1 → w.noErrorSince w1) ∧
    (c.Close w = .ret (some .ErrSkip) w1 → w.noErrorSince w1) ∧
    (∀ x, c.Begin w = .ret (x, some .ErrSkip) w1 → w.noErrorSince w1) ∧
    (∀ x, c.PrepareContext ctx query w = .ret (x, some .ErrSkip) w1 → w.noErrorSince w1) ∧
    (∀ x, c.ExecContext ctx query args w = .ret (x, some .ErrSkip) w1 → w.noErrorSince w1) ∧
    (∀ x, c.QueryContext ctx query args w = .ret (x, some .ErrSkip) w1 → w.noErrorSince w1) ∧
    (∀ x, c.BeginTx ctx opts w = .ret (x, some .ErrSkip) w1 → w.noErrorSince w1) ∧
    (c.Ping ctx w = .ret (some .ErrSkip) w1 → w.noErrorSince w1) ∧
    (c.ResetSession ctx w = .ret (some .ErrSkip) w1 → w.noErrorSince w1) ∧
    (∀ x, c.CheckNamedValue nv w = .ret (x, some .ErrSkip) w1 → w.noErrorSince w1) ∧
    (s.Close w = .ret (some .ErrSkip) w1 → w.noErrorSince w1) ∧
    (∀ x, s.CheckNamedValue nv w = .ret (x, some .ErrSkip) w1 → w.noErrorSince w1) ∧
    (∀ d r s1, s.stmt = some d → d.Exec vals w.inner = .ret (r, some .ErrSkip) s1 →
      s.Exec vals w = .ret (r, some .ErrSkip)
        (w.afterTimed s1 [.StmtExec vals]
          ⟨s.logger, .Error, "stmt execution failed",
            [("query", .String s.query), ("args", .Values vals),
             ("duration", .Duration w.elapsed), ("error", .Error .ErrSkip)]⟩)) ∧
    (∀ d r s1, s.stmt = some d → d.Query vals w.inner = .ret (r, some .ErrSkip) s1 →
      s.Query vals w = .ret (r, some .ErrSkip)
        (w.afterTimed s1 [.StmtQuery vals]
          ⟨s.logger, .Error, "stmt query failed",
            [("query", .String s.query), ("args", .Values vals),
             ("duration", .Duration w.elapsed), ("error", .Error .ErrSkip)]⟩)) ∧
    (∀ f r s1, s.stmt.bind Stmt.StmtExecContext = some f →
      f ctx args w.inner = .ret (r, some .ErrSkip) s1 →
      s.ExecContext ctx args w = .ret (r, some .ErrSkip)
        (w.afterTimed s1 [.StmtExecContext ctx args]
          ⟨s.logger, .Error, "stmt execution failed",
            [("query", .String s.query), ("args", .NamedValues args),
             ("duration", .Duration w.elapsed), ("error", .Error .ErrSkip)]⟩)) ∧
    (∀ d s1, t.tx = some d → d.Commit w.inner = .ret (some .ErrSkip) s1 →
      t.Commit w = .ret (some .ErrSkip)
        (w.afterTimed s1 [.TxCommit]
          ⟨t.logger, .Error, "transaction commit failed",
            [("duration", .Duration w.elapsed), ("error", .Error .ErrSkip)]⟩)) ∧
    (∀ d s1, t.tx = some d → d.Rollback w.inner = .ret (some .ErrSkip) s1 →
      t.Rollback w = .ret (some .ErrSkip)
        (w.afterTimed s1 [.TxRollback]
          ⟨t.logger, .Error, "transaction rollback failed",
            [("duration", .Duration w.elapsed), ("error", .Error .ErrSkip)]⟩)) := by
  refine ⟨?_, ?_, ?_, ?_, ?_, ?_, ?_, ?_, ?_, ?_, ?_, ?_, ?_, ?_, ?_, ?_, ?_⟩
  · intro x h
    exact noErrorSince_of_same _ _ (log_of_ret (Prepare_log c query w) h)
  · intro h
    exact noErrorSince_of_same _ _ (log_of_ret (Close_log c w) h)
  · intro x h
    have := Begin_noError c w
    rw [h] at this
    exact this
  · intro x h
    exact noErrorSince_of_same _ _ (log_of_ret (PrepareContext_log c ctx query w) h)
  · intro x h
    refine noErrorSince_of_append _ _ _ (ExecContext_ErrSkip_log c ctx query args w w1 x h) ?_
    intro r hr
    simp [warnExec] at hr
    simp [hr]
  · intro x h
    refine noErrorSince_of_append _ _ _ (QueryContext_ErrSkip_log c ctx query args w w1 x h) ?_
    intro r hr
    simp [warnQuery] at hr
    simp [hr]
  · intro x h
    have := BeginTx_noError c ctx opts w
    rw [h] at this
    exact this
  · exact Ping_ErrSkip_noError c ctx w w1
  · intro h
    exact noErrorSince_of_same _ _ (log_of_ret (ResetSession_log c ctx w) h)
  · intro x h
    exact noErrorSince_of_same _ _ (log_of_ret (CheckNamedValue_log c nv w) h)
  · intro h
    exact noErrorSince_of_same _ _ (log_of_ret (stmt_Close_log s w) h)
  · intro x h
    exact noErrorSince_of_same _ _ (log_of_ret (stmt_CheckNamedValue_log s nv w) h)
  · intro d r s1 hd hret
    exact stmt_Exec_run s d hd vals w r _ s1 hret
  · intro d r s1 hd hret
    exact stmt_Query_run s d hd vals w r _ s1 hret
  · intro f r s1 hcap hret
    exact stmt_ExecContext_run s f hcap ctx args w r _ s1 hret
  · intro d s1 hd hret
    exact tx_Commit_run t d hd w _ s1 hret
  · intro d s1 hd hret
    exact tx_Rollback_run t d hd w _ s1 hret

/-- Witness for C6: `ExecContext` on the sample base-only connection returns
`driver.ErrSkip` with no error-level event, and `Exec` on the sample statement
failing with `driver.ErrSkip` emits the error-level event. -/
theorem C6_witness :
    w0.noErrorSince
      ((customConn.mk (some demoConn) lg).ExecContext ctx0 "SELECT 1" [] w0).state ∧
    (customStmt.mk (some demoStmtSkip) lg "SELECT 1").Exec [] w0 =
      .ret (none, some .ErrSkip)
        (w0.afterTimed 1 [.StmtExec []]
          ⟨lg, .Error, "stmt execution failed",
            [("query", .String "SELECT 1"), ("args", .Values []),
             ("duration", .Duration 7), ("error", .Error .ErrSkip)]⟩) :=
  ⟨(C6_ErrSkip_not_error_level_on_conn (customConn.mk (some demoConn) lg)
      (customStmt.mk (some demoStmtSkip) lg "SELECT 1") (customTx.mk (some demoTx) lg) ctx0
      "SELECT 1" [] [] ⟨0, false⟩ ⟨"", 1, .null⟩ w0 _).2.2.2.2.1 none rfl,
   (C6_ErrSkip_not_error_level_on_conn (customConn.mk (some demoConn) lg)
      (customStmt.mk (some demoStmtSkip) lg "SELECT 1") (customTx.mk (some demoTx) lg) ctx0
      "SELECT 1" [] [] ⟨0, false⟩ ⟨"", 1, .null⟩ w0 w0).2.2.2.2.2.2.2.2.2.2.2.2.1
      demoStmtSkip none 1 rfl rfl⟩

/-! ## What each untimed call does, given what the delegate returned -/

theorem invoke_ret {σ τ α : Type} (d : τ) (call : Call) (m : τ → Op σ α) (w : World σ)
    (a : α) (s1 : σ) (hret : m d w.inner = .ret a s1) :
    invoke (some d) call m w = .ret a (w.afterCall s1 call) := by
  rw [invoke_some, hret]
  rfl

theorem Prepare_ret {σ : Type} (c : customConn σ) (d : Conn σ) (hd : c.conn = some d)
    (query : String) (w : World σ) (st : Option (Stmt σ)) (e : Option GoError) (s1 : σ)
    (hret : d.Prepare query w.inner = .ret (st, e) s1) :
    c.Prepare query w =
      .ret (wrapOrError { stmt := st, logger := c.logger, query := query } e)
        (w.afterCall s1 (.ConnPrepare query)) := by
  rw [Prepare_run c d hd, hret]
  cases e <;> rfl

theorem PrepareContext_ret {σ : Type} (c : customConn σ)
    (f : Context → String → Op σ (Option (Stmt σ) × Option GoError))
    (hcap : c.conn.bind Conn.ConnPrepareContext = some f) (ctx : Context) (query : String)
    (w : World σ) (st : Option (Stmt σ)) (e : Option GoError) (s1 : σ)
    (hret : f ctx query w.inner = .ret (st, e) s1) :
    c.PrepareContext ctx query w =
      .ret (wrapOrError { stmt := st, logger := c.logger, query := query } e)
        (w.afterCall s1 (.ConnPrepareContext ctx query)) := by
  cases e <;>
    simp [customConn.PrepareContext, hcap, Op.run_bind, Op.run_pure, invoke_some, hret,
      World.afterCall, wrapOrError]

theorem Close_ret {σ : Type} (c : customConn σ) (d : Conn σ) (hd : c.conn = some d)
    (w : World σ) (e : Option GoError) (s1 : σ) (hret : d.Close w.inner = .ret e s1) :
    c.Close w = .ret e (w.afterCall s1 .ConnClose) := by
  simp only [customConn.Close, hd]
  exact invoke_ret d _ _ w e s1 hret

theorem Ping_ret {σ : Type} (c : customConn σ) (p : Context → Op σ (Option GoError))
    (hcap : c.conn.bind Conn.Pinger = some p) (ctx : Context) (w : World σ)
    (e : Option GoError) (s1 : σ) (hret : p ctx w.inner = .ret e s1) :
    c.Ping ctx w = .ret e (w.afterCall s1 (.ConnPing ctx)) := by
  rw [Ping_pinger c p hcap]
  exact invoke_ret p _ _ w e s1 hret

theorem ResetSession_ret {σ : Type} (c : customConn σ) (p : Context → Op σ (Option GoError))
    (hcap : c.conn.bind Conn.SessionResetter = some p) (ctx : Context) (w : World σ)
    (e : Option GoError) (s1 : σ) (hret : p ctx w.inner = .ret e s1) :
    c.ResetSession ctx w = .ret e (w.afterCall s1 (.ConnResetSession ctx)) := by
  simp only [customConn.ResetSession, hcap]
  exact invoke_ret p _ _ w e s1 hret

theorem IsValid_ret {σ : Type} (c : customConn σ) (v : Op σ Bool)
    (hcap : c.conn.bind Conn.Validator = some v) (w : World σ) (b : Bool) (s1 : σ)
    (hret : v w.inner = .ret b s1) :
    c.IsValid w = .ret b (w.afterCall s1 .ConnIsValid) := by
  simp only [customConn.IsValid, hcap]
  exact invoke_ret v _ _ w b s1 hret

theorem CheckNamedValue_ret {σ : Type} (c : customConn σ)
    (k : NamedValue → Op σ (NamedValue × Option GoError))
    (hcap : c.conn.bind Conn.NamedValueChecker = some k) (nv : NamedValue) (w : World σ)
    (a : NamedValue × Option GoError) (s1 : σ) (hret : k nv w.inner = .ret a s1) :
    c.CheckNamedValue nv w = .ret a (w.afterCall s1 (.ConnCheckNamedValue nv)) := by
  simp only [customConn.CheckNamedValue, hcap]
  exact invoke_ret k _ _ w a s1 hret

theorem stmt_CheckNamedValue_ret {σ : Type} (s : customStmt σ)
    (k : NamedValue → Op σ (NamedValue × Option GoError))
    (hcap : s.stmt.bind Stmt.NamedValueChecker = some k) (nv : NamedValue) (w : World σ)
    (a : NamedValue × Option GoError) (s1 : σ) (hret : k nv w.inner = .ret a s1) :
    s.CheckNamedValue nv w = .ret a (w.afterCall s1 (.StmtCheckNamedValue nv)) := by
  simp only [customStmt.CheckNamedValue, hcap]
  exact invoke_ret k _ _ w a s1 hret

theorem stmt_Close_ret {σ : Type} (s : customStmt σ) (d : Stmt σ) (hd : s.stmt = some d)
    (w : World σ) (e : Option GoError) (s1 : σ) (hret : d.Close w.inner = .ret e s1) :
    s.Close w = .ret e (w.afterCall s1 .StmtClose) := by
  simp only [customStmt.Close, hd]
  exact invoke_ret d _ _ w e s1 hret

theorem Open_ret {σ : Type} (D : CustomDriver σ) (drv : Driver σ) (hd : D.driver = some drv)
    (name : String) (w : World σ) (cn : Option (Conn σ)) (e : Option GoError) (s1 : σ)
    (hret : drv.Open name w.inner = .ret (cn, e) s1) :
    D.Open name w =
      .ret (wrapOrError { conn := cn, logger := D.logger } e)
        (w.afterCall s1 (.DriverOpen name)) := by
  cases e <;>
    simp [CustomDriver.Open, hd, Op.run_bind, Op.run_pure, invoke_some, hret, World.afterCall,
      wrapOrError]

theorem OpenConnector_ret {σ : Type} (D : CustomDriver σ)
    (f : String → Op σ (Option (Connector σ) × Option GoError))
    (hcap : D.driver.bind Driver.DriverContext = some f) (name : String) (w : World σ)
    (k : Option (Connector σ)) (e : Option GoError) (s1 : σ)
    (hret : f name w.inner = .ret (k, e) s1) :
    D.OpenConnector name w =
      .ret (wrapOrError (.custom { connector := k, driver := D, logger := D.logger }) e)
        (w.afterCall s1 (.DriverOpenConnector name)) := by
  cases e <;>
    simp [CustomDriver.OpenConnector, hcap, Op.run_bind, Op.run_pure, invoke_some, hret,
      World.afterCall, wrapOrError]

theorem Connect_ret {σ : Type} (cc : CustomConnector σ) (k : Connector σ)
    (hk : cc.connector = some k) (ctx : Context) (w : World σ) (cn : Option (Conn σ))
    (e : Option GoError) (s1 : σ) (hret : k.Connect ctx w.inner = .ret (cn, e) s1) :
    cc.Connect ctx w =
      .ret (wrapOrError { conn := cn, logger := cc.logger } e)
        (w.afterCall s1 (.ConnectorConnect ctx)) := by
  cases e <;>
    simp [CustomConnector.Connect, hk, Op.run_bind, Op.run_pure, invoke_some, hret,
      World.afterCall, wrapOrError]

/-! ## Base-only delegates -/

theorem baseOnlyConn_iff {σ : Type} (d : Conn σ) :
    baseOnlyConn d = true ↔
      d.ConnPrepareContext = none ∧ d.ExecerContext = none ∧ d.QueryerContext = none ∧
      d.ConnBeginTx = none ∧ d.Pinger = none ∧ d.SessionResetter = none ∧
      d.Validator = none ∧ d.NamedValueChecker = none := by
  simp [baseOnlyConn, Option.isNone_iff_eq_none, and_assoc]

theorem baseOnlyStmt_iff {σ : Type} (d : Stmt σ) :
    baseOnlyStmt d = true ↔
      d.StmtExecContext = none ∧ d.StmtQueryContext = none ∧ d.NamedValueChecker = none := by
  simp [baseOnlyStmt, Option.isNone_iff_eq_none, and_assoc]

theorem Ping_base {σ : Type} (c : customConn σ) (hp : c.conn.bind Conn.Pinger = none)
    (hq : c.conn.bind Conn.QueryerContext = none) (ctx : Context) (w : World σ) :
    c.Ping ctx w =
      .ret (some .ErrSkip)
        { w with reads := w.reads + 1, log := w.log ++ [warnQuery c.logger] } := by
  rw [Ping_probe c hp, QueryContext_absent c hq]

/-- C7 as stated fails (counterexample): on the sample connection that
implements only `driver.Conn`, `PrepareContext` returns a statement wrapper
with a nil error, not `driver.ErrSkip`, and emits no event at all. -/
theorem C7_counterexample_PrepareContext_base_only :
    baseOnlyConn demoConn = true ∧
    ((customConn.mk (some demoConn) lg).PrepareContext ctx0 "SELECT 1" w0).value?.map Prod.snd =
      some none ∧
    w0.emittedSince ((customConn.mk (some demoConn) lg).PrepareContext ctx0 "SELECT 1" w0).state =
      [] := by
  refine ⟨rfl, rfl, rfl⟩

/-- C7 (amended): on a connection and a statement delegate that implement only
the base contract, `customConn.ExecContext`, `QueryContext` and `Ping` return
`driver.ErrSkip`, call nothing on the delegate and emit exactly one
warning-level event and nothing else; `CheckNamedValue` of both wrappers
returns `driver.ErrSkip`, leaves the value alone and emits no event;
`customConn.ResetSession` returns nil and emits no event;
`customConn.PrepareContext`, `BeginTx` and `customStmt.ExecContext` do not
signal: they are `Prepare`, `Begin` and `Exec` (on the bare values) of the same
wrapper, returning whatever error the delegate's base method returned. -/
theorem C7_base_only_delegate_optional_calls {σ : Type} (c : customConn σ)
    (s : customStmt σ) (d : Conn σ) (ds : Stmt σ) (hc : c.conn = some d)
    (hb : baseOnlyConn d = true) (hs : s.stmt = some ds) (hsb : baseOnlyStmt ds = true)
    (ctx : Context) (query : String) (args : List NamedValue) (opts : TxOptions)
    (nv : NamedValue) (w : World σ) :
    c.ExecContext ctx query args w =
      .ret (none, some .ErrSkip)
        { inner := w.inner, calls := w.calls, clock := w.clock, reads := w.reads + 1,
          log := w.log ++ [⟨c.logger, .Warn,
            "original driver does not support ExecerContext", []⟩] } ∧
    c.QueryContext ctx query args w =
      .ret (none, some .ErrSkip)
        { inner := w.inner, calls := w.calls, clock := w.clock, reads := w.reads + 1,
          log := w.log ++ [⟨c.logger, .Warn,
            "original driver does not support QueryerContext", []⟩] } ∧
    c.Ping ctx w =
      .ret (some .ErrSkip)
        { inner := w.inner, calls := w.calls, clock := w.clock, reads := w.reads + 1,
          log := w.log ++ [⟨c.logger, .Warn,
            "original driver does not support QueryerContext", []⟩] } ∧
    c.CheckNamedValue nv w = .ret (nv, some .ErrSkip) w ∧
    s.CheckNamedValue nv w = .ret (nv, some .ErrSkip) w ∧
    c.ResetSession ctx w = .ret none w ∧
    c.PrepareContext ctx query w = c.Prepare query w ∧
    (∀ st e s1, d.Prepare query w.inner = .ret (st, e) s1 →
      c.PrepareContext ctx query w =
        .ret (wrapOrError { stmt := st, logger := c.logger, query := query } e)
          (w.afterCall s1 (.ConnPrepare query))) ∧
    c.BeginTx ctx opts w = c.Begin w ∧
    (∀ tx s1, d.Begin w.inner = .ret (tx, none) s1 →
      c.BeginTx ctx opts w =
        .ret (some { tx := tx, logger := c.logger }, none)
          { inner := s1, calls := w.calls ++ [.ConnBegin], clock := w.clock,
            reads := w.reads,
            log := w.log ++ [⟨c.logger, .Info, "transaction started", []⟩] }) ∧
    s.ExecContext ctx args w = s.Exec (args.map (fun a => a.Value)) w ∧
    (∀ r e s1, ds.Exec (args.map (fun a => a.Value)) w.inner = .ret (r, e) s1 →
      s.ExecContext ctx args w =
        .ret (r, e) (w.afterTimed s1 [.StmtExec (args.map (fun a => a.Value))]
          (outcomeEvent s.logger "stmt executed" "stmt execution failed" s.query
            (.Values (args.map (fun a => a.Value))) w.elapsed e))) := by
  obtain ⟨h1, h2, h3, h4, h5, h6, _, h8⟩ := (baseOnlyConn_iff d).mp hb
  obtain ⟨g1, _, g3⟩ := (baseOnlyStmt_iff ds).mp hsb
  have k1 : c.conn.bind Conn.ConnPrepareContext = none := by rw [hc]; exact h1
  have k2 : c.conn.bind Conn.ExecerContext = none := by rw [hc]; exact h2
  have k3 : c.conn.bind Conn.QueryerContext = none := by rw [hc]; exact h3
  have k4 : c.conn.bind Conn.ConnBeginTx = none := by rw [hc]; exact h4
  have k5 : c.conn.bind Conn.Pinger = none := by rw [hc]; exact h5
  have k6 : c.conn.bind Conn.SessionResetter = none := by rw [hc]; exact h6
  have k8 : c.conn.bind Conn.NamedValueChecker = none := by rw [hc]; exact h8
  have j1 : s.stmt.bind Stmt.StmtExecContext = none := by rw [hs]; exact g1
  have j3 : s.stmt.bind Stmt.NamedValueChecker = none := by rw [hs]; exact g3
  refine ⟨ExecContext_absent c k2 ctx query args w, QueryContext_absent c k3 ctx query args w,
    Ping_base c k5 k3 ctx w, ?_, ?_, ?_, ?_, ?_, ?_, ?_, ?_, ?_⟩
  · simp only [customConn.CheckNamedValue, k8]; rfl
  · simp only [customStmt.CheckNamedValue, j3]; rfl
  · simp only [customConn.ResetSession, k6]; rfl
  · rw [PrepareContext_absent c k1]
  · intro st e s1 hret
    rw [PrepareContext_absent c k1]
    exact Prepare_ret c d hc query w st e s1 hret
  · rw [BeginTx_absent c k4]
  · intro tx s1 hret
    rw [BeginTx_absent c k4]
    exact Begin_ok c d hc w tx s1 hret
  · rw [stmt_ExecContext_fallback s j1]
  · intro r e s1 hret
    rw [stmt_ExecContext_fallback s j1]
    exact stmt_Exec_run s ds hs _ w r e s1 hret

/-- Witness for C7: the sample base-only connection and statement; `Ping`
returns `driver.ErrSkip` with one warning. -/
theorem C7_witness :
    (customConn.mk (some demoConn) lg).Ping ctx0 w0 =
      .ret (some .ErrSkip)
        { inner := 0, calls := [], clock := w0.clock, reads := 1,
          log := [⟨lg, .Warn, "original driver does not support QueryerContext", []⟩] } :=
  (C7_base_only_delegate_optional_calls (customConn.mk (some demoConn) lg)
    (customStmt.mk (some demoStmt) lg "SELECT 1") demoConn demoStmt rfl rfl rfl rfl ctx0
    "SELECT 1" [] ⟨0, false⟩ ⟨"", 1, .null⟩ w0).2.2.1

/-- C8 as stated fails (counterexample): the sample connection implements
`driver.Pinger`; the wrapper's `Ping` forwards to it and returns its nil error,
but emits no telemetry event at all. -/
theorem C8_counterexample_Ping_emits_no_event :
    demoConnFull.Pinger.isSome = true ∧
    ((customConn.mk (some demoConnFull) lg).Ping ctx0 w0).value? = some none ∧
    ((customConn.mk (some demoConnFull) lg).Ping ctx0 w0).state.calls = [.ConnPing ctx0] ∧
    w0.emittedSince ((customConn.mk (some demoConnFull) lg).Ping ctx0 w0).state = [] := by
  refine ⟨rfl, rfl, rfl, rfl⟩

/-- C8 (amended): for each optional capability the delegate implements, the
wrapper makes exactly one call of the delegate's corresponding method with the
same arguments.  `customConn.ExecContext` / `QueryContext` (when the delegate
does not answer `driver.ErrSkip`) and `customStmt.ExecContext` return the
delegate's pair and emit exactly one info-or-error event.
`customConn.PrepareContext` and `BeginTx` return the delegate's error with a
nil object, or a wrapper around the delegate's object; `BeginTx` emits one
info event on success and none on failure, `PrepareContext` never emits.
`Ping`, `ResetSession`, `IsValid` and `CheckNamedValue` (connection and
statement) return exactly what the delegate returned and emit no event. -/
theorem C8_capable_delegate_exact_forwarding {σ : Type} (c : customConn σ)
    (s : customStmt σ) (ctx : Context) (query : String) (args : List NamedValue)
    (opts : TxOptions) (nv : NamedValue) (w : World σ) (s1 : σ) :
    (∀ f r e, c.conn.bind Conn.ExecerContext = some f →
      f ctx query args w.inner = .ret (r, e) s1 → e ≠ some .ErrSkip →
      c.ExecContext ctx query args w =
        .ret (r, e) (w.afterTimed s1 [.ConnExecContext ctx query args]
          (outcomeEvent c.logger "sql executed" "sql execution failed" query
            (.NamedValues args) w.elapsed e))) ∧
    (∀ f r e, c.conn.bind Conn.QueryerContext = some f →
      f ctx query args w.inner = .ret (r, e) s1 → e ≠ some .ErrSkip →
      c.QueryContext ctx query args w =
        .ret (r, e) (w.afterTimed s1 [.ConnQueryContext ctx query args]
          (outcomeEvent c.logger "sql queried" "sql query failed" query
            (.NamedValues args) w.elapsed e))) ∧
    (∀ f r e, s.stmt.bind Stmt.StmtExecContext = some f →
      f ctx args w.inner = .ret (r, e) s1 →
      s.ExecContext ctx args w =
        .ret (r, e) (w.afterTimed s1 [.StmtExecContext ctx args]
          (outcomeEvent s.logger "stmt executed" "stmt execution failed" s.query
            (.NamedValues args) w.elapsed e))) ∧
    (∀ f st e, c.conn.bind Conn.ConnPrepareContext = some f →
      f ctx query w.inner = .ret (st, e) s1 →
      c.PrepareContext ctx query w =
        .ret (wrapOrError { stmt := st, logger := c.logger, query := query } e)
          (w.afterCall s1 (.ConnPrepareContext ctx query))) ∧
    (∀ f tx err, c.conn.bind Conn.ConnBeginTx = some f →
      f ctx opts w.inner = .ret (tx, some err) s1 →
      c.BeginTx ctx opts w = .ret (none, some err) (w.afterCall s1 (.ConnBeginTx ctx opts))) ∧
    (∀ f tx, c.conn.bind Conn.ConnBeginTx = some f →
      f ctx opts w.inner = .ret (tx, none) s1 →
      c.BeginTx ctx opts w =
        .ret (some { tx := tx, logger := c.logger }, none)
          { inner := s1, calls := w.calls ++ [.ConnBeginTx ctx opts], clock := w.clock,
            reads := w.reads,
            log := w.log ++ [⟨c.logger, .Info, "transaction started",
              [("isolation", .Isolation opts.Isolation), ("read_only", .Bool opts.ReadOnly)]⟩] }) ∧
    (∀ p e, c.conn.bind Conn.Pinger = some p → p ctx w.inner = .ret e s1 →
      c.Ping ctx w = .ret e (w.afterCall s1 (.ConnPing ctx))) ∧
    (∀ p e, c.conn.bind Conn.SessionResetter = some p → p ctx w.inner = .ret e s1 →
      c.ResetSession ctx w = .ret e (w.afterCall s1 (.ConnResetSession ctx))) ∧
    (∀ v b, c.conn.bind Conn.Validator = some v → v w.inner = .ret b s1 →
      c.IsValid w = .ret b (w.afterCall s1 .ConnIsValid)) ∧
    (∀ k a, c.conn.bind Conn.NamedValueChecker = some k → k nv w.inner = .ret a s1 →
      c.CheckNamedValue nv w = .ret a (w.afterCall s1 (.ConnCheckNamedValue nv))) ∧
    (∀ k a, s.stmt.bind Stmt.NamedValueChecker = some k → k nv w.inner = .ret a s1 →
      s.CheckNamedValue nv w = .ret a (w.afterCall s1 (.StmtCheckNamedValue nv))) := by
  refine ⟨?_, ?_, ?_, ?_, ?_, ?_, ?_, ?_, ?_, ?_, ?_⟩
  · intro f r e hcap hret hne
    exact ExecContext_present c f hcap ctx query args w r e s1 hret hne
  · intro f r e hcap hret hne
    exact QueryContext_present c f hcap ctx query args w r e s1 hret hne
  · intro f r e hcap hret
    exact stmt_ExecContext_run s f hcap ctx args w r e s1 hret
  · intro f st e hcap hret
    exact PrepareContext_ret c f hcap ctx query w st e s1 hret
  · intro f tx err hcap hret
    exact BeginTx_fail c f hcap ctx opts w tx err s1 hret
  · intro f tx hcap hret
    exact BeginTx_ok c f hcap ctx opts w tx s1 hret
  · intro p e hcap hret
    exact Ping_ret c p hcap ctx w e s1 hret
  · intro p e hcap hret
    exact ResetSession_ret c p hcap ctx w e s1 hret
  · intro v b hcap hret
    exact IsValid_ret c v hcap w b s1 hret
  · intro k a hcap hret
    exact CheckNamedValue_ret c k hcap nv w a s1 hret
  · intro k a hcap hret
    exact stmt_CheckNamedValue_ret s k hcap nv w a s1 hret

/-- Witness for C8: on the sample connection implementing every optional
interface, `CheckNamedValue` hands back the delegate's rewritten value and nil
error with no event, and `BeginTx` emits the one info event with the options. -/
theorem C8_witness :
    (customConn.mk (some demoConnFull) lg).CheckNamedValue ⟨"id", 1, .int 5⟩ w0 =
      .ret (⟨"id", 1, .null⟩, none)
        { inner := 1, calls := [.ConnCheckNamedValue ⟨"id", 1, .int 5⟩], log := [],
          clock := w0.clock, reads := 0 } ∧
    (customConn.mk (some demoConnFull) lg).BeginTx ctx0 ⟨8, true⟩ w0 =
      .ret (some { tx := some demoTx, logger := lg }, none)
        { inner := 1, calls := [.ConnBeginTx ctx0 ⟨8, true⟩], clock := w0.clock, reads := 0,
          log := [⟨lg, .Info, "transaction started",
            [("isolation", .Isolation 8), ("read_only", .Bool true)]⟩] } :=
  ⟨(C8_capable_delegate_exact_forwarding (customConn.mk (some demoConnFull) lg)
      (customStmt.mk (some demoStmtCtx) lg "SELECT 1") ctx0 "SELECT 1" [] ⟨8, true⟩
      ⟨"id", 1, .int 5⟩ w0 1).2.2.2.2.2.2.2.2.2.1 _ _ rfl rfl,
   (C8_capable_delegate_exact_forwarding (customConn.mk (some demoConnFull) lg)
      (customStmt.mk (some demoStmtCtx) lg "SELECT 1") ctx0 "SELECT 1" [] ⟨8, true⟩
      ⟨"id", 1, .int 5⟩ w0 1).2.2.2.2.2.1 _ _ rfl rfl⟩

/-! ## `Ping` through the probe query -/

theorem Ping_probe_fail {σ : Type} (c : customConn σ)
    (f : Context → String → List NamedValue → Op σ (Option (Rows σ) × Option GoError))
    (hp : c.conn.bind Conn.Pinger = none) (hq : c.conn.bind Conn.QueryerContext = some f)
    (ctx : Context) (w : World σ) (r : Option (Rows σ)) (err : GoError) (s1 : σ)
    (hret : f ctx "SELECT 1" [] w.inner = .ret (r, some err) s1) (hne : err ≠ .ErrSkip) :
    c.Ping ctx w =
      .ret (some err) (w.afterTimed s1 [.ConnQueryContext ctx "SELECT 1" []]
        (outcomeEvent c.logger "sql queried" "sql query failed" "SELECT 1"
          (.NamedValues []) w.elapsed (some err))) := by
  have hne1 : some err ≠ some GoError.ErrSkip := fun h => hne (Option.some.inj h)
  rw [Ping_probe c hp, QueryContext_present c f hq ctx _ _ w r _ s1 hret hne1]

theorem Ping_probe_skip {σ : Type} (c : customConn σ)
    (f : Context → String → List NamedValue → Op σ (Option (Rows σ) × Option GoError))
    (hp : c.conn.bind Conn.Pinger = none) (hq : c.conn.bind Conn.QueryerContext = some f)
    (ctx : Context) (w : World σ) (r : Option (Rows σ)) (s1 : σ)
    (hret : f ctx "SELECT 1" [] w.inner = .ret (r, some .ErrSkip) s1) :
    c.Ping ctx w =
      .ret (some .ErrSkip)
        { inner := s1, calls := w.calls ++ [.ConnQueryContext ctx "SELECT 1" []],
          clock := w.clock, reads := w.reads + 1, log := w.log ++ [warnQuery c.logger] } := by
  rw [Ping_probe c hp, QueryContext_skip c f hq ctx _ _ w r s1 hret]

theorem Ping_probe_close {σ : Type} (c : customConn σ)
    (f : Context → String → List NamedValue → Op σ (Option (Rows σ) × Option GoError))
    (hp : c.conn.bind Conn.Pinger = none) (hq : c.conn.bind Conn.QueryerContext = some f)
    (ctx : Context) (w : World σ) (rows : Rows σ) (s1 s2 : σ) (e : Option GoError)
    (hret : f ctx "SELECT 1" [] w.inner = .ret (some rows, none) s1)
    (hclose : rows.Close s1 = .ret e s2) :
    c.Ping ctx w =
      .ret e
        { inner := s2, calls := w.calls ++ [.ConnQueryContext ctx "SELECT 1" [], .RowsClose],
          clock := w.clock, reads := w.reads + 2,
          log := w.log ++ [outcomeEvent c.logger "sql queried" "sql query failed" "SELECT 1"
            (.NamedValues []) w.elapsed none] } := by
  have hne1 : (none : Option GoError) ≠ some GoError.ErrSkip := fun h => Option.noConfusion h
  rw [Ping_probe c hp, QueryContext_present c f hq ctx _ _ w (some rows) none s1 hret hne1]
  simp [invoke_some, World.afterTimed, hclose]

theorem ExecContext_error {σ : Type} (c : customConn σ)
    (f : Context → String → List NamedValue → Op σ (Option Result × Option GoError))
    (hcap : c.conn.bind Conn.ExecerContext = some f) (ctx : Context) (query : String)
    (args : List NamedValue) (w : World σ) (r : Option Result) (err : GoError) (s1 : σ)
    (hret : f ctx query args w.inner = .ret (r, some err) s1) :
    (c.ExecContext ctx query args w).value?.map Prod.snd = some (some err) := by
  by_cases he : err = .ErrSkip
  · subst he
    rw [ExecContext_skip c f hcap ctx query args w r s1 hret]
    rfl
  · have hne1 : some err ≠ some GoError.ErrSkip := fun h => he (Option.some.inj h)
    rw [ExecContext_present c f hcap ctx query args w r _ s1 hret hne1]
    rfl

theorem QueryContext_error {σ : Type} (c : customConn σ)
    (f : Context → String → List NamedValue → Op σ (Option (Rows σ) × Option GoError))
    (hcap : c.conn.bind Conn.QueryerContext = some f) (ctx : Context) (query : String)
    (args : List NamedValue) (w : World σ) (r : Option (Rows σ)) (err : GoError) (s1 : σ)
    (hret : f ctx query args w.inner = .ret (r, some err) s1) :
    (c.QueryContext ctx query args w).value?.map Prod.snd = some (some err) := by
  by_cases he : err = .ErrSkip
  · subst he
    rw [QueryContext_skip c f hcap ctx query args w r s1 hret]
    rfl
  · have hne1 : some err ≠ some GoError.ErrSkip := fun h => he (Option.some.inj h)
    rw [QueryContext_present c f hcap ctx query args w r _ s1 hret hne1]
    rfl

theorem Ping_probe_error {σ : Type} (c : customConn σ)
    (f : Context → String → List NamedValue → Op σ (Option (Rows σ) × Option GoError))
    (hp : c.conn.bind Conn.Pinger = none) (hq : c.conn.bind Conn.QueryerContext = some f)
    (ctx : Context) (w : World σ) (r : Option (Rows σ)) (err : GoError) (s1 : σ)
    (hret : f ctx "SELECT 1" [] w.inner = .ret (r, some err) s1) :
    (c.Ping ctx w).value? = some (some err) := by
  by_cases he : err = .ErrSkip
  · subst he
    rw [Ping_probe_skip c f hp hq ctx w r s1 hret]
    rfl
  · rw [Ping_probe_fail c f hp hq ctx w r err s1 hret he]
    rfl

/-- C9: errors are never translated.  For each forwarding operation, if the
delegate operation it invokes returns the non-nil error `err`, the wrapper
returns exactly `err`; `Open`, `OpenConnector`, `Connect`, `Prepare`,
`PrepareContext`, `Begin` and `BeginTx` return a nil object next to it, whatever
object the delegate handed back; the timed statement calls return the
delegate's result next to it.  `PrepareContext`, `BeginTx` and
`customStmt.ExecContext` are covered on both paths (the delegate's
context-aware method, or the base method they fall back to), `Ping` on its
three (the delegate's `Ping`, the probe query, the `Close` of the probe's
rows). -/
theorem C9_errors_forwarded_unchanged {σ : Type} (D : CustomDriver σ)
    (cc : CustomConnector σ) (c : customConn σ) (s : customStmt σ) (t : customTx σ)
    (name : String) (ctx : Context) (query : String) (args : List NamedValue)
    (vals : List Value) (opts : TxOptions) (nv : NamedValue) (w : World σ)
    (err : GoError) (s1 s2 : σ) :
    (∀ drv cn, D.driver = some drv → drv.Open name w.inner = .ret (cn, some err) s1 →
      (D.Open name w).value? = some (none, some err)) ∧
    (∀ f k, D.driver.bind Driver.DriverContext = some f →
      f name w.inner = .ret (k, some err) s1 →
      (D.OpenConnector name w).value? = some (none, some err)) ∧
    (∀ k cn, cc.connector = some k → k.Connect ctx w.inner = .ret (cn, some err) s1 →
      (cc.Connect ctx w).value? = some (none, some err)) ∧
    (∀ d st, c.conn = some d → d.Prepare query w.inner = .ret (st, some err) s1 →
      (c.Prepare query w).value? = some (none, some err)) ∧
    (∀ f st, c.conn.bind Conn.ConnPrepareContext = some f →
      f ctx query w.inner = .ret (st, some err) s1 →
      (c.PrepareContext ctx query w).value? = some (none, some err)) ∧
    (∀ d st, c.conn = some d → d.ConnPrepareContext = none →
      d.Prepare query w.inner = .ret (st, some err) s1 →
      (c.PrepareContext ctx query w).value? = some (none, some err)) ∧
    (∀ d tx, c.conn = some d → d.Begin w.inner = .ret (tx, some err) s1 →
      (c.Begin w).value? = some (none, some err)) ∧
    (∀ f tx, c.conn.bind Conn.ConnBeginTx = some f →
      f ctx opts w.inner = .ret (tx, some err) s1 →
      (c.BeginTx ctx opts w).value? = some (none, some err)) ∧
    (∀ d tx, c.conn = some d → d.ConnBeginTx = none →
      d.Begin w.inner = .ret (tx, some err) s1 →
      (c.BeginTx ctx opts w).value? = some (none, some err)) ∧
    (∀ f r, c.conn.bind Conn.ExecerContext = some f →
      f ctx query args w.inner = .ret (r, some err) s1 →
      (c.ExecContext ctx query args w).value?.map Prod.snd = some (some err)) ∧
    (∀ f r, c.conn.bind Conn.QueryerContext = some f →
      f ctx query args w.inner = .ret (r, some err) s1 →
      (c.QueryContext ctx query args w).value?.map Prod.snd = some (some err)) ∧
    (∀ p, c.conn.bind Conn.Pinger = some p → p ctx w.inner = .ret (some err) s1 →
      (c.Ping ctx w).value? = some (some err)) ∧
    (∀ f r, c.conn.bind Conn.Pinger = none → c.conn.bind Conn.QueryerContext = some f →
      f ctx "SELECT 1" [] w.inner = .ret (r, some err) s1 →
      (c.Ping ctx w).value? = some (some err)) ∧
    (∀ f rows, c.conn.bind Conn.Pinger = none → c.conn.bind Conn.QueryerContext = some f →
      f ctx "SELECT 1" [] w.inner = .ret (some rows, none) s1 →
      rows.Close s1 = .ret (some err) s2 →
      (c.Ping ctx w).value? = some (some err)) ∧
    (∀ p, c.conn.bind Conn.SessionResetter = some p → p ctx w.inner = .ret (some err) s1 →
      (c.ResetSession ctx w).value? = some (some err)) ∧
    (∀ k nv1, c.conn.bind Conn.NamedValueChecker = some k →
      k nv w.inner = .ret (nv1, some err) s1 →
      (c.CheckNamedValue nv w).value? = some (nv1, some err)) ∧
    (∀ d, c.conn = some d → d.Close w.inner = .ret (some err) s1 →
      (c.Close w).value? = some (some err)) ∧
    (∀ d r, s.stmt = some d → d.Exec vals w.inner = .ret (r, some err) s1 →
      (s.Exec vals w).value? = some (r, some err)) ∧
    (∀ d r, s.stmt = some d → d.Query vals w.inner = .ret (r, some err) s1 →
      (s.Query vals w).value? = some (r, some err)) ∧
    (∀ f r, s.stmt.bind Stmt.StmtExecContext = some f →
      f ctx args w.inner = .ret (r, some err) s1 →
      (s.ExecContext ctx args w).value? = some (r, some err)) ∧
    (∀ d r, s.stmt = some d → d.StmtExecContext = none →
      d.Exec (args.map (fun a => a.Value)) w.inner = .ret (r, some err) s1 →
      (s.ExecContext ctx args w).value? = some (r, some err)) ∧
    (∀ k nv1, s.stmt.bind Stmt.NamedValueChecker = some k →
      k nv w.inner = .ret (nv1, some err) s1 →
      (s.CheckNamedValue nv w).value? = some (nv1, some err)) ∧
    (∀ d, s.stmt = some d → d.Close w.inner = .ret (some err) s1 →
      (s.Close w).value? = some (some err)) ∧
    (∀ d, t.tx = some d → d.Commit w.inner = .ret (some err) s1 →
      (t.Commit w).value? = some (some err)) ∧
    (∀ d, t.tx = some d → d.Rollback w.inner = .ret (some err) s1 →
      (t.Rollback w).value? = some (some err)) := by
  refine ⟨?_, ?_, ?_, ?_, ?_, ?_, ?_, ?_, ?_, ?_, ?_, ?_, ?_, ?_, ?_, ?_, ?_, ?_, ?_, ?_, ?_,
    ?_, ?_, ?_, ?_⟩
  · intro drv cn hd hret
    rw [Open_ret D drv hd name w cn _ s1 hret]; rfl
  · intro f k hcap hret
    rw [OpenConnector_ret D f hcap name w k _ s1 hret]; rfl
  · intro k cn hk hret
    rw [Connect_ret cc k hk ctx w cn _ s1 hret]; rfl
  · intro d st hd hret
    rw [Prepare_ret c d hd query w st _ s1 hret]; rfl
  · intro f st hcap hret
    rw [PrepareContext_ret c f hcap ctx query w st _ s1 hret]; rfl
  · intro d st hd hcap hret
    have hcap1 : c.conn.bind Conn.ConnPrepareContext = none := by rw [hd]; exact hcap
    rw [PrepareContext_absent c hcap1, Prepare_ret c d hd query w st _ s1 hret]; rfl
  · intro d tx hd hret
    rw [Begin_fail c d hd w tx err s1 hret]; rfl
  · intro f tx hcap hret
    rw [BeginTx_fail c f hcap ctx opts w tx err s1 hret]; rfl
  · intro d tx hd hcap hret
    have hcap1 : c.conn.bind Conn.ConnBeginTx = none := by rw [hd]; exact hcap
    rw [BeginTx_absent c hcap1, Begin_fail c d hd w tx err s1 hret]; rfl
  · intro f r hcap hret
    exact ExecContext_error c f hcap ctx query args w r err s1 hret
  · intro f r hcap hret
    exact QueryContext_error c f hcap ctx query args w r err s1 hret
  · intro p hcap hret
    rw [Ping_ret c p hcap ctx w _ s1 hret]; rfl
  · intro f r hp hq hret
    exact Ping_probe_error c f hp hq ctx w r err s1 hret
  · intro f rows hp hq hret hclose
    rw [Ping_probe_close c f hp hq ctx w rows s1 s2 _ hret hclose]; rfl
  · intro p hcap hret
    rw [ResetSession_ret c p hcap ctx w _ s1 hret]; rfl
  · intro k nv1 hcap hret
    rw [CheckNamedValue_ret c k hcap nv w _ s1 hret]; rfl
  · intro d hd hret
    rw [Close_ret c d hd w _ s1 hret]; rfl
  · intro d r hd hret
    rw [stmt_Exec_run s d hd vals w r _ s1 hret]; rfl
  · intro d r hd hret
    rw [stmt_Query_run s d hd vals w r _ s1 hret]; rfl
  · intro f r hcap hret
    rw [stmt_ExecContext_run s f hcap ctx args w r _ s1 hret]; rfl
  · intro d r hd hcap hret
    have hcap1 : s.stmt.bind Stmt.StmtExecContext = none := by rw [hd]; exact hcap
    rw [stmt_ExecContext_fallback s hcap1, stmt_Exec_run s d hd _ w r _ s1 hret]; rfl
  · intro k nv1 hcap hret
    rw [stmt_CheckNamedValue_ret s k hcap nv w _ s1 hret]; rfl
  · intro d hd hret
    rw [stmt_Close_ret s d hd w _ s1 hret]; rfl
  · intro d hd hret
    rw [tx_Commit_run t d hd w _ s1 hret]; rfl
  · intro d hd hret
    rw [tx_Rollback_run t d hd w _ s1 hret]; rfl

/-- Witness for C9: `Open` of the sample driver on the empty name returns
`(nil, "invalid DSN")`, and `Prepare` on the sample dead connection returns
`(nil, driver.ErrBadConn)`. -/
theorem C9_witness :
    ((CustomDriver.mk (some demoDriver) lg).Open "" w0).value? =
      some (none, some (.other "invalid DSN")) ∧
    ((customConn.mk (some demoConnBroken) lg).Prepare "SELECT 1" w0).value? =
      some (none, some .ErrBadConn) :=
  ⟨(C9_errors_forwarded_unchanged (CustomDriver.mk (some demoDriver) lg)
      (CustomConnector.mk none (CustomDriver.mk (some demoDriver) lg) lg)
      (customConn.mk (some demoConnBroken) lg) (customStmt.mk (some demoStmt) lg "SELECT 1")
      (customTx.mk (some demoTx) lg) "" ctx0 "SELECT 1" [] [] ⟨0, false⟩ ⟨"", 1, .null⟩ w0
      (.other "invalid DSN") 0 0).1 demoDriver none rfl rfl,
   (C9_errors_forwarded_unchanged (CustomDriver.mk (some demoDriver) lg)
      (CustomConnector.mk none (CustomDriver.mk (some demoDriver) lg) lg)
      (customConn.mk (some demoConnBroken) lg) (customStmt.mk (some demoStmt) lg "SELECT 1")
      (customTx.mk (some demoTx) lg) "" ctx0 "SELECT 1" [] [] ⟨0, false⟩ ⟨"", 1, .null⟩ w0
      .ErrBadConn 1 0).2.2.2.1 demoConnBroken none rfl rfl⟩

/-- C10 as stated fails (counterexample): the sample dead connection fails
`Prepare` with `driver.ErrBadConn`; the wrapper's `Prepare` returns that error
and emits no event, so no error-level event either. -/
theorem C10_counterexample_Prepare_failure_not_logged :
    ((demoConnBroken.Prepare "SELECT 1" 0).value?.map Prod.snd = some (some .ErrBadConn)) ∧
    ((customConn.mk (some demoConnBroken) lg).Prepare "SELECT 1" w0).value?.map Prod.snd =
      some (some .ErrBadConn) ∧
    w0.emittedSince ((customConn.mk (some demoConnBroken) lg).Prepare "SELECT 1" w0).state =
      [] := by
  refine ⟨rfl, rfl, rfl⟩

/-- C10 (amended): let the delegate operation fail with an error `err` other
than `driver.ErrSkip`.  Exactly one event, error-level and carrying `err`, is
emitted by the timed calls: `customConn.ExecContext`, `QueryContext` (so also
`Ping` when its probe query fails), `customStmt.Exec`, `Query`, `ExecContext`,
`customTx.Commit`, `Rollback`.  No event is emitted by `customConn.Prepare`,
`PrepareContext`, `Begin`, `BeginTx`, `Ping` through a `driver.Pinger`,
`ResetSession`, `Close`, `customStmt.Close`, `CustomDriver.Open`,
`OpenConnector` and `CustomConnector.Connect`: they only return the error.
When the probe query of `Ping` succeeds and closing its rows fails, the only
event is the info-level one of the query. -/
theorem C10_error_events_only_on_timed_calls {σ : Type} (D : CustomDriver σ)
    (cc : CustomConnector σ) (c : customConn σ) (s : customStmt σ) (t : customTx σ)
    (name : String) (ctx : Context) (query : String) (args : List NamedValue)
    (vals : List Value) (opts : TxOptions) (w : World σ) (err : GoError) (s1 s2 : σ)
    (hne : err ≠ .ErrSkip) :
    (∀ f r, c.conn.bind Conn.ExecerContext = some f →
      f ctx query args w.inner = .ret (r, some err) s1 →
      c.ExecContext ctx query args w =
        .ret (r, some err) (w.afterTimed s1 [.ConnExecContext ctx query args]
          ⟨c.logger, .Error, "sql execution failed",
            [("query", .String query), ("args", .NamedValues args),
             ("duration", .Duration w.elapsed), ("error", .Error err)]⟩)) ∧
    (∀ f r, c.conn.bind Conn.QueryerContext = some f →
      f ctx query args w.inner = .ret (r, some err) s1 →
      c.QueryContext ctx query args w =
        .ret (r, some err) (w.afterTimed s1 [.ConnQueryContext ctx query args]
          ⟨c.logger, .Error, "sql query failed",
            [("query", .String query), ("args", .NamedValues args),
             ("duration", .Duration w.elapsed), ("error", .Error err)]⟩)) ∧
    (∀ f r, c.conn.bind Conn.Pinger = none → c.conn.bind Conn.QueryerContext = some f →
      f ctx "SELECT 1" [] w.inner = .ret (r, some err) s1 →
      c.Ping ctx w =
        .ret (some err) (w.afterTimed s1 [.ConnQueryContext ctx "SELECT 1" []]
          ⟨c.logger, .Error, "sql query failed",
            [("query", .String "SELECT 1"), ("args", .NamedValues []),
             ("duration", .Duration w.elapsed), ("error", .Error err)]⟩)) ∧
    (∀ d r, s.stmt = some d → d.Exec vals w.inner = .ret (r, some err) s1 →
      s.Exec vals w =
        .ret (r, some err) (w.afterTimed s1 [.StmtExec vals]
          ⟨s.logger, .Error, "stmt execution failed",
            [("query", .String s.query), ("args", .Values vals),
             ("duration", .Duration w.elapsed), ("error", .Error err)]⟩)) ∧
    (∀ d r, s.stmt = some d → d.Query vals w.inner = .ret (r, some err) s1 →
      s.Query vals w =
        .ret (r, some err) (w.afterTimed s1 [.StmtQuery vals]
          ⟨s.logger, .Error, "stmt query failed",
            [("query", .String s.query), ("args", .Values vals),
             ("duration", .Duration w.elapsed), ("error", .Error err)]⟩)) ∧
    (∀ f r, s.stmt.bind Stmt.StmtExecContext = some f →
      f ctx args w.inner = .ret (r, some err) s1 →
      s.ExecContext ctx args w =
        .ret (r, some err) (w.afterTimed s1 [.StmtExecContext ctx args]
          ⟨s.logger, .Error, "stmt execution failed",
            [("query", .String s.query), ("args", .NamedValues args),
             ("duration", .Duration w.elapsed), ("error", .Error err)]⟩)) ∧
    (∀ d, t.tx = some d → d.Commit w.inner = .ret (some err) s1 →
      t.Commit w =
        .ret (some err) (w.afterTimed s1 [.TxCommit]
          ⟨t.logger, .Error, "transaction commit failed",
            [("duration", .Duration w.elapsed), ("error", .Error err)]⟩)) ∧
    (∀ d, t.tx = some d → d.Rollback w.inner = .ret (some err) s1 →
      t.Rollback w =
        .ret (some err) (w.afterTimed s1 [.TxRollback]
          ⟨t.logger, .Error, "transaction rollback failed",
            [("duration", .Duration w.elapsed), ("error", .Error err)]⟩)) ∧
    (∀ d st, c.conn = some d → d.Prepare query w.inner = .ret (st, some err) s1 →
      c.Prepare query w = .ret (none, some err) (w.afterCall s1 (.ConnPrepare query))) ∧
    (∀ f st, c.conn.bind Conn.ConnPrepareContext = some f →
      f ctx query w.inner = .ret (st, some err) s1 →
      c.PrepareContext ctx query w =
        .ret (none, some err) (w.afterCall s1 (.ConnPrepareContext ctx query))) ∧
    (∀ d tx, c.conn = some d → d.Begin w.inner = .ret (tx, some err) s1 →
      c.Begin w = .ret (none, some err) (w.afterCall s1 .ConnBegin)) ∧
    (∀ f tx, c.conn.bind Conn.ConnBeginTx = some f →
      f ctx opts w.inner = .ret (tx, some err) s1 →
      c.BeginTx ctx opts w = .ret (none, some err) (w.afterCall s1 (.ConnBeginTx ctx opts))) ∧
    (∀ p, c.conn.bind Conn.Pinger = some p → p ctx w.inner = .ret (some err) s1 →
      c.Ping ctx w = .ret (some err) (w.afterCall s1 (.ConnPing ctx))) ∧
    (∀ p, c.conn.bind Conn.SessionResetter = some p → p ctx w.inner = .ret (some err) s1 →
      c.ResetSession ctx w = .ret (some err) (w.afterCall s1 (.ConnResetSession ctx))) ∧
    (∀ d, c.conn = some d → d.Close w.inner = .ret (some err) s1 →
      c.Close w = .ret (some err) (w.afterCall s1 .ConnClose)) ∧
    (∀ d, s.stmt = some d → d.Close w.inner = .ret (some err) s1 →
      s.Close w = .ret (some err) (w.afterCall s1 .StmtClose)) ∧
    (∀ drv cn, D.driver = some drv → drv.Open name w.inner = .ret (cn, some err) s1 →
      D.Open name w = .ret (none, some err) (w.afterCall s1 (.DriverOpen name))) ∧
    (∀ f k, D.driver.bind Driver.DriverContext = some f →
      f name w.inner = .ret (k, some err) s1 →
      D.OpenConnector name w =
        .ret (none, some err) (w.afterCall s1 (.DriverOpenConnector name))) ∧
    (∀ k cn, cc.connector = some k → k.Connect ctx w.inner = .ret (cn, some err) s1 →
      cc.Connect ctx w = .ret (none, some err) (w.afterCall s1 (.ConnectorConnect ctx))) ∧
    (∀ f rows, c.conn.bind Conn.Pinger = none → c.conn.bind Conn.QueryerContext = some f →
      f ctx "SELECT 1" [] w.inner = .ret (some rows, none) s1 →
      rows.Close s1 = .ret (some err) s2 →
      c.Ping ctx w =
        .ret (some err)
          { inner := s2,
            calls := w.calls ++ [.ConnQueryContext ctx "SELECT 1" [], .RowsClose],
            clock := w.clock, reads := w.reads + 2,
            log := w.log ++ [⟨c.logger, .Info, "sql queried",
              [("query", .String "SELECT 1"), ("args", .NamedValues []),
               ("duration", .Duration w.elapsed)]⟩] }) ∧
    (∀ cs r, w.emittedSince (w.afterTimed s1 cs r) = [r]) ∧
    (∀ call, w.emittedSince (w.afterCall s1 call) = []) := by
  have hne1 : some err ≠ some GoError.ErrSkip := fun h => hne (Option.some.inj h)
  refine ⟨?_, ?_, ?_, ?_, ?_, ?_, ?_, ?_, ?_, ?_, ?_, ?_, ?_, ?_, ?_, ?_, ?_, ?_, ?_, ?_,
    ?_, ?_⟩
  · intro f r hcap hret
    exact ExecContext_present c f hcap ctx query args w r _ s1 hret hne1
  · intro f r hcap hret
    exact QueryContext_present c f hcap ctx query args w r _ s1 hret hne1
  · intro f r hp hq hret
    exact Ping_probe_fail c f hp hq ctx w r err s1 hret hne
  · intro d r hd hret
    exact stmt_Exec_run s d hd vals w r _ s1 hret
  · intro d r hd hret
    exact stmt_Query_run s d hd vals w r _ s1 hret
  · intro f r hcap hret
    exact stmt_ExecContext_run s f hcap ctx args w r _ s1 hret
  · intro d hd hret
    exact tx_Commit_run t d hd w _ s1 hret
  · intro d hd hret
    exact tx_Rollback_run t d hd w _ s1 hret
  · intro d st hd hret
    exact Prepare_ret c d hd query w st _ s1 hret
  · intro f st hcap hret
    exact PrepareContext_ret c f hcap ctx query w st _ s1 hret
  · intro d tx hd hret
    exact Begin_fail c d hd w tx err s1 hret
  · intro f tx hcap hret
    exact BeginTx_fail c f hcap ctx opts w tx err s1 hret
  · intro p hcap hret
    exact Ping_ret c p hcap ctx w _ s1 hret
  · intro p hcap hret
    exact ResetSession_ret c p hcap ctx w _ s1 hret
  · intro d hd hret
    exact Close_ret c d hd w _ s1 hret
  · intro d hd hret
    exact stmt_Close_ret s d hd w _ s1 hret
  · intro drv cn hd hret
    exact Open_ret D drv hd name w cn _ s1 hret
  · intro f k hcap hret
    exact OpenConnector_ret D f hcap name w k _ s1 hret
  · intro k cn hk hret
    exact Connect_ret cc k hk ctx w cn _ s1 hret
  · intro f rows hp hq hret hclose
    exact Ping_probe_close c f hp hq ctx w rows s1 s2 _ hret hclose
  · intro cs r
    exact emittedSince_append _ _ [r] rfl
  · intro call
    exact emittedSince_same _ _ rfl

/-- Witness for C10: on the sample dead connection, `ExecContext` fails with
`driver.ErrBadConn` and emits the one error-level event; `Begin` fails with it
and emits nothing. -/
theorem C10_witness :
    (customConn.mk (some demoConnBroken) lg).ExecContext ctx0 "DELETE FROM t" [] w0 =
      .ret (none, some .ErrBadConn)
        { inner := 1, calls := [.ConnExecContext ctx0 "DELETE FROM t" []],
          clock := w0.clock, reads := 2,
          log := [⟨lg, .Error, "sql execution failed",
            [("query", .String "DELETE FROM t"), ("args", .NamedValues []),
             ("duration", .Duration 7), ("error", .Error .ErrBadConn)]⟩] } ∧
    (customConn.mk (some demoConnBroken) lg).Begin w0 =
      .ret (none, some .ErrBadConn)
        { inner := 1, calls := [.ConnBegin], clock := w0.clock, reads := 0, log := [] } :=
  ⟨(C10_error_events_only_on_timed_calls (CustomDriver.mk (some demoDriver) lg)
      (CustomConnector.mk none (CustomDriver.mk (some demoDriver) lg) lg)
      (customConn.mk (some demoConnBroken) lg) (customStmt.mk (some demoStmt) lg "SELECT 1")
      (customTx.mk (some demoTx) lg) "" ctx0 "DELETE FROM t" [] [] ⟨0, false⟩ w0
      .ErrBadConn 1 0 (by decide)).1 _ none rfl rfl,
   (C10_error_events_only_on_timed_calls (CustomDriver.mk (some demoDriver) lg)
      (CustomConnector.mk none (CustomDriver.mk (some demoDriver) lg) lg)
      (customConn.mk (some demoConnBroken) lg) (customStmt.mk (some demoStmt) lg "SELECT 1")
      (customTx.mk (some demoTx) lg) "" ctx0 "DELETE FROM t" [] [] ⟨0, false⟩ w0
      .ErrBadConn 1 0 (by decide)).2.2.2.2.2.2.2.2.2.2.1 demoConnBroken none rfl rfl⟩

/-! ## Which delegate calls `Ping` makes -/

theorem calledSince_append {σ : Type} (w w1 : World σ) (l : List Call)
    (h : w1.calls = w.calls ++ l) : w.calledSince w1 = l := by
  simp [World.calledSince, h]

theorem calledSince_same {σ : Type} (w w1 : World σ) (h : w1.calls = w.calls) :
    w.calledSince w1 = [] := by
  simp [World.calledSince, h]

/-- Without a `driver.Pinger` and with a `driver.QueryerContext`, whatever the
delegate does, `Ping` makes the probe call once, first, and at most one more
call, the `Close` of the probe's rows. -/
theorem Ping_probe_calls {σ : Type} (c : customConn σ)
    (f : Context → String → List NamedValue → Op σ (Option (Rows σ) × Option GoError))
    (hp : c.conn.bind Conn.Pinger = none) (hq : c.conn.bind Conn.QueryerContext = some f)
    (ctx : Context) (w : World σ) :
    w.calledSince (c.Ping ctx w).state = [.ConnQueryContext ctx "SELECT 1" []] ∨
    w.calledSince (c.Ping ctx w).state = [.ConnQueryContext ctx "SELECT 1" [], .RowsClose] := by
  cases hres : f ctx "SELECT 1" [] w.inner with
  | panic s1 =>
    left
    rw [Ping_probe c hp, QueryContext_panic c f hq ctx _ _ w s1 hres]
    exact calledSince_append _ _ _ rfl
  | ret a s1 =>
    obtain ⟨r, e⟩ := a
    cases e with
    | some err =>
      left
      by_cases he : err = .ErrSkip
      · subst he
        rw [Ping_probe_skip c f hp hq ctx w r s1 hres]
        exact calledSince_append _ _ _ rfl
      · rw [Ping_probe_fail c f hp hq ctx w r err s1 hres he]
        exact calledSince_append _ _ _ rfl
    | none =>
      have hne1 : (none : Option GoError) ≠ some GoError.ErrSkip := fun h => Option.noConfusion h
      rw [Ping_probe c hp, QueryContext_present c f hq ctx _ _ w r none s1 hres hne1]
      cases r with
      | none =>
        left
        exact calledSince_append _ _ _ rfl
      | some rows =>
        right
        simp only [invoke_some, World.afterTimed]
        cases rows.Close s1 <;> exact calledSince_append _ _ _ (by simp [Res.state])

/-- C11 as stated fails (counterexample): the sample base-only connection has
no `driver.Pinger`, and `Ping` sends it no probe query at all; the sample
connection whose `QueryContext` fails while handing back rows gets the probe
query, `Ping` returns the error, and those rows are never closed. -/
theorem C11_counterexample_no_probe_and_no_close_on_error :
    (demoConn.Pinger.isNone = true ∧
      w0.calledSince ((customConn.mk (some demoConn) lg).Ping ctx0 w0).state = []) ∧
    (demoConnRowsAndError.Pinger.isNone = true ∧
      ((customConn.mk (some demoConnRowsAndError) lg).Ping ctx0 w0).value? =
        some (some .ErrBadConn) ∧
      w0.calledSince ((customConn.mk (some demoConnRowsAndError) lg).Ping ctx0 w0).state =
        [.ConnQueryContext ctx0 "SELECT 1" []]) := by
  refine ⟨⟨rfl, rfl⟩, rfl, rfl, rfl⟩

/-- C11 (amended): let the delegate not implement `driver.Pinger`.  If it
implements `driver.QueryerContext`, `Ping(ctx)` sends it exactly one probe query,
`QueryContext(ctx, "SELECT 1", nil)`, whatever comes back; when the probe
returns rows and a nil error those rows are closed, once; when the probe
returns an error, `Ping` returns that error and calls nothing else.  If it
does not implement `driver.QueryerContext` either, no probe query reaches the
delegate and `Ping` returns `driver.ErrSkip`. -/
theorem C11_Ping_probe_once_close_on_success {σ : Type} (c : customConn σ)
    (hp : c.conn.bind Conn.Pinger = none) (ctx : Context) (w : World σ) (s1 s2 : σ) :
    (∀ f, c.conn.bind Conn.QueryerContext = some f →
      (w.calledSince (c.Ping ctx w).state = [.ConnQueryContext ctx "SELECT 1" []] ∨
       w.calledSince (c.Ping ctx w).state =
        [.ConnQueryContext ctx "SELECT 1" [], .RowsClose])) ∧
    (∀ f rows e, c.conn.bind Conn.QueryerContext = some f →
      f ctx "SELECT 1" [] w.inner = .ret (some rows, none) s1 → rows.Close s1 = .ret e s2 →
      w.calledSince (c.Ping ctx w).state =
        [.ConnQueryContext ctx "SELECT 1" [], .RowsClose]) ∧
    (∀ f r err, c.conn.bind Conn.QueryerContext = some f →
      f ctx "SELECT 1" [] w.inner = .ret (r, some err) s1 →
      (c.Ping ctx w).value? = some (some err) ∧
      w.calledSince (c.Ping ctx w).state = [.ConnQueryContext ctx "SELECT 1" []]) ∧
    (c.conn.bind Conn.QueryerContext = none →
      c.Ping ctx w =
        .ret (some .ErrSkip)
          { inner := w.inner, calls := w.calls, clock := w.clock, reads := w.reads + 1,
            log := w.log ++ [⟨c.logger, .Warn,
              "original driver does not support QueryerContext", []⟩] }) := by
  refine ⟨?_, ?_, ?_, ?_⟩
  · intro f hq
    exact Ping_probe_calls c f hp hq ctx w
  · intro f rows e hq hret hclose
    rw [Ping_probe_close c f hp hq ctx w rows s1 s2 e hret hclose]
    exact calledSince_append _ _ _ rfl
  · intro f r err hq hret
    refine ⟨Ping_probe_error c f hp hq ctx w r err s1 hret, ?_⟩
    by_cases he : err = .ErrSkip
    · subst he
      rw [Ping_probe_skip c f hp hq ctx w r s1 hret]
      exact calledSince_append _ _ _ rfl
    · rw [Ping_probe_fail c f hp hq ctx w r err s1 hret he]
      exact calledSince_append _ _ _ rfl
  · intro hq
    exact Ping_base c hp hq ctx w

/-- Witness for C11: the sample connection with `driver.QueryerContext` and
without `driver.Pinger`; the probe succeeds and its rows are closed. -/
theorem C11_witness :
    w0.calledSince ((customConn.mk (some demoConnCtx) lg).Ping ctxCancelled w0).state =
      [.ConnQueryContext ctxCancelled "SELECT 1" [], .RowsClose] :=
  (C11_Ping_probe_once_close_on_success (customConn.mk (some demoConnCtx) lg) rfl
    ctxCancelled w0 1 2).2.1 _ demoRows none rfl rfl rfl

/-- C12: on a delegate that implements `driver.QueryerContext` and not
`driver.Pinger`, `Ping(ctx)` calls the delegate's `QueryContext` exactly once,
first, with the same `ctx`, the text `"SELECT 1"` and no arguments, whatever
that call does; if it returns rows and a nil error, `Close` is called once on
those rows and `Ping` returns exactly what `Close` returned.  On a delegate that
implements `driver.Pinger`, `Ping(ctx)` returns exactly what the delegate's
`Ping(ctx)` returns, and that is the only delegate call. -/
theorem C12_Ping_probe_then_close_or_delegate_Ping {σ : Type} (c : customConn σ)
    (ctx : Context) (w : World σ) (s1 s2 : σ) :
    (∀ f, c.conn.bind Conn.Pinger = none → c.conn.bind Conn.QueryerContext = some f →
      (w.calledSince (c.Ping ctx w).state = [.ConnQueryContext ctx "SELECT 1" []] ∨
       w.calledSince (c.Ping ctx w).state =
        [.ConnQueryContext ctx "SELECT 1" [], .RowsClose])) ∧
    (∀ f rows e, c.conn.bind Conn.Pinger = none → c.conn.bind Conn.QueryerContext = some f →
      f ctx "SELECT 1" [] w.inner = .ret (some rows, none) s1 → rows.Close s1 = .ret e s2 →
      c.Ping ctx w =
        .ret e
          { inner := s2,
            calls := w.calls ++ [.ConnQueryContext ctx "SELECT 1" [], .RowsClose],
            clock := w.clock, reads := w.reads + 2,
            log := w.log ++ [⟨c.logger, .Info, "sql queried",
              [("query", .String "SELECT 1"), ("args", .NamedValues []),
               ("duration", .Duration (w.clock (w.reads + 1) - w.clock w.reads))]⟩] }) ∧
    (∀ p e, c.conn.bind Conn.Pinger = some p → p ctx w.inner = .ret e s1 →
      c.Ping ctx w =
        .ret e
          { inner := s1, calls := w.calls ++ [.ConnPing ctx], clock := w.clock,
            reads := w.reads, log := w.log }) := by
  refine ⟨?_, ?_, ?_⟩
  · intro f hp hq
    exact Ping_probe_calls c f hp hq ctx w
  · intro f rows e hp hq hret hclose
    exact Ping_probe_close c f hp hq ctx w rows s1 s2 e hret hclose
  · intro p e hcap hret
    exact Ping_ret c p hcap ctx w e s1 hret

/-- Witness for C12: the probe path on the sample connection with
`driver.QueryerContext`, and the direct path on the sample dead connection,
whose `Ping` fails with `driver.ErrBadConn`. -/
theorem C12_witness :
    (customConn.mk (some demoConnCtx) lg).Ping ctx0 w0 =
      .ret none
        { inner := 2, calls := [.ConnQueryContext ctx0 "SELECT 1" [], .RowsClose],
          clock := w0.clock, reads := 2,
          log := [⟨lg, .Info, "sql queried",
            [("query", .String "SELECT 1"), ("args", .NamedValues []),
             ("duration", .Duration 7)]⟩] } ∧
    (customConn.mk (some demoConnBroken) lg).Ping ctx0 w0 =
      .ret (some .ErrBadConn)
        { inner := 1, calls := [.ConnPing ctx0], clock := w0.clock, reads := 0, log := [] } :=
  ⟨(C12_Ping_probe_then_close_or_delegate_Ping (customConn.mk (some demoConnCtx) lg) ctx0 w0
      1 2).2.1 _ demoRows none rfl rfl rfl rfl,
   (C12_Ping_probe_then_close_or_delegate_Ping (customConn.mk (some demoConnBroken) lg) ctx0 w0
      1 0).2.2 _ _ rfl rfl⟩

/-- C13: on a delegate without `driver.ConnBeginTx` whose `Begin` returns a
nil error, `BeginTx(ctx, opts)`, for any `opts`, makes the single delegate call
`Begin()`, returns a transaction wrapper around the delegate's transaction with
a nil error, and emits exactly one event, `"transaction started"`, with no
field at all (so neither `isolation` nor `read_only`). -/
theorem C13_BeginTx_without_capability_uses_Begin {σ : Type} (c : customConn σ)
    (d : Conn σ) (hd : c.conn = some d) (hcap : d.ConnBeginTx = none) (ctx : Context)
    (opts : TxOptions) (w : World σ) (tx : Option (Tx σ)) (s1 : σ)
    (hret : d.Begin w.inner = .ret (tx, none) s1) :
    c.BeginTx ctx opts w =
      .ret (some { tx := tx, logger := c.logger }, none)
        { inner := s1, calls := w.calls ++ [.ConnBegin], clock := w.clock, reads := w.reads,
          log := w.log ++ [⟨c.logger, .Info, "transaction started", []⟩] } := by
  have hcap1 : c.conn.bind Conn.ConnBeginTx = none := by rw [hd]; exact hcap
  rw [BeginTx_absent c hcap1]
  exact Begin_ok c d hd w tx s1 hret

/-- Witness for C13: the sample base-only connection, isolation level 6
(serializable), read-only. -/
theorem C13_witness :
    (customConn.mk (some demoConn) lg).BeginTx ctx0 ⟨6, true⟩ w0 =
      .ret (some { tx := some demoTx, logger := lg }, none)
        { inner := 1, calls := [.ConnBegin], clock := w0.clock, reads := 0,
          log := [⟨lg, .Info, "transaction started", []⟩] } :=
  C13_BeginTx_without_capability_uses_Begin (customConn.mk (some demoConn) lg) demoConn rfl rfl
    ctx0 ⟨6, true⟩ w0 (some demoTx) 1 rfl

theorem BeginTx_calls {σ : Type} (c : customConn σ)
    (f : Context → TxOptions → Op σ (Option (Tx σ) × Option GoError))
    (hcap : c.conn.bind Conn.ConnBeginTx = some f) (ctx : Context) (opts : TxOptions)
    (w : World σ) :
    w.calledSince (c.BeginTx ctx opts w).state = [.ConnBeginTx ctx opts] := by
  cases hres : f ctx opts w.inner with
  | panic s1 =>
    refine calledSince_append _ _ _ ?_
    simp [customConn.BeginTx, hcap, Op.run_bind, invoke_some, hres, Res.state]
  | ret a s1 =>
    obtain ⟨tx, e⟩ := a
    cases e with
    | some err =>
      rw [BeginTx_fail c f hcap ctx opts w tx err s1 hres]
      exact calledSince_append _ _ _ rfl
    | none =>
      rw [BeginTx_ok c f hcap ctx opts w tx s1 hres]
      exact calledSince_append _ _ _ rfl

/-- C14: on a delegate that implements `driver.ConnBeginTx`,
`BeginTx(ctx, opts)` makes exactly one delegate call, `BeginTx(ctx, opts)`
(never `Begin`), whatever it does.  When it returns a nil error the wrapper
returns a transaction wrapper around the delegate's transaction and emits
exactly one event, `"transaction started"`, with `isolation = opts.Isolation`
and `read_only = opts.ReadOnly`; when it returns an error the wrapper returns
`(nil, that error)` and emits nothing. -/
theorem C14_BeginTx_with_capability_delegates {σ : Type} (c : customConn σ)
    (f : Context → TxOptions → Op σ (Option (Tx σ) × Option GoError))
    (hcap : c.conn.bind Conn.ConnBeginTx = some f) (ctx : Context) (opts : TxOptions)
    (w : World σ) (s1 : σ) :
    w.calledSince (c.BeginTx ctx opts w).state = [.ConnBeginTx ctx opts] ∧
    (∀ tx, f ctx opts w.inner = .ret (tx, none) s1 →
      c.BeginTx ctx opts w =
        .ret (some { tx := tx, logger := c.logger }, none)
          { inner := s1, calls := w.calls ++ [.ConnBeginTx ctx opts], clock := w.clock,
            reads := w.reads,
            log := w.log ++ [⟨c.logger, .Info, "transaction started",
              [("isolation", .Isolation opts.Isolation),
               ("read_only", .Bool opts.ReadOnly)]⟩] }) ∧
    (∀ tx err, f ctx opts w.inner = .ret (tx, some err) s1 →
      c.BeginTx ctx opts w =
        .ret (none, some err)
          { inner := s1, calls := w.calls ++ [.ConnBeginTx ctx opts], clock := w.clock,
            reads := w.reads, log := w.log }) := by
  refine ⟨BeginTx_calls c f hcap ctx opts w, ?_, ?_⟩
  · intro tx hret
    exact BeginTx_ok c f hcap ctx opts w tx s1 hret
  · intro tx err hret
    exact BeginTx_fail c f hcap ctx opts w tx err s1 hret

/-- Witness for C14: success on the sample connection implementing every
optional interface, failure on the sample dead connection. -/
theorem C14_witness :
    (customConn.mk (some demoConnFull) lg).BeginTx ctx0 ⟨6, true⟩ w0 =
      .ret (some { tx := some demoTx, logger := lg }, none)
        { inner := 1, calls := [.ConnBeginTx ctx0 ⟨6, true⟩], clock := w0.clock, reads := 0,
          log := [⟨lg, .Info, "transaction started",
            [("isolation", .Isolation 6), ("read_only", .Bool true)]⟩] } ∧
    (customConn.mk (some demoConnBroken) lg).BeginTx ctx0 ⟨0, false⟩ w0 =
      .ret (none, some .ErrBadConn)
        { inner := 1, calls := [.ConnBeginTx ctx0 ⟨0, false⟩], clock := w0.clock, reads := 0,
          log := [] } :=
  ⟨(C14_BeginTx_with_capability_delegates (customConn.mk (some demoConnFull) lg) _ rfl ctx0
      ⟨6, true⟩ w0 1).2.1 (some demoTx) rfl,
   (C14_BeginTx_with_capability_delegates (customConn.mk (some demoConnBroken) lg) _ rfl ctx0
      ⟨0, false⟩ w0 1).2.2 none .ErrBadConn rfl⟩

/-- C15: on a statement delegate that implements `driver.StmtExecContext`,
`ExecContext(ctx, args)` makes exactly one delegate call,
`ExecContext(ctx, args)` (never the plain `Exec`), returns the pair the
delegate returned, and emits exactly one event, which carries the statement's
bound query text and `args`, and is info-level when the error is nil and
error-level otherwise. -/
theorem C15_stmt_ExecContext_with_capability_delegates {σ : Type} (s : customStmt σ)
    (f : Context → List NamedValue → Op σ (Option Result × Option GoError))
    (hcap : s.stmt.bind Stmt.StmtExecContext = some f) (ctx : Context)
    (args : List NamedValue) (w : World σ) (r : Option Result) (e : Option GoError) (s1 : σ)
    (hret : f ctx args w.inner = .ret (r, e) s1) :
    s.ExecContext ctx args w =
      .ret (r, e)
        { inner := s1, calls := w.calls ++ [.StmtExecContext ctx args], clock := w.clock,
          reads := w.reads + 2,
          log := w.log ++ [outcomeEvent s.logger "stmt executed" "stmt execution failed"
            s.query (.NamedValues args) (w.clock (w.reads + 1) - w.clock w.reads) e] } ∧
    (outcomeEvent s.logger "stmt executed" "stmt execution failed" s.query
        (.NamedValues args) (w.clock (w.reads + 1) - w.clock w.reads) e).level =
      (if e = none then slog.Level.Info else slog.Level.Error) ∧
    (outcomeEvent s.logger "stmt executed" "stmt execution failed" s.query
        (.NamedValues args) (w.clock (w.reads + 1) - w.clock w.reads) e).attrs.take 2 =
      [("query", .String s.query), ("args", .NamedValues args)] := by
  refine ⟨stmt_ExecContext_run s f hcap ctx args w r e s1 hret, ?_, ?_⟩
  · cases e <;> rfl
  · cases e <;> rfl

/-- Witness for C15: the sample context-aware statement; a live context gives
the info event, a cancelled one the error event. -/
theorem C15_witness :
    (customStmt.mk (some demoStmtCtx) lg "UPDATE t SET x = ?").ExecContext ctx0
        [⟨"", 1, .int 4⟩] w0 =
      .ret (some ⟨7, 1⟩, none)
        { inner := 1, calls := [.StmtExecContext ctx0 [⟨"", 1, .int 4⟩]], clock := w0.clock,
          reads := 2,
          log := [⟨lg, .Info, "stmt executed",
            [("query", .String "UPDATE t SET x = ?"), ("args", .NamedValues [⟨"", 1, .int 4⟩]),
             ("duration", .Duration 7)]⟩] } ∧
    (customStmt.mk (some demoStmtCtx) lg "UPDATE t SET x = ?").ExecContext ctxCancelled
        [] w0 =
      .ret (none, some (.other "context canceled"))
        { inner := 0, calls := [.StmtExecContext ctxCancelled []], clock := w0.clock,
          reads := 2,
          log := [⟨lg, .Error, "stmt execution failed",
            [("query", .String "UPDATE t SET x = ?"), ("args", .NamedValues []),
             ("duration", .Duration 7), ("error", .Error (.other "context canceled"))]⟩] } :=
  ⟨(C15_stmt_ExecContext_with_capability_delegates
      (customStmt.mk (some demoStmtCtx) lg "UPDATE t SET x = ?") _ rfl ctx0
      [⟨"", 1, .int 4⟩] w0 (some ⟨7, 1⟩) none 1 rfl).1,
   (C15_stmt_ExecContext_with_capability_delegates
      (customStmt.mk (some demoStmtCtx) lg "UPDATE t SET x = ?") _ rfl ctxCancelled
      [] w0 none (some (.other "context canceled")) 0 rfl).1⟩

/-- C16: on a statement delegate without `driver.StmtExecContext`,
`ExecContext(ctx, args)` is `Exec(v)` of the same wrapper, where `v` has the
length of `args` and `v[i] = args[i].Value` for every `i`.  So it makes the
single delegate call `Exec(v)` and emits the single event of `Exec`. -/
theorem C16_stmt_ExecContext_without_capability_is_Exec {σ : Type} (s : customStmt σ)
    (hcap : s.stmt.bind Stmt.StmtExecContext = none) (ctx : Context)
    (args : List NamedValue) :
    s.ExecContext ctx args = s.Exec (args.map (fun a => a.Value)) ∧
    (args.map (fun a => a.Value)).length = args.length ∧
    (∀ i : Nat, (args.map (fun a => a.Value))[i]? =
      (args[i]?).map (fun a : NamedValue => a.Value)) ∧
    (∀ d w r e s1, s.stmt = some d →
      d.Exec (args.map (fun a => a.Value)) w.inner = .ret (r, e) s1 →
      s.ExecContext ctx args w =
        .ret (r, e)
          { inner := s1, calls := w.calls ++ [.StmtExec (args.map (fun a => a.Value))],
            clock := w.clock, reads := w.reads + 2,
            log := w.log ++ [outcomeEvent s.logger "stmt executed" "stmt execution failed"
              s.query (.Values (args.map (fun a => a.Value)))
              (w.clock (w.reads + 1) - w.clock w.reads) e] }) := by
  refine ⟨stmt_ExecContext_fallback s hcap ctx args, List.length_map _ _, ?_, ?_⟩
  · intro i
    exact List.getElem?_map _ _ _
  · intro d w r e s1 hd hret
    rw [stmt_ExecContext_fallback s hcap ctx args]
    exact stmt_Exec_run s d hd _ w r e s1 hret

/-- Witness for C16: the sample base-only statement with two named
arguments. -/
theorem C16_witness :
    (customStmt.mk (some demoStmt) lg "INSERT INTO t(id, name) VALUES (?, ?)").ExecContext
        ctxCancelled [⟨"id", 1, .int 4⟩, ⟨"name", 2, .str "Alice"⟩] w0 =
      .ret (some ⟨7, 2⟩, none)
        { inner := 1, calls := [.StmtExec [.int 4, .str "Alice"]], clock := w0.clock,
          reads := 2,
          log := [⟨lg, .Info, "stmt executed",
            [("query", .String "INSERT INTO t(id, name) VALUES (?, ?)"),
             ("args", .Values [.int 4, .str "Alice"]), ("duration", .Duration 7)]⟩] } :=
  (C16_stmt_ExecContext_without_capability_is_Exec
    (customStmt.mk (some demoStmt) lg "INSERT INTO t(id, name) VALUES (?, ?)") rfl
    ctxCancelled [⟨"id", 1, .int 4⟩, ⟨"name", 2, .str "Alice"⟩]).2.2.2
    demoStmt w0 (some ⟨7, 2⟩) none 1 rfl rfl

/-! ## Statement wrappers made by `Prepare` and `PrepareContext` -/

theorem Prepare_wrapper {σ : Type} (c : customConn σ) (query : String) (w w1 : World σ)
    (s : customStmt σ) (e : Option GoError) (h : c.Prepare query w = .ret (some s, e) w1) :
    s.query = query ∧ s.logger = c.logger := by
  cases hd : c.conn with
  | none => rw [Prepare_nil c hd] at h; cases h
  | some d =>
    rw [Prepare_run c d hd] at h
    cases hres : d.Prepare query w.inner with
    | panic s1 => rw [hres] at h; cases h
    | ret a s1 =>
      obtain ⟨st, e1⟩ := a
      rw [hres] at h
      cases e1 with
      | some err => cases h
      | none =>
        cases h
        exact ⟨rfl, rfl⟩

theorem PrepareContext_wrapper {σ : Type} (c : customConn σ) (ctx : Context)
    (query : String) (w w1 : World σ) (s : customStmt σ) (e : Option GoError)
    (h : c.PrepareContext ctx query w = .ret (some s, e) w1) :
    s.query = query ∧ s.logger = c.logger := by
  cases hcap : c.conn.bind Conn.ConnPrepareContext with
  | none =>
    rw [PrepareContext_absent c hcap] at h
    exact Prepare_wrapper c query w w1 s e h
  | some f =>
    cases hres : f ctx query w.inner with
    | panic s1 =>
      simp [customConn.PrepareContext, hcap, Op.run_bind, invoke_some, hres] at h
    | ret a s1 =>
      obtain ⟨st, e1⟩ := a
      rw [PrepareContext_ret c f hcap ctx query w st e1 s1 hres] at h
      cases e1 with
      | some err => cases h
      | none =>
        cases h
        exact ⟨rfl, rfl⟩

/-- C17: let `s` be the statement wrapper that `Prepare(q)` or
`PrepareContext(ctx, q)` of a connection wrapper returned.  Then `s` is bound
to `q`, and in any later world `Exec(args)` (resp. `Query(args)`) makes the
single delegate call `Exec(args)` (resp. `Query(args)`), returns the pair the
delegate returned, and emits exactly one event whose `query` field is `q` and
whose `args` field is `args`: info-level when the error is nil, error-level
with the error attached otherwise. -/
theorem C17_prepared_stmt_Exec_Query_log_bound_query {σ : Type} (c : customConn σ)
    (ctx : Context) (q : String) (wp wq : World σ) (s : customStmt σ) (e0 : Option GoError)
    (hprep : c.Prepare q wp = .ret (some s, e0) wq ∨
      c.PrepareContext ctx q wp = .ret (some s, e0) wq)
    (d : Stmt σ) (hd : s.stmt = some d) (args : List Value) (w : World σ) (s1 : σ) :
    s.query = q ∧
    (∀ r e, d.Exec args w.inner = .ret (r, e) s1 →
      s.Exec args w =
        .ret (r, e)
          { inner := s1, calls := w.calls ++ [.StmtExec args], clock := w.clock,
            reads := w.reads + 2,
            log := w.log ++ [outcomeEvent c.logger "stmt executed" "stmt execution failed" q
              (.Values args) (w.clock (w.reads + 1) - w.clock w.reads) e] }) ∧
    (∀ r e, d.Query args w.inner = .ret (r, e) s1 →
      s.Query args w =
        .ret (r, e)
          { inner := s1, calls := w.calls ++ [.StmtQuery args], clock := w.clock,
            reads := w.reads + 2,
            log := w.log ++ [outcomeEvent c.logger "stmt queried" "stmt query failed" q
              (.Values args) (w.clock (w.reads + 1) - w.clock w.reads) e] }) ∧
    (∀ okMsg failMsg n,
      outcomeEvent c.logger okMsg failMsg q (.Values args) n none =
        ⟨c.logger, .Info, okMsg,
          [("query", .String q), ("args", .Values args), ("duration", .Duration n)]⟩ ∧
      ∀ err, outcomeEvent c.logger okMsg failMsg q (.Values args) n (some err) =
        ⟨c.logger, .Error, failMsg,
          [("query", .String q), ("args", .Values args), ("duration", .Duration n),
           ("error", .Error err)]⟩) := by
  have hw : s.query = q ∧ s.logger = c.logger := by
    cases hprep with
    | inl h => exact Prepare_wrapper c q wp wq s e0 h
    | inr h => exact PrepareContext_wrapper c ctx q wp wq s e0 h
  obtain ⟨hq, hl⟩ := hw
  refine ⟨hq, ?_, ?_, ?_⟩
  · intro r e hret
    rw [← hq, ← hl]
    exact stmt_Exec_run s d hd args w r e s1 hret
  · intro r e hret
    rw [← hq, ← hl]
    exact stmt_Query_run s d hd args w r e s1 hret
  · intro okMsg failMsg n
    exact ⟨rfl, fun _ => rfl⟩

/-- Witness for C17: a statement prepared on the sample base-only connection,
then executed in the world the preparation left behind. -/
theorem C17_witness :
    (customStmt.mk (some demoStmt) lg "DELETE FROM t WHERE id = ?").Exec [.int 3]
        { inner := 1, calls := [.ConnPrepare "DELETE FROM t WHERE id = ?"], log := [],
          clock := w0.clock, reads := 0 } =
      .ret (some ⟨7, 1⟩, none)
        { inner := 2,
          calls := [.ConnPrepare "DELETE FROM t WHERE id = ?", .StmtExec [.int 3]],
          clock := w0.clock, reads := 2,
          log := [⟨lg, .Info, "stmt executed",
            [("query", .String "DELETE FROM t WHERE id = ?"), ("args", .Values [.int 3]),
             ("duration", .Duration 7)]⟩] } :=
  (C17_prepared_stmt_Exec_Query_log_bound_query (customConn.mk (some demoConn) lg) ctx0
    "DELETE FROM t WHERE id = ?" w0
    { inner := 1, calls := [.ConnPrepare "DELETE FROM t WHERE id = ?"], log := [],
      clock := w0.clock, reads := 0 }
    (customStmt.mk (some demoStmt) lg "DELETE FROM t WHERE id = ?") none (Or.inl rfl)
    demoStmt rfl [.int 3]
    { inner := 1, calls := [.ConnPrepare "DELETE FROM t WHERE id = ?"], log := [],
      clock := w0.clock, reads := 0 } 2).2.1 (some ⟨7, 1⟩) none rfl

/-- C18: `Commit` (resp. `Rollback`) of a transaction wrapper makes the single
delegate call `Commit` (resp. `Rollback`), returns the error it returned, nil
included, and emits exactly one event: info-level when that error is nil,
error-level with the error attached otherwise. -/
theorem C18_tx_Commit_Rollback_delegate_and_log {σ : Type} (t : customTx σ) (d : Tx σ)
    (hd : t.tx = some d) (w : World σ) (e : Option GoError) (s1 : σ) :
    (d.Commit w.inner = .ret e s1 →
      t.Commit w =
        .ret e
          { inner := s1, calls := w.calls ++ [.TxCommit], clock := w.clock,
            reads := w.reads + 2,
            log := w.log ++ [txEvent t.logger "transaction committed"
              "transaction commit failed" (w.clock (w.reads + 1) - w.clock w.reads) e] }) ∧
    (d.Rollback w.inner = .ret e s1 →
      t.Rollback w =
        .ret e
          { inner := s1, calls := w.calls ++ [.TxRollback], clock := w.clock,
            reads := w.reads + 2,
            log := w.log ++ [txEvent t.logger "transaction rolled back"
              "transaction rollback failed" (w.clock (w.reads + 1) - w.clock w.reads) e] }) ∧
    (∀ okMsg failMsg n,
      txEvent t.logger okMsg failMsg n none =
        ⟨t.logger, .Info, okMsg, [("duration", .Duration n)]⟩ ∧
      ∀ err, txEvent t.logger okMsg failMsg n (some err) =
        ⟨t.logger, .Error, failMsg, [("duration", .Duration n), ("error", .Error err)]⟩) := by
  refine ⟨?_, ?_, ?_⟩
  · intro hret
    exact tx_Commit_run t d hd w e s1 hret
  · intro hret
    exact tx_Rollback_run t d hd w e s1 hret
  · intro okMsg failMsg n
    exact ⟨rfl, fun _ => rfl⟩

/-- Witness for C18: a successful `Commit` on the sample transaction and a
failing `Rollback` on the sample dead one. -/
theorem C18_witness :
    (customTx.mk (some demoTx) lg).Commit w0 =
      .ret none
        { inner := 1, calls := [.TxCommit], clock := w0.clock, reads := 2,
          log := [⟨lg, .Info, "transaction committed", [("duration", .Duration 7)]⟩] } ∧
    (customTx.mk (some demoTxBroken) lg).Rollback w0 =
      .ret (some .ErrBadConn)
        { inner := 1, calls := [.TxRollback], clock := w0.clock, reads := 2,
          log := [⟨lg, .Error, "transaction rollback failed",
            [("duration", .Duration 7), ("error", .Error .ErrBadConn)]⟩] } :=
  ⟨(C18_tx_Commit_Rollback_delegate_and_log (customTx.mk (some demoTx) lg) demoTx rfl w0
      none 1).1 rfl,
   (C18_tx_Commit_Rollback_delegate_and_log (customTx.mk (some demoTxBroken) lg) demoTxBroken
      rfl w0 (some .ErrBadConn) 1).2.1 rfl⟩

/-! ## Repeated calls -/

/-- A call that always returns and always makes the one delegate call `call`
makes it `k` times when run `k` times in a row. -/
theorem times_calls {σ α : Type} (m : Op (World σ) α) (call : Call)
    (h : ∀ w, ∃ a w1, m w = .ret a w1 ∧ w1.calls = w.calls ++ [call]) (k : Nat)
    (w : World σ) :
    ∃ rs w1, Op.times m k w = .ret rs w1 ∧ rs.length = k ∧
      w1.calls = w.calls ++ List.replicate k call := by
  induction k generalizing w with
  | zero => exact ⟨[], w, rfl, rfl, by simp⟩
  | succ n ih =>
    obtain ⟨a, w1, h1, hc1⟩ := h w
    obtain ⟨rs, w2, h2, hl, hc2⟩ := ih w1
    refine ⟨a :: rs, w2, ?_, by simp [hl], ?_⟩
    · simp only [Op.times, Op.bind, h1, h2, Op.pure]
    · rw [hc2, hc1, List.append_assoc, List.replicate_succ, List.singleton_append]

/-- C19: on a driver delegate without `driver.DriverContext`,
`OpenConnector(name)` returns the bridging connector for `name` with a nil
error and touches nothing: no delegate call, no event.  `Connect(ctx)` on that
connector is `Open(name)` of the driver wrapper, for every `ctx`; so when the
delegate's `Open` returns, `k` calls of `Connect` in a row all return and make
exactly `k` delegate calls, each `Open(name)`. -/
theorem C19_OpenConnector_without_capability_bridges_to_Open {σ : Type}
    (D : CustomDriver σ) (hcap : D.driver.bind Driver.DriverContext = none)
    (name : String) (ctx : Context) (w : World σ) (k : Nat) :
    D.OpenConnector name w = .ret (some (.dsn { dsn := name, driver := D }), none) w ∧
    (dsnConnector.mk name D).Connect ctx = D.Open name ∧
    (∀ drv cn e s1, D.driver = some drv → drv.Open name w.inner = .ret (cn, e) s1 →
      (dsnConnector.mk name D).Connect ctx w =
        .ret (wrapOrError { conn := cn, logger := D.logger } e)
          { inner := s1, calls := w.calls ++ [.DriverOpen name], clock := w.clock,
            reads := w.reads, log := w.log }) ∧
    (∀ drv, D.driver = some drv → (∀ s, ∃ a s1, drv.Open name s = .ret a s1) →
      ∃ rs w1, Op.times ((dsnConnector.mk name D).Connect ctx) k w = .ret rs w1 ∧
        rs.length = k ∧ w.calledSince w1 = List.replicate k (.DriverOpen name)) := by
  refine ⟨?_, rfl, ?_, ?_⟩
  · simp only [CustomDriver.OpenConnector, hcap]
    rfl
  · intro drv cn e s1 hd hret
    exact Open_ret D drv hd name w cn e s1 hret
  · intro drv hd htotal
    have hstep : ∀ w2 : World σ, ∃ a w1, (dsnConnector.mk name D).Connect ctx w2 = .ret a w1 ∧
        w1.calls = w2.calls ++ [.DriverOpen name] := by
      intro w2
      obtain ⟨a, s1, ha⟩ := htotal w2.inner
      obtain ⟨cn, e⟩ := a
      exact ⟨_, _, Open_ret D drv hd name w2 cn e s1 ha, rfl⟩
    obtain ⟨rs, w1, h1, hl, hc⟩ := times_calls _ _ hstep k w
    exact ⟨rs, w1, h1, hl, calledSince_append _ _ _ hc⟩

/-- Witness for C19: the sample driver without `driver.DriverContext`; the
bridging connector is returned in an untouched world, `Connect` with a
cancelled context opens the delegate connection, and three calls of `Connect`
make three delegate calls `Open("db")`. -/
theorem C19_witness :
    (CustomDriver.mk (some demoDriver) lg).OpenConnector "db" w0 =
      .ret (some (.dsn { dsn := "db", driver := CustomDriver.mk (some demoDriver) lg }), none)
        w0 ∧
    (dsnConnector.mk "db" (CustomDriver.mk (some demoDriver) lg)).Connect ctxCancelled w0 =
      .ret (some { conn := some demoConn, logger := lg }, none)
        { inner := 1, calls := [.DriverOpen "db"], clock := w0.clock, reads := 0, log := [] } ∧
    (∃ rs w1,
      Op.times ((dsnConnector.mk "db" (CustomDriver.mk (some demoDriver) lg)).Connect
        ctxCancelled) 3 w0 = .ret rs w1 ∧
      rs.length = 3 ∧
      w0.calledSince w1 = [.DriverOpen "db", .DriverOpen "db", .DriverOpen "db"]) :=
  ⟨(C19_OpenConnector_without_capability_bridges_to_Open (CustomDriver.mk (some demoDriver) lg)
      rfl "db" ctxCancelled w0 3).1,
   (C19_OpenConnector_without_capability_bridges_to_Open (CustomDriver.mk (some demoDriver) lg)
      rfl "db" ctxCancelled w0 3).2.2.1 demoDriver (some demoConn) none 1 rfl rfl,
   (C19_OpenConnector_without_capability_bridges_to_Open (CustomDriver.mk (some demoDriver) lg)
      rfl "db" ctxCancelled w0 3).2.2.2 demoDriver rfl (fun _ => ⟨_, _, rfl⟩)⟩

theorem OpenConnector_calls {σ : Type} (D : CustomDriver σ)
    (f : String → Op σ (Option (Connector σ) × Option GoError))
    (hcap : D.driver.bind Driver.DriverContext = some f) (name : String) (w : World σ) :
    w.calledSince (D.OpenConnector name w).state = [.DriverOpenConnector name] := by
  cases hres : f name w.inner with
  | panic s1 =>
    refine calledSince_append _ _ _ ?_
    simp [CustomDriver.OpenConnector, hcap, Op.run_bind, invoke_some, hres, Res.state]
  | ret a s1 =>
    obtain ⟨k, e⟩ := a
    rw [OpenConnector_ret D f hcap name w k e s1 hres]
    exact calledSince_append _ _ _ rfl

/-- C20: on a driver delegate that implements `driver.DriverContext`,
`OpenConnector(name)` makes exactly one delegate call, `OpenConnector(name)`
(never `Open`), whatever it does.  When it returns a nil error the wrapper
returns a `CustomConnector` around the delegate's connector, holding this driver
wrapper and its logger, with a nil error; when it returns an error the wrapper
returns `(nil, that error)`.  No event is emitted either way. -/
theorem C20_OpenConnector_with_capability_delegates {σ : Type} (D : CustomDriver σ)
    (f : String → Op σ (Option (Connector σ) × Option GoError))
    (hcap : D.driver.bind Driver.DriverContext = some f) (name : String) (w : World σ)
    (s1 : σ) :
    w.calledSince (D.OpenConnector name w).state = [.DriverOpenConnector name] ∧
    (∀ k, f name w.inner = .ret (k, none) s1 →
      D.OpenConnector name w =
        .ret (some (.custom { connector := k, driver := D, logger := D.logger }), none)
          { inner := s1, calls := w.calls ++ [.DriverOpenConnector name], clock := w.clock,
            reads := w.reads, log := w.log }) ∧
    (∀ k err, f name w.inner = .ret (k, some err) s1 →
      D.OpenConnector name w =
        .ret (none, some err)
          { inner := s1, calls := w.calls ++ [.DriverOpenConnector name], clock := w.clock,
            reads := w.reads, log := w.log }) := by
  refine ⟨OpenConnector_calls D f hcap name w, ?_, ?_⟩
  · intro k hret
    exact OpenConnector_ret D f hcap name w k none s1 hret
  · intro k err hret
    exact OpenConnector_ret D f hcap name w k (some err) s1 hret

/-- Witness for C20: the sample driver with `driver.DriverContext`, on a good
name and on the empty name. -/
theorem C20_witness :
    (CustomDriver.mk (some demoDriverCtx) lg).OpenConnector "db" w0 =
      .ret (some (.custom { connector := some demoConnector,
                            driver := CustomDriver.mk (some demoDriverCtx) lg,
                            logger := lg }), none)
        { inner := 1, calls := [.DriverOpenConnector "db"], clock := w0.clock, reads := 0,
          log := [] } ∧
    (CustomDriver.mk (some demoDriverCtx) lg).OpenConnector "" w0 =
      .ret (none, some (.other "invalid DSN"))
        { inner := 0, calls := [.DriverOpenConnector ""], clock := w0.clock, reads := 0,
          log := [] } :=
  ⟨(C20_OpenConnector_with_capability_delegates (CustomDriver.mk (some demoDriverCtx) lg) _
      rfl "db" w0 1).2.1 (some demoConnector) rfl,
   (C20_OpenConnector_with_capability_delegates (CustomDriver.mk (some demoDriverCtx) lg) _
      rfl "" w0 0).2.2 none (.other "invalid DSN") rfl⟩

/-- C21: `Driver()` hands out the driver wrapper, never the raw delegate.  On
the connector that `OpenConnector` of a driver wrapper `D` returned, whichever
branch built it, `Driver()` is `D` itself.  `NewCustomConnector(k, logger)`
builds, without touching the world, a connector whose `Driver()` is the driver
wrapper around `k.Driver()` with that `logger`.  `Driver()` only reads a field
of the connector, so calling it again gives the same wrapper. -/
theorem C21_Driver_returns_the_driver_wrapper {σ : Type} (D : CustomDriver σ)
    (name : String) (w : World σ) (k : Connector σ) (logger : slog.Logger) :
    (∀ x e w1, D.OpenConnector name w = .ret (some x, e) w1 → x.Driver = D) ∧
    NewCustomConnector (some k) logger w =
      .ret { connector := some k, driver := { driver := k.Driver, logger := logger },
             logger := logger } w ∧
    (∀ cc w1, NewCustomConnector (some k) logger w = .ret cc w1 →
      cc.Driver = { driver := k.Driver, logger := logger } ∧
      cc.Driver.driver = k.Driver ∧ cc.Driver.logger = logger) ∧
    (∀ cc : CustomConnector σ, cc.Driver = cc.driver) ∧
    (∀ c : dsnConnector σ, c.Driver = c.driver) := by
  refine ⟨?_, rfl, ?_, fun _ => rfl, fun _ => rfl⟩
  · intro x e w1 h
    cases hcap : D.driver.bind Driver.DriverContext with
    | none =>
      simp only [CustomDriver.OpenConnector, hcap] at h
      cases h
      rfl
    | some f =>
      cases hres : f name w.inner with
      | panic s1 =>
        simp [CustomDriver.OpenConnector, hcap, Op.run_bind, invoke_some, hres] at h
      | ret a s1 =>
        obtain ⟨kk, e1⟩ := a
        rw [OpenConnector_ret D f hcap name w kk e1 s1 hres] at h
        cases e1 with
        | some err => cases h
        | none =>
          cases h
          rfl
  · intro cc w1 h
    cases h
    exact ⟨rfl, rfl, rfl⟩

/-- Witness for C21: both branches of `OpenConnector` on the sample drivers,
and `NewCustomConnector` on the sample connector. -/
theorem C21_witness :
    (AnyConnector.dsn { dsn := "db", driver := CustomDriver.mk (some demoDriver) lg }).Driver =
      CustomDriver.mk (some demoDriver) lg ∧
    (AnyConnector.custom { connector := some demoConnector,
                           driver := CustomDriver.mk (some demoDriverCtx) lg,
                           logger := lg }).Driver =
      CustomDriver.mk (some demoDriverCtx) lg ∧
    (CustomConnector.mk (some demoConnector) (CustomDriver.mk (some demoDriver) ⟨2⟩) ⟨2⟩).Driver =
      CustomDriver.mk (some demoDriver) ⟨2⟩ :=
  ⟨(C21_Driver_returns_the_driver_wrapper (CustomDriver.mk (some demoDriver) lg) "db" w0
      demoConnector ⟨2⟩).1 _ none w0 rfl,
   (C21_Driver_returns_the_driver_wrapper (CustomDriver.mk (some demoDriverCtx) lg) "db" w0
      demoConnector ⟨2⟩).1 _ none _ rfl,
   ((C21_Driver_returns_the_driver_wrapper (CustomDriver.mk (some demoDriver) lg) "db" w0
      demoConnector ⟨2⟩).2.2.1 _ w0 rfl).1⟩

/-- C22: `ResetSession(ctx)` returns exactly what the delegate's
`ResetSession(ctx)` returned, after that single delegate call, when the
delegate implements `driver.SessionResetter`; otherwise it returns nil and
leaves the world as it was: no delegate call, no event. -/
theorem C22_ResetSession_delegates_or_noop {σ : Type} (c : customConn σ) (ctx : Context)
    (w : World σ) (s1 : σ) :
    (∀ p e, c.conn.bind Conn.SessionResetter = some p → p ctx w.inner = .ret e s1 →
      c.ResetSession ctx w =
        .ret e
          { inner := s1, calls := w.calls ++ [.ConnResetSession ctx], clock := w.clock,
            reads := w.reads, log := w.log }) ∧
    (c.conn.bind Conn.SessionResetter = none → c.ResetSession ctx w = .ret none w) := by
  refine ⟨?_, ?_⟩
  · intro p e hcap hret
    exact ResetSession_ret c p hcap ctx w e s1 hret
  · intro hcap
    simp only [customConn.ResetSession, hcap]
    rfl

/-- Witness for C22: the sample dead connection forwards its
`driver.ErrBadConn`; the sample base-only connection answers nil. -/
theorem C22_witness :
    (customConn.mk (some demoConnBroken) lg).ResetSession ctx0 w0 =
      .ret (some .ErrBadConn)
        { inner := 1, calls := [.ConnResetSession ctx0], clock := w0.clock, reads := 0,
          log := [] } ∧
    (customConn.mk (some demoConn) lg).ResetSession ctx0 w0 = .ret none w0 :=
  ⟨(C22_ResetSession_delegates_or_noop (customConn.mk (some demoConnBroken) lg) ctx0 w0 1).1
      _ _ rfl rfl,
   (C22_ResetSession_delegates_or_noop (customConn.mk (some demoConn) lg) ctx0 w0 0).2 rfl⟩

/-- C23: `IsValid()` returns exactly what the delegate's `IsValid()` returned,
after that single delegate call, when the delegate implements
`driver.Validator` (so `false` stays `false`); otherwise it returns `true` and
leaves the world as it was. -/
theorem C23_IsValid_delegates_or_true {σ : Type} (c : customConn σ) (w : World σ) (s1 : σ) :
    (∀ v b, c.conn.bind Conn.Validator = some v → v w.inner = .ret b s1 →
      c.IsValid w =
        .ret b
          { inner := s1, calls := w.calls ++ [.ConnIsValid], clock := w.clock,
            reads := w.reads, log := w.log }) ∧
    (c.conn.bind Conn.Validator = none → c.IsValid w = .ret true w) := by
  refine ⟨?_, ?_⟩
  · intro v b hcap hret
    exact IsValid_ret c v hcap w b s1 hret
  · intro hcap
    simp only [customConn.IsValid, hcap]
    rfl

/-- Witness for C23: the sample dead connection is reported invalid; the
sample base-only connection is reported valid. -/
theorem C23_witness :
    (customConn.mk (some demoConnBroken) lg).IsValid w0 =
      .ret false
        { inner := 0, calls := [.ConnIsValid], clock := w0.clock, reads := 0, log := [] } ∧
    (customConn.mk (some demoConn) lg).IsValid w0 = .ret true w0 :=
  ⟨(C23_IsValid_delegates_or_true (customConn.mk (some demoConnBroken) lg) w0 0).1 _ _ rfl rfl,
   (C23_IsValid_delegates_or_true (customConn.mk (some demoConn) lg) w0 0).2 rfl⟩

/-- C24: for `customConn` and for `customStmt`, when the delegate implements
`driver.NamedValueChecker`, `CheckNamedValue(nv)` makes the single delegate call
`CheckNamedValue(nv)` and returns exactly what it returned: the error, and the
value as the delegate left it (its in-place coercion).  Otherwise it returns
`driver.ErrSkip` with `nv` unchanged and leaves the world as it was. -/
theorem C24_CheckNamedValue_delegates_or_ErrSkip {σ : Type} (c : customConn σ)
    (s : customStmt σ) (nv : NamedValue) (w : World σ) (s1 : σ) :
    (∀ k nv1 e, c.conn.bind Conn.NamedValueChecker = some k →
      k nv w.inner = .ret (nv1, e) s1 →
      c.CheckNamedValue nv w =
        .ret (nv1, e)
          { inner := s1, calls := w.calls ++ [.ConnCheckNamedValue nv], clock := w.clock,
            reads := w.reads, log := w.log }) ∧
    (c.conn.bind Conn.NamedValueChecker = none →
      c.CheckNamedValue nv w = .ret (nv, some .ErrSkip) w) ∧
    (∀ k nv1 e, s.stmt.bind Stmt.NamedValueChecker = some k →
      k nv w.inner = .ret (nv1, e) s1 →
      s.CheckNamedValue nv w =
        .ret (nv1, e)
          { inner := s1, calls := w.calls ++ [.StmtCheckNamedValue nv], clock := w.clock,
            reads := w.reads, log := w.log }) ∧
    (s.stmt.bind Stmt.NamedValueChecker = none →
      s.CheckNamedValue nv w = .ret (nv, some .ErrSkip) w) := by
  refine ⟨?_, ?_, ?_, ?_⟩
  · intro k nv1 e hcap hret
    exact CheckNamedValue_ret c k hcap nv w (nv1, e) s1 hret
  · intro hcap
    simp only [customConn.CheckNamedValue, hcap]
    rfl
  · intro k nv1 e hcap hret
    exact stmt_CheckNamedValue_ret s k hcap nv w (nv1, e) s1 hret
  · intro hcap
    simp only [customStmt.CheckNamedValue, hcap]
    rfl

/-- Witness for C24: the sample checking statement coerces an integer and
refuses a string; the sample base-only connection answers `driver.ErrSkip`. -/
theorem C24_witness :
    (customStmt.mk (some demoStmtChecker) lg "SELECT ?").CheckNamedValue ⟨"n", 1, .int 5⟩ w0 =
      .ret (⟨"n", 1, .null⟩, none)
        { inner := 1, calls := [.StmtCheckNamedValue ⟨"n", 1, .int 5⟩], clock := w0.clock,
          reads := 0, log := [] } ∧
    (customStmt.mk (some demoStmtChecker) lg "SELECT ?").CheckNamedValue ⟨"n", 1, .str "x"⟩
        w0 =
      .ret (⟨"n", 1, .str "x"⟩, some (.other "unsupported type"))
        { inner := 1, calls := [.StmtCheckNamedValue ⟨"n", 1, .str "x"⟩], clock := w0.clock,
          reads := 0, log := [] } ∧
    (customConn.mk (some demoConn) lg).CheckNamedValue ⟨"n", 1, .int 5⟩ w0 =
      .ret (⟨"n", 1, .int 5⟩, some .ErrSkip) w0 :=
  ⟨(C24_CheckNamedValue_delegates_or_ErrSkip (customConn.mk (some demoConn) lg)
      (customStmt.mk (some demoStmtChecker) lg "SELECT ?") ⟨"n", 1, .int 5⟩ w0 1).2.2.1
      _ _ _ rfl rfl,
   (C24_CheckNamedValue_delegates_or_ErrSkip (customConn.mk (some demoConn) lg)
      (customStmt.mk (some demoStmtChecker) lg "SELECT ?") ⟨"n", 1, .str "x"⟩ w0 1).2.2.1
      _ _ _ rfl rfl,
   (C24_CheckNamedValue_delegates_or_ErrSkip (customConn.mk (some demoConn) lg)
      (customStmt.mk (some demoStmtChecker) lg "SELECT ?") ⟨"n", 1, .int 5⟩ w0 1).2.1 rfl⟩

/-- C25: `customConn.Close` and `customStmt.Close` keep no state of their own.
Each call makes the single delegate call `Close` and returns its result; two
calls in a row make two delegate calls, the second returning whatever the
delegate returned the second time; and when the delegate's `Close` returns,
`k` calls in a row make exactly `k` delegate calls. -/
theorem C25_Close_forwards_every_time {σ : Type} (c : customConn σ) (s : customStmt σ)
    (w : World σ) (e1 e2 : Option GoError) (s1 s2 : σ) (k : Nat) :
    (∀ d, c.conn = some d → d.Close w.inner = .ret e1 s1 → d.Close s1 = .ret e2 s2 →
      c.Close w =
        .ret e1
          { inner := s1, calls := w.calls ++ [.ConnClose], clock := w.clock,
            reads := w.reads, log := w.log } ∧
      c.Close { inner := s1, calls := w.calls ++ [.ConnClose], clock := w.clock,
                reads := w.reads, log := w.log } =
        .ret e2
          { inner := s2, calls := w.calls ++ [.ConnClose, .ConnClose], clock := w.clock,
            reads := w.reads, log := w.log }) ∧
    (∀ d, s.stmt = some d → d.Close w.inner = .ret e1 s1 → d.Close s1 = .ret e2 s2 →
      s.Close w =
        .ret e1
          { inner := s1, calls := w.calls ++ [.StmtClose], clock := w.clock,
            reads := w.reads, log := w.log } ∧
      s.Close { inner := s1, calls := w.calls ++ [.StmtClose], clock := w.clock,
                reads := w.reads, log := w.log } =
        .ret e2
          { inner := s2, calls := w.calls ++ [.StmtClose, .StmtClose], clock := w.clock,
            reads := w.reads, log := w.log }) ∧
    (∀ d, c.conn = some d → (∀ s0, ∃ e s3, d.Close s0 = .ret e s3) →
      ∃ rs w1, Op.times c.Close k w = .ret rs w1 ∧ rs.length = k ∧
        w.calledSince w1 = List.replicate k .ConnClose) ∧
    (∀ d, s.stmt = some d → (∀ s0, ∃ e s3, d.Close s0 = .ret e s3) →
      ∃ rs w1, Op.times s.Close k w = .ret rs w1 ∧ rs.length = k ∧
        w.calledSince w1 = List.replicate k .StmtClose) := by
  refine ⟨?_, ?_, ?_, ?_⟩
  · intro d hd h1 h2
    refine ⟨Close_ret c d hd w e1 s1 h1, ?_⟩
    rw [Close_ret c d hd _ e2 s2 h2]
    simp [World.afterCall]
  · intro d hd h1 h2
    refine ⟨stmt_Close_ret s d hd w e1 s1 h1, ?_⟩
    rw [stmt_Close_ret s d hd _ e2 s2 h2]
    simp [World.afterCall]
  · intro d hd htotal
    have hstep : ∀ w2 : World σ, ∃ a w1, c.Close w2 = .ret a w1 ∧
        w1.calls = w2.calls ++ [.ConnClose] := by
      intro w2
      obtain ⟨e, s3, he⟩ := htotal w2.inner
      exact ⟨_, _, Close_ret c d hd w2 e s3 he, rfl⟩
    obtain ⟨rs, w1, h1, hl, hc⟩ := times_calls _ _ hstep k w
    exact ⟨rs, w1, h1, hl, calledSince_append _ _ _ hc⟩
  · intro d hd htotal
    have hstep : ∀ w2 : World σ, ∃ a w1, s.Close w2 = .ret a w1 ∧
        w1.calls = w2.calls ++ [.StmtClose] := by
      intro w2
      obtain ⟨e, s3, he⟩ := htotal w2.inner
      exact ⟨_, _, stmt_Close_ret s d hd w2 e s3 he, rfl⟩
    obtain ⟨rs, w1, h1, hl, hc⟩ := times_calls _ _ hstep k w
    exact ⟨rs, w1, h1, hl, calledSince_append _ _ _ hc⟩

/-- Witness for C25: on the sample connection that can be closed once, the
first `Close` returns nil and the second returns the delegate's
`"already closed"`, with two delegate calls made. -/
theorem C25_witness :
    (customConn.mk (some demoConnCloseOnce) lg).Close w0 =
      .ret none
        { inner := 1, calls := [.ConnClose], clock := w0.clock, reads := 0, log := [] } ∧
    (customConn.mk (some demoConnCloseOnce) lg).Close
        { inner := 1, calls := [.ConnClose], clock := w0.clock, reads := 0, log := [] } =
      .ret (some (.other "already closed"))
        { inner := 2, calls := [.ConnClose, .ConnClose], clock := w0.clock, reads := 0,
          log := [] } :=
  (C25_Close_forwards_every_time (customConn.mk (some demoConnCloseOnce) lg)
    (customStmt.mk (some demoStmt) lg "SELECT 1") w0 none (some (.other "already closed")) 1 2
    2).1 demoConnCloseOnce rfl rfl rfl

/-- C27: when the delegate implements `driver.ExecerContext` (resp.
`driver.QueryerContext`) and its call returns the error `driver.ErrSkip`,
whatever result `r` it hands back with it, `ExecContext` (resp. `QueryContext`)
returns `(nil, driver.ErrSkip)` after that single delegate call and emits
exactly one event, the warning: no success event and no `"sql execution
failed"` / `"sql query failed"` event. -/
theorem C27_delegate_ErrSkip_is_warned_and_result_dropped {σ : Type} (c : customConn σ)
    (ctx : Context) (query : String) (args : List NamedValue) (w : World σ) (s1 : σ) :
    (∀ f r, c.conn.bind Conn.ExecerContext = some f →
      f ctx query args w.inner = .ret (r, some .ErrSkip) s1 →
      c.ExecContext ctx query args w =
        .ret (none, some .ErrSkip)
          { inner := s1, calls := w.calls ++ [.ConnExecContext ctx query args],
            clock := w.clock, reads := w.reads + 1,
            log := w.log ++ [⟨c.logger, .Warn,
              "original driver does not support ExecerContext", []⟩] }) ∧
    (∀ f r, c.conn.bind Conn.QueryerContext = some f →
      f ctx query args w.inner = .ret (r, some .ErrSkip) s1 →
      c.QueryContext ctx query args w =
        .ret (none, some .ErrSkip)
          { inner := s1, calls := w.calls ++ [.ConnQueryContext ctx query args],
            clock := w.clock, reads := w.reads + 1,
            log := w.log ++ [⟨c.logger, .Warn,
              "original driver does not support QueryerContext", []⟩] }) := by
  refine ⟨?_, ?_⟩
  · intro f r hcap hret
    exact ExecContext_skip c f hcap ctx query args w r s1 hret
  · intro f r hcap hret
    exact QueryContext_skip c f hcap ctx query args w r s1 hret

/-- Witness for C27: the sample connection answering `driver.ErrSkip` next to a
result and next to rows. -/
theorem C27_witness :
    (customConn.mk (some demoConnSkip) lg).ExecContext ctx0 "INSERT INTO t(x) VALUES (1)" []
        w0 =
      .ret (none, some .ErrSkip)
        { inner := 1, calls := [.ConnExecContext ctx0 "INSERT INTO t(x) VALUES (1)" []],
          clock := w0.clock, reads := 1,
          log := [⟨lg, .Warn, "original driver does not support ExecerContext", []⟩] } ∧
    (customConn.mk (some demoConnSkip) lg).QueryContext ctx0 "SELECT 1" [] w0 =
      .ret (none, some .ErrSkip)
        { inner := 1, calls := [.ConnQueryContext ctx0 "SELECT 1" []],
          clock := w0.clock, reads := 1,
          log := [⟨lg, .Warn, "original driver does not support QueryerContext", []⟩] } :=
  ⟨(C27_delegate_ErrSkip_is_warned_and_result_dropped (customConn.mk (some demoConnSkip) lg)
      ctx0 "INSERT INTO t(x) VALUES (1)" [] w0 1).1 _ (some ⟨0, 0⟩) rfl rfl,
   (C27_delegate_ErrSkip_is_warned_and_result_dropped (customConn.mk (some demoConnSkip) lg)
      ctx0 "SELECT 1" [] w0 1).2 _ (some demoRows) rfl rfl⟩

/-- C28: on a delegate that implements neither `driver.Pinger` nor
`driver.QueryerContext`, `Ping(ctx)` returns `driver.ErrSkip` (not nil: the
connection is not reported alive), makes no delegate call at all, so sends no
probe query, and emits exactly one event, the warning. -/
theorem C28_Ping_without_Pinger_and_Queryer_is_ErrSkip {σ : Type} (c : customConn σ)
    (hp : c.conn.bind Conn.Pinger = none) (hq : c.conn.bind Conn.QueryerContext = none)
    (ctx : Context) (w : World σ) :
    c.Ping ctx w =
      .ret (some .ErrSkip)
        { inner := w.inner, calls := w.calls, clock := w.clock, reads := w.reads + 1,
          log := w.log ++ [⟨c.logger, .Warn,
            "original driver does not support QueryerContext", []⟩] } :=
  Ping_base c hp hq ctx w

/-- Witness for C28: the wrapper around `constdriver.Conn`. -/
theorem C28_witness :
    (customConn.mk (some constdriver.Conn) lg).Ping ctx0 constdriver.world0 =
      .ret (some .ErrSkip)
        { inner := [], calls := [], clock := constdriver.world0.clock, reads := 1,
          log := [⟨lg, .Warn, "original driver does not support QueryerContext", []⟩] } :=
  C28_Ping_without_Pinger_and_Queryer_is_ErrSkip (customConn.mk (some constdriver.Conn) lg)
    rfl rfl ctx0 constdriver.world0

end customdriver

namespace constdriver

open driver

/-! ## `copy`, `Next` and the row index -/

theorem goCopy_length (dst src : List Value) : (goCopy dst src).length = dst.length := by
  simp only [goCopy, List.length_append, List.length_take, List.length_drop]
  omega

theorem goCopy_getElem? (dst src : List Value) (j : Nat) :
    (goCopy dst src)[j]? = if j < min dst.length src.length then src[j]? else dst[j]? := by
  have hlen : (src.take (min dst.length src.length)).length = min dst.length src.length := by
    simp only [List.length_take]
    omega
  by_cases hj : j < min dst.length src.length
  · rw [if_pos hj, goCopy, List.getElem?_append_left (by rw [hlen]; exact hj),
      List.getElem?_take_of_lt hj]
  · rw [if_neg hj, goCopy, List.getElem?_append_right (by rw [hlen]; omega), hlen,
      List.getElem?_drop]
    congr 1
    omega

theorem Next_row (data : List (List Value)) (i : Nat) (dest row : List Value)
    (hrow : data[i]? = some row) :
    Rows.Next dest ⟨(i : Int), data⟩ = .ret (goCopy dest row, none) ⟨(i : Int) + 1, data⟩ := by
  have hi : i < data.length := by
    rcases Nat.lt_or_ge i data.length with h | h
    · exact h
    · rw [List.getElem?_eq_none h] at hrow
      cases hrow
  have h1 : ¬ ((i : Int) ≥ (data.length : Int)) := by omega
  have h2 : ¬ ((i : Int) < 0) := by omega
  simp only [Rows.Next, goIndex, h1, h2, if_false, Int.toNat_ofNat, hrow]

theorem Next_done (data : List (List Value)) (j : Int) (dest : List Value)
    (hj : (data.length : Int) ≤ j) :
    Rows.Next dest ⟨j, data⟩ = .ret (dest, some .EOF) ⟨j, data⟩ := by
  have h1 : j ≥ (data.length : Int) := hj
  simp only [Rows.Next, h1, if_true]

/-- From index `i ≤ n`, `k` calls of `Next` all return: the first `n - i` of
them with a nil error, the later ones with `io.EOF`, and the index ends at
`min (i + k) n`. -/
theorem NextTimes_from (data : List (List Value)) (k : Nat) :
    ∀ (i : Nat) (dest : List Value), i ≤ data.length →
      ∃ rs, Rows.NextTimes k dest ⟨(i : Int), data⟩ =
          .ret rs ⟨((min (i + k) data.length : Nat) : Int), data⟩ ∧
        rs.map Prod.snd =
          List.replicate (min k (data.length - i)) none ++
            List.replicate (k - (data.length - i)) (some GoError.EOF) := by
  induction k with
  | zero =>
    intro i dest hi
    refine ⟨[], ?_, by simp⟩
    have h0 : min (i + 0) data.length = i := by omega
    rw [h0]
    rfl
  | succ k ih =>
    intro i dest hi
    rcases Nat.lt_or_ge i data.length with hlt | hge
    · have hrow : data[i]? = some data[i] := List.getElem?_eq_getElem hlt
      obtain ⟨rs, hrs, herr⟩ := ih (i + 1) (goCopy dest data[i]) hlt
      have hcast : ((i : Int) + 1) = ((i + 1 : Nat) : Int) := by omega
      have hidx : min (i + 1 + k) data.length = min (i + (k + 1)) data.length := by omega
      have hn1 : min (k + 1) (data.length - i) = min k (data.length - (i + 1)) + 1 := by omega
      have hn2 : k + 1 - (data.length - i) = k - (data.length - (i + 1)) := by omega
      refine ⟨(goCopy dest data[i], none) :: rs, ?_, ?_⟩
      · simp only [Rows.NextTimes, Op.bind, Next_row data i dest data[i] hrow, hcast, hrs,
          Op.pure, hidx]
      · rw [List.map_cons, herr, hn1, hn2, List.replicate_succ, List.cons_append]
    · have hin : i = data.length := by omega
      obtain ⟨rs, hrs, herr⟩ := ih i dest hi
      have hidx : min (i + k) data.length = min (i + (k + 1)) data.length := by omega
      have hn1 : min (k + 1) (data.length - i) = 0 := by omega
      have hn2 : min k (data.length - i) = 0 := by omega
      have hn3 : k + 1 - (data.length - i) = (k - (data.length - i)) + 1 := by omega
      refine ⟨(dest, some GoError.EOF) :: rs, ?_, ?_⟩
      · simp only [Rows.NextTimes, Op.bind,
          Next_done data (i : Int) dest (by omega), hrs, Op.pure, hidx]
      · rw [List.map_cons, herr, hn1, hn2, hn3, List.replicate_succ]
        simp

theorem rowsAt_Next_fresh (h : Heap) (r : Rows) (dest : List Value) :
    (rowsAt h.length).Next dest (h ++ [r]) =
      match Rows.Next dest r with
      | .ret x r1 => .ret x (h ++ [r1])
      | .panic _ => .panic (h ++ [r]) := by
  have hget : (h ++ [r])[h.length]? = some r := by
    rw [List.getElem?_append_right (Nat.le_refl _)]
    simp
  simp only [rowsAt, hget]
  cases Rows.Next dest r with
  | panic r1 => rfl
  | ret x r1 => simp

/-- C29: `Stmt.Query` of the constant-data driver allocates, at an address not
used before, a `Rows` at index 0 over exactly the rows `(1, "Alice")` and
`(2, "Bob")`, and returns it with a nil error; the first `Next` on it hands out
`(1, "Alice")`.  For a `Rows` over `data` with `n` rows and index `i ≤ n`:
`Next` never panics; when `i < n` it returns nil, copies row `i` into `dest`
(the first `min(len(dest), len(row))` values, `dest` keeping its length and its
other values) and moves the index to `i + 1`; when `i = n` it returns `io.EOF`
and changes nothing; either way the index stays between `0` and `n`.  So from
index 0 the first `n` of `k` calls return nil, the later ones `io.EOF`, and
the index ends at `min k n`. -/
theorem C29_constdriver_Query_fresh_and_Next_bounded (args : List Value) (h : Heap)
    (data : List (List Value)) (i : Nat) (hi : i ≤ data.length) (dest : List Value)
    (k : Nat) :
    Stmt.Query args h =
      .ret (some (rowsAt h.length), none)
        (h ++ [⟨0, [[.int 1, .str "Alice"], [.int 2, .str "Bob"]]⟩]) ∧
    h[h.length]? = none ∧
    (rowsAt h.length).Next dest (h ++ [⟨0, [[.int 1, .str "Alice"], [.int 2, .str "Bob"]]⟩]) =
      .ret (goCopy dest [.int 1, .str "Alice"], none)
        (h ++ [⟨1, [[.int 1, .str "Alice"], [.int 2, .str "Bob"]]⟩]) ∧
    (∀ row, data[i]? = some row →
      Rows.Next dest ⟨(i : Int), data⟩ = .ret (goCopy dest row, none) ⟨(i : Int) + 1, data⟩) ∧
    (i < data.length → ∃ row, data[i]? = some row) ∧
    (i = data.length →
      Rows.Next dest ⟨(i : Int), data⟩ = .ret (dest, some .EOF) ⟨(i : Int), data⟩) ∧
    (∀ row : List Value, (goCopy dest row).length = dest.length ∧
      ∀ j : Nat, (goCopy dest row)[j]? =
        if j < min dest.length row.length then row[j]? else dest[j]?) ∧
    (∃ x r1, Rows.Next dest ⟨(i : Int), data⟩ = .ret x r1 ∧
      0 ≤ r1.index ∧ r1.index ≤ (data.length : Int) ∧ r1.data = data) ∧
    (∃ rs, Rows.NextTimes k dest ⟨0, data⟩ =
        .ret rs ⟨((min k data.length : Nat) : Int), data⟩ ∧
      rs.map Prod.snd =
        List.replicate (min k data.length) none ++
          List.replicate (k - data.length) (some GoError.EOF)) := by
  refine ⟨rfl, List.getElem?_eq_none (Nat.le_refl _), ?_, ?_, ?_, ?_, ?_, ?_, ?_⟩
  · rw [rowsAt_Next_fresh]
    rfl
  · intro row hrow
    exact Next_row data i dest row hrow
  · intro hlt
    exact ⟨data[i], List.getElem?_eq_getElem hlt⟩
  · intro heq
    exact Next_done data (i : Int) dest (by omega)
  · intro row
    exact ⟨goCopy_length dest row, goCopy_getElem? dest row⟩
  · rcases Nat.lt_or_ge i data.length with hlt | hge
    · refine ⟨_, _, Next_row data i dest data[i] (List.getElem?_eq_getElem hlt), ?_, ?_, rfl⟩
      · show (0 : Int) ≤ (i : Int) + 1
        omega
      · show (i : Int) + 1 ≤ (data.length : Int)
        omega
    · refine ⟨_, _, Next_done data (i : Int) dest (by omega), ?_, ?_, rfl⟩
      · show (0 : Int) ≤ (i : Int)
        omega
      · show (i : Int) ≤ (data.length : Int)
        omega
  · obtain ⟨rs, hrs, herr⟩ := NextTimes_from data k 0 dest (Nat.zero_le _)
    refine ⟨rs, ?_, ?_⟩
    · rw [Nat.zero_add] at hrs
      exact hrs
    · rw [herr, Nat.sub_zero]

/-- Witness for C29: over the two constant rows, `Next` at index 1 with a
one-element `dest` copies only the id of `(2, "Bob")` and moves to index 2,
where `Next` returns `io.EOF` and stays. -/
theorem C29_witness :
    Rows.Next [.null] ⟨1, [[.int 1, .str "Alice"], [.int 2, .str "Bob"]]⟩ =
      .ret ([.int 2], none) ⟨2, [[.int 1, .str "Alice"], [.int 2, .str "Bob"]]⟩ ∧
    Rows.Next [.null, .null] ⟨2, [[.int 1, .str "Alice"], [.int 2, .str "Bob"]]⟩ =
      .ret ([.null, .null], some .EOF) ⟨2, [[.int 1, .str "Alice"], [.int 2, .str "Bob"]]⟩ :=
  ⟨(C29_constdriver_Query_fresh_and_Next_bounded [] []
      [[.int 1, .str "Alice"], [.int 2, .str "Bob"]] 1 (by decide) [.null] 3).2.2.2.1
      [.int 2, .str "Bob"] rfl,
   (C29_constdriver_Query_fresh_and_Next_bounded [] []
      [[.int 1, .str "Alice"], [.int 2, .str "Bob"]] 2 (by decide) [.null, .null] 3).2.2.2.2.2.1
      rfl⟩

end constdriver

namespace customdriver

open driver

/-! ## A wrapper around a wrapper -/

theorem invoke_some_total {σ τ α : Type} (d : τ) (call : Call) (m : τ → Op σ α)
    (w : World σ) :
    (invoke (some d) call m w).value? = (m d w.inner).value? ∧
    (invoke (some d) call m w).state.inner = (m d w.inner).state ∧
    w.calledSince (invoke (some d) call m w).state = [call] := by
  rw [invoke_some]
  cases m d w.inner with
  | ret a s1 => exact ⟨rfl, rfl, calledSince_append _ _ _ rfl⟩
  | panic s1 => exact ⟨rfl, rfl, calledSince_append _ _ _ rfl⟩

theorem ExecContext_ErrSkip_result {σ : Type} (c : customConn σ) (ctx : Context)
    (query : String) (args : List NamedValue) (w w1 : World σ) (x : Option Result)
    (h : c.ExecContext ctx query args w = .ret (x, some .ErrSkip) w1) : x = none := by
  cases hcap : c.conn.bind Conn.ExecerContext with
  | none =>
    rw [ExecContext_absent c hcap] at h
    cases h
    rfl
  | some f =>
    cases hres : f ctx query args w.inner with
    | panic s1 =>
      rw [ExecContext_panic c f hcap ctx query args w s1 hres] at h
      cases h
    | ret a s1 =>
      obtain ⟨r, e⟩ := a
      by_cases he : e = some .ErrSkip
      · subst he
        rw [ExecContext_skip c f hcap ctx query args w r s1 hres] at h
        cases h
        rfl
      · rw [ExecContext_present c f hcap ctx query args w r e s1 hres he] at h
        injection h with h1 h2
        injection h1 with h3 h4
        exact absurd h4 he

theorem QueryContext_ErrSkip_result {σ : Type} (c : customConn σ) (ctx : Context)
    (query : String) (args : List NamedValue) (w w1 : World σ) (x : Option (Rows σ))
    (h : c.QueryContext ctx query args w = .ret (x, some .ErrSkip) w1) : x = none := by
  cases hcap : c.conn.bind Conn.QueryerContext with
  | none =>
    rw [QueryContext_absent c hcap] at h
    cases h
    rfl
  | some f =>
    cases hres : f ctx query args w.inner with
    | panic s1 =>
      rw [QueryContext_panic c f hcap ctx query args w s1 hres] at h
      cases h
    | ret a s1 =>
      obtain ⟨r, e⟩ := a
      by_cases he : e = some .ErrSkip
      · subst he
        rw [QueryContext_skip c f hcap ctx query args w r s1 hres] at h
        cases h
        rfl
      · rw [QueryContext_present c f hcap ctx query args w r e s1 hres he] at h
        injection h with h1 h2
        injection h1 with h3 h4
        exact absurd h4 he

theorem nested_ExecContext {σ : Type} (c : customConn σ) (l2 : slog.Logger) (ctx : Context)
    (query : String) (args : List NamedValue) (W : World (World σ)) :
    ((c.wrapAgain l2).ExecContext ctx query args W).value? =
      (c.ExecContext ctx query args W.inner).value? ∧
    ((c.wrapAgain l2).ExecContext ctx query args W).state.inner =
      (c.ExecContext ctx query args W.inner).state ∧
    W.calledSince ((c.wrapAgain l2).ExecContext ctx query args W).state =
      [.ConnExecContext ctx query args] := by
  have hcap : (c.wrapAgain l2).conn.bind Conn.ExecerContext = some c.ExecContext := rfl
  cases hres : c.ExecContext ctx query args W.inner with
  | panic w1 =>
    rw [ExecContext_panic (c.wrapAgain l2) _ hcap ctx query args W w1 hres]
    exact ⟨rfl, rfl, calledSince_append _ _ _ rfl⟩
  | ret a w1 =>
    obtain ⟨r, e⟩ := a
    by_cases he : e = some .ErrSkip
    · subst he
      have hr := ExecContext_ErrSkip_result c ctx query args W.inner w1 r hres
      subst hr
      rw [ExecContext_skip (c.wrapAgain l2) _ hcap ctx query args W none w1 hres]
      exact ⟨rfl, rfl, calledSince_append _ _ _ rfl⟩
    · rw [ExecContext_present (c.wrapAgain l2) _ hcap ctx query args W r e w1 hres he]
      exact ⟨rfl, rfl, calledSince_append _ _ _ rfl⟩

theorem nested_QueryContext {σ : Type} (c : customConn σ) (l2 : slog.Logger) (ctx : Context)
    (query : String) (args : List NamedValue) (W : World (World σ)) :
    ((c.wrapAgain l2).QueryContext ctx query args W).value? =
      (c.QueryContext ctx query args W.inner).value?.map
        (fun p => (p.1.map liftRows, p.2)) ∧
    ((c.wrapAgain l2).QueryContext ctx query args W).state.inner =
      (c.QueryContext ctx query args W.inner).state ∧
    W.calledSince ((c.wrapAgain l2).QueryContext ctx query args W).state =
      [.ConnQueryContext ctx query args] := by
  have hcap : (c.wrapAgain l2).conn.bind Conn.QueryerContext =
      some (fun ctx query args =>
        mapRet (fun p => (p.1.map liftRows, p.2)) (c.QueryContext ctx query args)) := rfl
  cases hres : c.QueryContext ctx query args W.inner with
  | panic w1 =>
    have hret : mapRet (fun p : Option (Rows σ) × Option GoError => (p.1.map liftRows, p.2))
        (c.QueryContext ctx query args) W.inner = .panic w1 := by
      simp only [mapRet, Op.bind, hres]
    rw [QueryContext_panic (c.wrapAgain l2) _ hcap ctx query args W w1 hret]
    exact ⟨rfl, rfl, calledSince_append _ _ _ rfl⟩
  | ret a w1 =>
    obtain ⟨r, e⟩ := a
    have hret : mapRet (fun p : Option (Rows σ) × Option GoError => (p.1.map liftRows, p.2))
        (c.QueryContext ctx query args) W.inner = .ret (r.map liftRows, e) w1 := by
      simp only [mapRet, Op.bind, hres, Op.pure]
    by_cases he : e = some .ErrSkip
    · subst he
      have hr := QueryContext_ErrSkip_result c ctx query args W.inner w1 r hres
      subst hr
      rw [QueryContext_skip (c.wrapAgain l2) _ hcap ctx query args W _ w1 hret]
      exact ⟨rfl, rfl, calledSince_append _ _ _ rfl⟩
    · rw [QueryContext_present (c.wrapAgain l2) _ hcap ctx query args W _ e w1 hret he]
      exact ⟨rfl, rfl, calledSince_append _ _ _ rfl⟩

theorem nested_Ping {σ : Type} (c : customConn σ) (l2 : slog.Logger) (ctx : Context)
    (W : World (World σ)) :
    ((c.wrapAgain l2).Ping ctx W).value? = (c.Ping ctx W.inner).value? ∧
    ((c.wrapAgain l2).Ping ctx W).state.inner = (c.Ping ctx W.inner).state ∧
    W.calledSince ((c.wrapAgain l2).Ping ctx W).state = [.ConnPing ctx] := by
  have h : (c.wrapAgain l2).Ping ctx =
      invoke (some c.Ping) (.ConnPing ctx) (fun f => f ctx) := rfl
  rw [h]
  exact invoke_some_total c.Ping (.ConnPing ctx) (fun f => f ctx) W

theorem nested_ResetSession {σ : Type} (c : customConn σ) (l2 : slog.Logger) (ctx : Context)
    (W : World (World σ)) :
    ((c.wrapAgain l2).ResetSession ctx W).value? = (c.ResetSession ctx W.inner).value? ∧
    ((c.wrapAgain l2).ResetSession ctx W).state.inner = (c.ResetSession ctx W.inner).state ∧
    W.calledSince ((c.wrapAgain l2).ResetSession ctx W).state = [.ConnResetSession ctx] := by
  have h : (c.wrapAgain l2).ResetSession ctx =
      invoke (some c.ResetSession) (.ConnResetSession ctx) (fun f => f ctx) := rfl
  rw [h]
  exact invoke_some_total c.ResetSession (.ConnResetSession ctx) (fun f => f ctx) W

theorem nested_IsValid {σ : Type} (c : customConn σ) (l2 : slog.Logger)
    (W : World (World σ)) :
    ((c.wrapAgain l2).IsValid W).value? = (c.IsValid W.inner).value? ∧
    ((c.wrapAgain l2).IsValid W).state.inner = (c.IsValid W.inner).state ∧
    W.calledSince ((c.wrapAgain l2).IsValid W).state = [.ConnIsValid] := by
  have h : (c.wrapAgain l2).IsValid = invoke (some c.IsValid) .ConnIsValid (fun f => f) := rfl
  rw [h]
  exact invoke_some_total c.IsValid .ConnIsValid (fun f => f) W

theorem nested_CheckNamedValue {σ : Type} (c : customConn σ) (l2 : slog.Logger)
    (nv : NamedValue) (W : World (World σ)) :
    ((c.wrapAgain l2).CheckNamedValue nv W).value? = (c.CheckNamedValue nv W.inner).value? ∧
    ((c.wrapAgain l2).CheckNamedValue nv W).state.inner =
      (c.CheckNamedValue nv W.inner).state ∧
    W.calledSince ((c.wrapAgain l2).CheckNamedValue nv W).state =
      [.ConnCheckNamedValue nv] := by
  have h : (c.wrapAgain l2).CheckNamedValue nv =
      invoke (some c.CheckNamedValue) (.ConnCheckNamedValue nv) (fun f => f nv) := rfl
  rw [h]
  exact invoke_some_total c.CheckNamedValue (.ConnCheckNamedValue nv) (fun f => f nv) W

/-- C26: wrapping is transparent under nesting.  Let `d` be any delegate
connection, `c = customConn{d}` and `cc = customConn{c}`.  For each of
`ExecContext`, `QueryContext`, `Ping`, `ResetSession`, `IsValid` and
`CheckNamedValue`, the call on `cc` returns (or panics) exactly as the same
call on `c` does, with the same value and error (the rows of `QueryContext`
being the delegate's own rows); it leaves the world of `c`, hence the state of
`d` and the sequence of calls made on `d`, exactly as the call on `c` alone
leaves it; and the only call `cc` makes is that one call on `c`. -/
theorem C26_nested_wrapper_is_transparent {σ : Type} (d : Conn σ) (l1 l2 : slog.Logger)
    (ctx : Context) (query : String) (args : List NamedValue) (nv : NamedValue)
    (W : World (World σ)) :
    ((((customConn.mk (some d) l1).wrapAgain l2).ExecContext ctx query args W).value? =
        ((customConn.mk (some d) l1).ExecContext ctx query args W.inner).value? ∧
      (((customConn.mk (some d) l1).wrapAgain l2).ExecContext ctx query args W).state.inner =
        ((customConn.mk (some d) l1).ExecContext ctx query args W.inner).state ∧
      W.calledSince (((customConn.mk (some d) l1).wrapAgain l2).ExecContext ctx query args
        W).state = [.ConnExecContext ctx query args]) ∧
    ((((customConn.mk (some d) l1).wrapAgain l2).QueryContext ctx query args W).value? =
        ((customConn.mk (some d) l1).QueryContext ctx query args W.inner).value?.map
          (fun p => (p.1.map liftRows, p.2)) ∧
      (((customConn.mk (some d) l1).wrapAgain l2).QueryContext ctx query args W).state.inner =
        ((customConn.mk (some d) l1).QueryContext ctx query args W.inner).state ∧
      W.calledSince (((customConn.mk (some d) l1).wrapAgain l2).QueryContext ctx query args
        W).state = [.ConnQueryContext ctx query args]) ∧
    ((((customConn.mk (some d) l1).wrapAgain l2).Ping ctx W).value? =
        ((customConn.mk (some d) l1).Ping ctx W.inner).value? ∧
      (((customConn.mk (some d) l1).wrapAgain l2).Ping ctx W).state.inner =
        ((customConn.mk (some d) l1).Ping ctx W.inner).state ∧
      W.calledSince (((customConn.mk (some d) l1).wrapAgain l2).Ping ctx W).state =
        [.ConnPing ctx]) ∧
    ((((customConn.mk (some d) l1).wrapAgain l2).ResetSession ctx W).value? =
        ((customConn.mk (some d) l1).ResetSession ctx W.inner).value? ∧
      (((customConn.mk (some d) l1).wrapAgain l2).ResetSession ctx W).state.inner =
        ((customConn.mk (some d) l1).ResetSession ctx W.inner).state ∧
      W.calledSince (((customConn.mk (some d) l1).wrapAgain l2).ResetSession ctx W).state =
        [.ConnResetSession ctx]) ∧
    ((((customConn.mk (some d) l1).wrapAgain l2).IsValid W).value? =
        ((customConn.mk (some d) l1).IsValid W.inner).value? ∧
      (((customConn.mk (some d) l1).wrapAgain l2).IsValid W).state.inner =
        ((customConn.mk (some d) l1).IsValid W.inner).state ∧
      W.calledSince (((customConn.mk (some d) l1).wrapAgain l2).IsValid W).state =
        [.ConnIsValid]) ∧
    ((((customConn.mk (some d) l1).wrapAgain l2).CheckNamedValue nv W).value? =
        ((customConn.mk (some d) l1).CheckNamedValue nv W.inner).value? ∧
      (((customConn.mk (some d) l1).wrapAgain l2).CheckNamedValue nv W).state.inner =
        ((customConn.mk (some d) l1).CheckNamedValue nv W.inner).state ∧
      W.calledSince (((customConn.mk (some d) l1).wrapAgain l2).CheckNamedValue nv W).state =
        [.ConnCheckNamedValue nv]) :=
  ⟨nested_ExecContext _ l2 ctx query args W, nested_QueryContext _ l2 ctx query args W,
   nested_Ping _ l2 ctx W, nested_ResetSession _ l2 ctx W, nested_IsValid _ l2 W,
   nested_CheckNamedValue _ l2 nv W⟩

/-- Witness for C26: a wrapper around the wrapper of the sample base-only
connection answers `ExecContext` with `(nil, driver.ErrSkip)` and calls nothing
on the delegate, like the single wrapper; a wrapper around the wrapper of the
sample context-aware connection returns the delegate's result after the one
delegate call. -/
theorem C26_witness :
    (((customConn.mk (some demoConn) lg).wrapAgain ⟨2⟩).ExecContext ctx0 "SELECT 1" []
        w00).value? = some (none, some .ErrSkip) ∧
    (((customConn.mk (some demoConn) lg).wrapAgain ⟨2⟩).ExecContext ctx0 "SELECT 1" []
        w00).state.inner.calls = [] ∧
    (((customConn.mk (some demoConnCtx) lg).wrapAgain ⟨2⟩).ExecContext ctx0 "SELECT 1"
        [⟨"", 1, .int 4⟩] w00).value? = some (some ⟨7, 1⟩, none) ∧
    (((customConn.mk (some demoConnCtx) lg).wrapAgain ⟨2⟩).ExecContext ctx0 "SELECT 1"
        [⟨"", 1, .int 4⟩] w00).state.inner.calls =
      [.ConnExecContext ctx0 "SELECT 1" [⟨"", 1, .int 4⟩]] :=
  ⟨(C26_nested_wrapper_is_transparent demoConn lg ⟨2⟩ ctx0 "SELECT 1" [] ⟨"", 1, .null⟩
      w00).1.1,
   congrArg World.calls (C26_nested_wrapper_is_transparent demoConn lg ⟨2⟩ ctx0 "SELECT 1" []
      ⟨"", 1, .null⟩ w00).1.2.1,
   (C26_nested_wrapper_is_transparent demoConnCtx lg ⟨2⟩ ctx0 "SELECT 1" [⟨"", 1, .int 4⟩]
      ⟨"", 1, .null⟩ w00).1.1,
   congrArg World.calls (C26_nested_wrapper_is_transparent demoConnCtx lg ⟨2⟩ ctx0 "SELECT 1"
      [⟨"", 1, .int 4⟩] ⟨"", 1, .null⟩ w00).1.2.1⟩

end customdriver
